import Mathlib

/-
  Verification development for the GATT cache manager
  (components/ble/peer_manager/gatt_cache_manager.c, namespace GCM) and for the
  command processing of the EPD BLE service (EPD/EPD_ble.c, namespace EPD).
  The notes below describe the embedding of the cache manager.

  The module is embedded as state-passing functions over a value of type World.
  A World holds the module variable m_gcm, the state of the connection-state
  collaborator (active connection handles and the per-connection user flags) and
  a trace: the list, oldest first, of every call the module made into a
  collaborator and of every call through m_gcm.evt_handler.

  Collaborators (store adapters, identity manager) are functions in an Env; each
  takes the trace at the moment of the call, so that two calls of one adapter on
  one connection may answer differently.  The event handler is modelled as an
  observer: its invocation is recorded and it does not call back into the module.
  A call through a NULL m_gcm.evt_handler is recorded as Action.evt_handler none;
  what the C program does after such a call is undefined, so the main theorems
  about a path that may call the handler assume that a handler is registered.
-/

namespace GCM

-- ---------------------------------------------------------------------------
-- Constants of the SDK headers (nrf_error.h, ble_err.h, ble_gatts.h, ble_gap.h,
-- ble_types.h, peer_manager_types.h, ble_conn_state.h).  The headers are not part
-- of the sources at hand; the numeric values are those of the nRF5 SDK, and the
-- development only relies on the case labels of one switch being distinct.
-- ---------------------------------------------------------------------------

/-- Modelled from the spec: outcome Success; value of nrf_error.h. -/
abbrev NRF_SUCCESS : Nat := 0
/-- Modelled from the spec: internal error (slot exhaustion); value of nrf_error.h. -/
abbrev NRF_ERROR_INTERNAL : Nat := 3
/-- Modelled from the spec: outcome StorageFull; value of nrf_error.h. -/
abbrev NRF_ERROR_NO_MEM : Nat := 4
/-- Modelled from the spec: the invalid-state signal; value of nrf_error.h. -/
abbrev NRF_ERROR_INVALID_STATE : Nat := 8
/-- Modelled from the spec: outcome MalformedData; value of nrf_error.h. -/
abbrev NRF_ERROR_INVALID_DATA : Nat := 11
/-- Modelled from the spec: outcome DataTooLarge; value of nrf_error.h. -/
abbrev NRF_ERROR_DATA_SIZE : Nat := 12
/-- Modelled from the spec: null-argument error; value of nrf_error.h. -/
abbrev NRF_ERROR_NULL : Nat := 14
/-- Modelled from the spec: outcome Busy; value of nrf_error.h. -/
abbrev NRF_ERROR_BUSY : Nat := 17
/-- Modelled from the spec: outcome InvalidConnection; value of ble_err.h. -/
abbrev BLE_ERROR_INVALID_CONN_HANDLE : Nat := 0x3002
/-- Modelled from the spec: outcome MissingSystemAttributes; value of ble_gatts.h. -/
abbrev BLE_ERROR_GATTS_SYS_ATTR_MISSING : Nat := 0x3401
/-- Modelled from the spec: the handle that names no connection; value of ble_types.h. -/
abbrev BLE_CONN_HANDLE_INVALID : Nat := 0xFFFF
/-- Modelled from the spec: the unknown-peer value; value of peer_manager_types.h. -/
abbrev PM_PEER_ID_INVALID : Nat := 0xFFFF
/-- Modelled from the spec: number of flag slots of the registry; value of ble_conn_state.h. -/
abbrev BLE_CONN_STATE_N_USER_FLAGS : Nat := 24
/-- Modelled from the spec: the id returned on slot exhaustion; value of ble_conn_state.h. -/
abbrev BLE_CONN_STATE_USER_FLAG_INVALID : Nat := 24

/-- Modelled from the spec: link connected; value of ble_gap.h. -/
abbrev BLE_GAP_EVT_CONNECTED : Nat := 0x10
/-- Modelled from the spec: link disconnected; value of ble_gap.h. -/
abbrev BLE_GAP_EVT_DISCONNECTED : Nat := 0x11
/-- Modelled from the spec: attribute write; value of ble_gatts.h. -/
abbrev BLE_GATTS_EVT_WRITE : Nat := 0x50
/-- Modelled from the spec: system attributes missing notice; value of ble_gatts.h. -/
abbrev BLE_GATTS_EVT_SYS_ATTR_MISSING : Nat := 0x52
/-- Modelled from the spec: service-changed confirmation; value of ble_gatts.h. -/
abbrev BLE_GATTS_EVT_SC_CONFIRM : Nat := 0x54
/-- Modelled from the spec: write request operation; value of ble_gatts.h. -/
abbrev BLE_GATTS_OP_WRITE_REQ : Nat := 0x01
/-- Modelled from the spec: descriptor attribute type; value of ble_gatts.h. -/
abbrev BLE_GATTS_ATTR_TYPE_DESC : Nat := 0x06
/-- Modelled from the spec: Bluetooth SIG UUID type; value of ble_types.h. -/
abbrev BLE_UUID_TYPE_BLE : Nat := 0x01
/-- Modelled from the spec: UUID of the CCCD; value of ble_types.h. -/
abbrev BLE_UUID_DESCRIPTOR_CLIENT_CHAR_CONFIG : Nat := 0x2902

-- ---------------------------------------------------------------------------
-- Data model
-- ---------------------------------------------------------------------------

/-- Event ids of gcm_evt_t used by the module. -/
inductive gcm_evt_id_t where
  | GCM_EVT_LOCAL_DB_CACHE_STORED
  | GCM_EVT_LOCAL_DB_CACHE_UPDATED
  | GCM_EVT_LOCAL_DB_CACHE_APPLIED
  | GCM_EVT_ERROR_LOCAL_DB_CACHE_APPLY
  | GCM_EVT_ERROR_DATA_SIZE
  | GCM_EVT_ERROR_STORAGE_FULL
  | GCM_EVT_ERROR_UNEXPECTED
deriving DecidableEq, Repr

/-- Outbound event gcm_evt_t.  The params union is flattened: conn_handle is the
    conn_handle member of whichever params variant the code assigns, error is
    params.error_unexpected.error; a member the code leaves unassigned is none. -/
structure gcm_evt_t where
  evt_id : gcm_evt_id_t
  peer_id : Nat
  conn_handle : Option Nat
  error : Option Nat
deriving DecidableEq, Repr

/-- One observable step: a call into a collaborator (with its arguments and its
    answer) or a call through the pointer m_gcm.evt_handler (fn is the pointer,
    none for NULL). -/
inductive Action where
  | gscm_local_db_cache_update (conn_handle : Nat) (ret : Nat)
  | gscm_local_db_cache_apply (conn_handle : Nat) (ret : Nat)
  | gscm_service_changed_ind_send (conn_handle : Nat) (ret : Nat)
  | gscm_service_changed_ind_needed (conn_handle : Nat) (ret : Bool)
  | gscm_peer_was_notified_of_db_change (peer_id : Nat)
  | gscm_local_database_has_changed
  | gscm_local_db_cache_set (peer_id : Nat) (p_local_db : Option Nat) (ret : Nat)
  | gscm_local_db_cache_get (peer_id : Nat) (p_local_db : Option Nat) (ret : Nat)
  | gccm_remote_db_store (peer_id : Nat) (p_remote_db : Option Nat) (ret : Nat)
  | gccm_remote_db_retrieve (peer_id : Nat) (p_remote_db : Option Nat) (ret : Nat)
  | gscm_init (ret : Nat)
  | gccm_init (ret : Nat)
  | im_register (ret : Nat)
  | smd_register (ret : Nat)
  | ble_conn_state_user_flag_acquire (ret : Nat)
  | evt_handler (fn : Option Nat) (event : gcm_evt_t)
deriving DecidableEq, Repr

/-- Collaborators of the module.  Every function receives the trace at the moment
    it is called. -/
structure Env where
  gscm_local_db_cache_update : List Action → Nat → Nat
  gscm_local_db_cache_apply : List Action → Nat → Nat
  gscm_service_changed_ind_send : List Action → Nat → Nat
  gscm_service_changed_ind_needed : List Action → Nat → Bool
  gscm_local_db_cache_set : List Action → Nat → Option Nat → Nat
  gscm_local_db_cache_get : List Action → Nat → Option Nat → Nat
  gccm_remote_db_store : List Action → Nat → Option Nat → Nat
  gccm_remote_db_retrieve : List Action → Nat → Option Nat → Nat
  gscm_init : List Action → Nat
  gccm_init : List Action → Nat
  im_register : List Action → Nat
  smd_register : List Action → Nat
  im_peer_id_get_by_conn_handle : List Action → Nat → Nat
  im_conn_handle_get : List Action → Nat → Nat

/-- Module variable gcm_t; evt_handler is none for the NULL pointer. -/
structure gcm_t where
  evt_handler : Option Nat
  flag_id_local_db_update_pending : Nat
  flag_id_local_db_apply_pending : Nat
  flag_id_service_changed_pending : Nat
deriving DecidableEq, Repr

/-- Modelled from the spec: the Connection Flag Registry (ble_conn_state), whose
    code is not among the sources.  It enumerates the active connections, keeps one
    boolean per flag slot and connection handle (default false, set and get by
    handle) and hands out flag slots; n_acquired counts the slots handed out. -/
structure ble_conn_state_t where
  conn_handles : List Nat
  user_flags : Nat → Nat → Bool
  n_acquired : Nat

/-- State of the system as seen from the module. -/
structure World where
  m_gcm : gcm_t
  conn_state : ble_conn_state_t
  trace : List Action

/-- Append one observable step to the trace. -/
def World.record (w : World) (a : Action) : World :=
  { w with trace := w.trace ++ [a] }

/-- Modelled from the spec: set(handle, bool) of one flag slot. -/
def ble_conn_state_user_flag_set (w : World) (conn_handle : Nat) (flag_id : Nat)
    (value : Bool) : World :=
  { w with conn_state :=
      { w.conn_state with user_flags := fun f c =>
          if f = flag_id ∧ c = conn_handle then value else w.conn_state.user_flags f c } }

/-- Modelled from the spec: get(handle) of one flag slot. -/
def ble_conn_state_user_flag_get (w : World) (conn_handle : Nat) (flag_id : Nat) : Bool :=
  w.conn_state.user_flags flag_id conn_handle

/-- Modelled from the spec: enumeration of the active connections. -/
def ble_conn_state_conn_handles (w : World) : List Nat :=
  w.conn_state.conn_handles

/-- Modelled from the spec: the values of one flag slot across all active
    connections, in enumeration order. -/
def ble_conn_state_user_flag_collection (w : World) (flag_id : Nat) : List Bool :=
  w.conn_state.conn_handles.map (fun c => w.conn_state.user_flags flag_id c)

/-- Modelled from the spec: OR-reduction of a flag collection. -/
def sdk_mapped_flags_any_set (flags : List Bool) : Bool :=
  flags.any (fun b => b)

/-- Modelled from the spec: acquire a flag slot; the next free slot id, or
    BLE_CONN_STATE_USER_FLAG_INVALID when all slots are taken. -/
def ble_conn_state_user_flag_acquire (w : World) : Nat × World :=
  if w.conn_state.n_acquired < BLE_CONN_STATE_N_USER_FLAGS then
    (w.conn_state.n_acquired,
      { w with
        conn_state := { w.conn_state with n_acquired := w.conn_state.n_acquired + 1 },
        trace := w.trace ++ [Action.ble_conn_state_user_flag_acquire w.conn_state.n_acquired] })
  else
    (BLE_CONN_STATE_USER_FLAG_INVALID,
      w.record (Action.ble_conn_state_user_flag_acquire BLE_CONN_STATE_USER_FLAG_INVALID))

/-- The statement m_gcm.evt_handler(&event). -/
def evt_handler_call (w : World) (event : gcm_evt_t) : World :=
  w.record (Action.evt_handler w.m_gcm.evt_handler event)

-- ---------------------------------------------------------------------------
-- The module
-- ---------------------------------------------------------------------------

/-- The parameters of a write event that cccd_written reads. -/
structure ble_gatts_evt_write_t where
  op : Nat
  context_type : Nat
  context_desc_uuid_type : Nat
  context_desc_uuid_uuid : Nat
deriving DecidableEq, Repr

/-- The fields of ble_evt_t that gcm_ble_evt_handler reads. -/
structure ble_evt_t where
  evt_id : Nat
  conn_handle : Nat
  write : ble_gatts_evt_write_t
deriving DecidableEq, Repr

/-- Source function internal_state_reset: memset of m_gcm to zero. -/
def internal_state_reset : gcm_t :=
  { evt_handler := none,
    flag_id_local_db_update_pending := 0,
    flag_id_local_db_apply_pending := 0,
    flag_id_service_changed_pending := 0 }

/-- Source function cccd_written. -/
def cccd_written (p_write_evt : ble_gatts_evt_write_t) : Bool :=
  (p_write_evt.op == BLE_GATTS_OP_WRITE_REQ)
    && (p_write_evt.context_type == BLE_GATTS_ATTR_TYPE_DESC)
    && (p_write_evt.context_desc_uuid_type == BLE_UUID_TYPE_BLE)
    && (p_write_evt.context_desc_uuid_uuid == BLE_UUID_DESCRIPTOR_CLIENT_CHAR_CONFIG)

/-- Source function local_db_apply_in_evt.  The pair r is the state after the
    switch together with the local set_procedure_as_pending. -/
def local_db_apply_in_evt (env : Env) (w : World) (conn_handle : Nat) : World :=
  if conn_handle = BLE_CONN_HANDLE_INVALID then w
  else
    let err_code := env.gscm_local_db_cache_apply w.trace conn_handle
    let w1 := w.record (Action.gscm_local_db_cache_apply conn_handle err_code)
    let r : World × Bool :=
      if err_code = NRF_SUCCESS then
        (evt_handler_call w1
          { evt_id := gcm_evt_id_t.GCM_EVT_LOCAL_DB_CACHE_APPLIED,
            peer_id := env.im_peer_id_get_by_conn_handle w1.trace conn_handle,
            conn_handle := some conn_handle,
            error := none }, false)
      else if err_code = NRF_ERROR_BUSY then (w1, true)
      else if err_code = NRF_ERROR_INVALID_DATA then
        (evt_handler_call w1
          { evt_id := gcm_evt_id_t.GCM_EVT_ERROR_LOCAL_DB_CACHE_APPLY,
            peer_id := env.im_peer_id_get_by_conn_handle w1.trace conn_handle,
            conn_handle := some conn_handle,
            error := none }, false)
      else if err_code = BLE_ERROR_INVALID_CONN_HANDLE then (w1, false)
      else
        (evt_handler_call w1
          { evt_id := gcm_evt_id_t.GCM_EVT_ERROR_UNEXPECTED,
            peer_id := env.im_peer_id_get_by_conn_handle w1.trace conn_handle,
            conn_handle := some conn_handle,
            error := some err_code }, false)
    ble_conn_state_user_flag_set r.1 conn_handle r.1.m_gcm.flag_id_local_db_apply_pending r.2

/-- Source function local_db_update_in_evt.  The pair r is the state after the
    switch together with the local set_procedure_as_pending. -/
def local_db_update_in_evt (env : Env) (w : World) (conn_handle : Nat) : World :=
  let err_code := env.gscm_local_db_cache_update w.trace conn_handle
  let w1 := w.record (Action.gscm_local_db_cache_update conn_handle err_code)
  let r : World × Bool :=
    if err_code = NRF_SUCCESS then
      (evt_handler_call w1
        { evt_id := gcm_evt_id_t.GCM_EVT_LOCAL_DB_CACHE_UPDATED,
          peer_id := env.im_peer_id_get_by_conn_handle w1.trace conn_handle,
          conn_handle := some conn_handle,
          error := none }, false)
    else if err_code = BLE_ERROR_INVALID_CONN_HANDLE then (w1, false)
    else if err_code = NRF_ERROR_BUSY then (w1, true)
    else if err_code = NRF_ERROR_DATA_SIZE then
      (evt_handler_call w1
        { evt_id := gcm_evt_id_t.GCM_EVT_ERROR_DATA_SIZE,
          peer_id := env.im_peer_id_get_by_conn_handle w1.trace conn_handle,
          conn_handle := some conn_handle,
          error := none }, false)
    else if err_code = NRF_ERROR_NO_MEM then
      (evt_handler_call w1
        { evt_id := gcm_evt_id_t.GCM_EVT_ERROR_STORAGE_FULL,
          peer_id := env.im_peer_id_get_by_conn_handle w1.trace conn_handle,
          conn_handle := some conn_handle,
          error := none }, false)
    else
      (evt_handler_call w1
        { evt_id := gcm_evt_id_t.GCM_EVT_ERROR_UNEXPECTED,
          peer_id := env.im_peer_id_get_by_conn_handle w1.trace conn_handle,
          conn_handle := some conn_handle,
          error := some err_code }, false)
  ble_conn_state_user_flag_set r.1 conn_handle r.1.m_gcm.flag_id_local_db_update_pending r.2

/-- Source function service_changed_send_in_evt. -/
def service_changed_send_in_evt (env : Env) (w : World) (conn_handle : Nat) : World :=
  let err_code := env.gscm_service_changed_ind_send w.trace conn_handle
  let w1 := w.record (Action.gscm_service_changed_ind_send conn_handle err_code)
  let w2 :=
    if err_code = NRF_SUCCESS then w1
    else if err_code = BLE_ERROR_INVALID_CONN_HANDLE then w1
    else if err_code = NRF_ERROR_BUSY then w1
    else if err_code = BLE_ERROR_GATTS_SYS_ATTR_MISSING then
      local_db_apply_in_evt env w1 conn_handle
    else
      evt_handler_call w1
        { evt_id := gcm_evt_id_t.GCM_EVT_ERROR_UNEXPECTED,
          peer_id := env.im_peer_id_get_by_conn_handle w1.trace conn_handle,
          conn_handle := some conn_handle,
          error := some err_code }
  ble_conn_state_user_flag_set w2 conn_handle w2.m_gcm.flag_id_service_changed_pending true

/-- Event ids of the GATT server cache manager that gscm_evt_handler reads. -/
inductive gscm_evt_id_t where
  | GSCM_EVT_LOCAL_DB_CACHE_STORED
  | GSCM_EVT_LOCAL_DB_CACHE_UPDATED
  | GSCM_EVT_SC_STATE_STORED
  | other (id : Nat)
deriving DecidableEq, Repr

/-- The fields of gscm_evt_t that gscm_evt_handler reads; conn_handle is
    params.local_db_cache_updated.conn_handle, state is params.sc_state_stored.state. -/
structure gscm_evt_t where
  evt_id : gscm_evt_id_t
  peer_id : Nat
  conn_handle : Nat
  state : Bool
deriving DecidableEq, Repr

/-- Event ids of the identity manager that im_evt_handler reads. -/
inductive im_evt_id_t where
  | IM_EVT_BONDED_PEER_CONNECTED
  | other (id : Nat)
deriving DecidableEq, Repr

/-- The fields of im_evt_t that im_evt_handler reads. -/
structure im_evt_t where
  evt_id : im_evt_id_t
  conn_handle : Nat
deriving DecidableEq, Repr

/-- Event ids of the security dispatcher that smd_evt_handler reads. -/
inductive smd_evt_id_t where
  | SMD_EVT_BONDING_INFO_STORED
  | other (id : Nat)
deriving DecidableEq, Repr

/-- The fields of smd_evt_t that smd_evt_handler reads. -/
structure smd_evt_t where
  evt_id : smd_evt_id_t
  conn_handle : Nat
deriving DecidableEq, Repr

/-- Source function gscm_evt_handler. -/
def gscm_evt_handler (env : Env) (w : World) (p_event : gscm_evt_t) : World :=
  match p_event.evt_id with
  | gscm_evt_id_t.GSCM_EVT_LOCAL_DB_CACHE_STORED =>
    let w1 := evt_handler_call w
      { evt_id := gcm_evt_id_t.GCM_EVT_LOCAL_DB_CACHE_STORED,
        peer_id := p_event.peer_id,
        conn_handle := none,
        error := none }
    local_db_apply_in_evt env w1 (env.im_conn_handle_get w1.trace p_event.peer_id)
  | gscm_evt_id_t.GSCM_EVT_LOCAL_DB_CACHE_UPDATED =>
    evt_handler_call w
      { evt_id := gcm_evt_id_t.GCM_EVT_LOCAL_DB_CACHE_UPDATED,
        peer_id := p_event.peer_id,
        conn_handle := some p_event.conn_handle,
        error := none }
  | gscm_evt_id_t.GSCM_EVT_SC_STATE_STORED =>
    if p_event.state then
      let conn_handle := env.im_conn_handle_get w.trace p_event.peer_id
      if conn_handle ≠ BLE_CONN_HANDLE_INVALID then
        ble_conn_state_user_flag_set w conn_handle w.m_gcm.flag_id_service_changed_pending true
      else w
    else w
  | gscm_evt_id_t.other _ => w

/-- Source function gccm_evt_handler (empty body). -/
def gccm_evt_handler (w : World) : World := w

/-- Source function im_evt_handler. -/
def im_evt_handler (env : Env) (w : World) (p_event : im_evt_t) : World :=
  match p_event.evt_id with
  | im_evt_id_t.IM_EVT_BONDED_PEER_CONNECTED =>
    let w1 := local_db_apply_in_evt env w p_event.conn_handle
    let needed := env.gscm_service_changed_ind_needed w1.trace p_event.conn_handle
    let w2 := w1.record (Action.gscm_service_changed_ind_needed p_event.conn_handle needed)
    if needed then
      ble_conn_state_user_flag_set w2 p_event.conn_handle
        w2.m_gcm.flag_id_service_changed_pending true
    else w2
  | im_evt_id_t.other _ => w

/-- Source function smd_evt_handler. -/
def smd_evt_handler (env : Env) (w : World) (p_event : smd_evt_t) : World :=
  match p_event.evt_id with
  | smd_evt_id_t.SMD_EVT_BONDING_INFO_STORED =>
    local_db_update_in_evt env w p_event.conn_handle
  | smd_evt_id_t.other _ => w

/-- Source function gcm_init; evt_handler is none for a NULL argument. -/
def gcm_init (env : Env) (w : World) (evt_handler : Option Nat) : Nat × World :=
  if evt_handler = none then (NRF_ERROR_NULL, w)
  else
    let e1 := env.gscm_init w.trace
    let w1 := w.record (Action.gscm_init e1)
    if e1 ≠ NRF_SUCCESS then (e1, w1)
    else
      let e2 := env.gccm_init w1.trace
      let w2 := w1.record (Action.gccm_init e2)
      if e2 ≠ NRF_SUCCESS then (e2, w2)
      else
        let w3 : World :=
          { w2 with m_gcm := { internal_state_reset with evt_handler := evt_handler } }
        let e3 := env.im_register w3.trace
        let w4 := w3.record (Action.im_register e3)
        if e3 ≠ NRF_SUCCESS then (e3, w4)
        else
          let e4 := env.smd_register w4.trace
          let w5 := w4.record (Action.smd_register e4)
          if e4 ≠ NRF_SUCCESS then (e4, w5)
          else
            let a1 := ble_conn_state_user_flag_acquire w5
            let a2 := ble_conn_state_user_flag_acquire a1.2
            let a3 := ble_conn_state_user_flag_acquire a2.2
            let w6 : World :=
              { a3.2 with m_gcm :=
                  { a3.2.m_gcm with
                    flag_id_local_db_update_pending := a1.1,
                    flag_id_local_db_apply_pending := a2.1,
                    flag_id_service_changed_pending := a3.1 } }
            if a1.1 = BLE_CONN_STATE_USER_FLAG_INVALID
                ∨ a2.1 = BLE_CONN_STATE_USER_FLAG_INVALID
                ∨ a3.1 = BLE_CONN_STATE_USER_FLAG_INVALID then
              (NRF_ERROR_INTERNAL, w6)
            else (e4, w6)

/-- Source function apply_pending_flags_check. -/
def apply_pending_flags_check (env : Env) (w : World) : World :=
  let apply_pending_flags :=
    ble_conn_state_user_flag_collection w w.m_gcm.flag_id_local_db_apply_pending
  if sdk_mapped_flags_any_set apply_pending_flags then
    (ble_conn_state_conn_handles w).foldl
      (fun w c =>
        if ble_conn_state_user_flag_get w c w.m_gcm.flag_id_local_db_apply_pending then
          local_db_apply_in_evt env w c
        else w)
      w
  else w

/-- Source function update_pending_flags_check. -/
def update_pending_flags_check (env : Env) (w : World) : World :=
  let update_pending_flags :=
    ble_conn_state_user_flag_collection w w.m_gcm.flag_id_local_db_update_pending
  if sdk_mapped_flags_any_set update_pending_flags then
    (ble_conn_state_conn_handles w).foldl
      (fun w c =>
        if ble_conn_state_user_flag_get w c w.m_gcm.flag_id_local_db_update_pending then
          local_db_update_in_evt env w c
        else w)
      w
  else w

/-- Source function service_changed_pending_flags_check. -/
def service_changed_pending_flags_check (env : Env) (w : World) : World :=
  let service_changed_pending_flags :=
    ble_conn_state_user_flag_collection w w.m_gcm.flag_id_service_changed_pending
  if sdk_mapped_flags_any_set service_changed_pending_flags then
    (ble_conn_state_conn_handles w).foldl
      (fun w c =>
        if ble_conn_state_user_flag_get w c w.m_gcm.flag_id_service_changed_pending then
          service_changed_send_in_evt env w c
        else w)
      w
  else w

/-- Source function gcm_ble_evt_handler. -/
def gcm_ble_evt_handler (env : Env) (w : World) (p_ble_evt : ble_evt_t) : World :=
  let w1 :=
    if p_ble_evt.evt_id = BLE_GATTS_EVT_SYS_ATTR_MISSING then
      local_db_apply_in_evt env w p_ble_evt.conn_handle
    else if p_ble_evt.evt_id = BLE_GATTS_EVT_SC_CONFIRM then
      let w' := w.record (Action.gscm_peer_was_notified_of_db_change
        (env.im_peer_id_get_by_conn_handle w.trace p_ble_evt.conn_handle))
      ble_conn_state_user_flag_set w' p_ble_evt.conn_handle
        w'.m_gcm.flag_id_service_changed_pending false
    else if p_ble_evt.evt_id = BLE_GATTS_EVT_WRITE then
      if cccd_written p_ble_evt.write then
        local_db_update_in_evt env w p_ble_evt.conn_handle
      else w
    else w
  service_changed_pending_flags_check env
    (update_pending_flags_check env (apply_pending_flags_check env w1))

/-- Source function gcm_remote_db_store; p_remote_db is none for NULL. -/
def gcm_remote_db_store (env : Env) (w : World) (peer_id : Nat) (p_remote_db : Option Nat) :
    Nat × World :=
  if w.m_gcm.evt_handler = none then (NRF_ERROR_INVALID_STATE, w)
  else
    let err_code := env.gccm_remote_db_store w.trace peer_id p_remote_db
    (err_code, w.record (Action.gccm_remote_db_store peer_id p_remote_db err_code))

/-- Source function gcm_remote_db_retrieve; p_remote_db is none for NULL. -/
def gcm_remote_db_retrieve (env : Env) (w : World) (peer_id : Nat) (p_remote_db : Option Nat) :
    Nat × World :=
  if w.m_gcm.evt_handler = none then (NRF_ERROR_INVALID_STATE, w)
  else if p_remote_db = none then (NRF_ERROR_NULL, w)
  else
    let err_code := env.gccm_remote_db_retrieve w.trace peer_id p_remote_db
    (err_code, w.record (Action.gccm_remote_db_retrieve peer_id p_remote_db err_code))

/-- Source function gcm_local_db_cache_update. -/
def gcm_local_db_cache_update (env : Env) (w : World) (conn_handle : Nat) : Nat × World :=
  if w.m_gcm.evt_handler = none then (NRF_ERROR_INVALID_STATE, w)
  else
    let err_code := env.gscm_local_db_cache_update w.trace conn_handle
    let w1 := w.record (Action.gscm_local_db_cache_update conn_handle err_code)
    if err_code = NRF_ERROR_BUSY then
      (NRF_SUCCESS,
        ble_conn_state_user_flag_set w1 conn_handle w1.m_gcm.flag_id_local_db_update_pending true)
    else
      (err_code,
        ble_conn_state_user_flag_set w1 conn_handle w1.m_gcm.flag_id_local_db_update_pending false)

/-- Source function gcm_local_db_cache_set; p_local_db is none for NULL. -/
def gcm_local_db_cache_set (env : Env) (w : World) (peer_id : Nat) (p_local_db : Option Nat) :
    Nat × World :=
  if w.m_gcm.evt_handler = none then (NRF_ERROR_INVALID_STATE, w)
  else
    let err_code := env.gscm_local_db_cache_set w.trace peer_id p_local_db
    (err_code, w.record (Action.gscm_local_db_cache_set peer_id p_local_db err_code))

/-- Source function gcm_local_db_cache_get; p_local_db is none for NULL. -/
def gcm_local_db_cache_get (env : Env) (w : World) (peer_id : Nat) (p_local_db : Option Nat) :
    Nat × World :=
  if w.m_gcm.evt_handler = none then (NRF_ERROR_INVALID_STATE, w)
  else
    let err_code := env.gscm_local_db_cache_get w.trace peer_id p_local_db
    (err_code, w.record (Action.gscm_local_db_cache_get peer_id p_local_db err_code))

/-- Source function gcm_local_database_has_changed. -/
def gcm_local_database_has_changed (env : Env) (w : World) : World :=
  let w1 := w.record Action.gscm_local_database_has_changed
  let w2 := (ble_conn_state_conn_handles w1).foldl
    (fun w c =>
      if env.im_peer_id_get_by_conn_handle w.trace c = PM_PEER_ID_INVALID then
        ble_conn_state_user_flag_set w c w.m_gcm.flag_id_service_changed_pending true
      else w)
    w1
  service_changed_pending_flags_check env w2

-- ---------------------------------------------------------------------------
-- Concrete environments and states used to instantiate the theorems
-- ---------------------------------------------------------------------------

/-- Environment whose update, apply and service-changed-send adapters always answer
    upd, app and snd, whose resolver is the function peer, and whose other
    collaborators always succeed. -/
def env_const (upd app snd : Nat) (peer : Nat → Nat) : Env :=
  { gscm_local_db_cache_update := fun _ _ => upd,
    gscm_local_db_cache_apply := fun _ _ => app,
    gscm_service_changed_ind_send := fun _ _ => snd,
    gscm_service_changed_ind_needed := fun _ _ => false,
    gscm_local_db_cache_set := fun _ _ _ => NRF_SUCCESS,
    gscm_local_db_cache_get := fun _ _ _ => NRF_SUCCESS,
    gccm_remote_db_store := fun _ _ _ => NRF_SUCCESS,
    gccm_remote_db_retrieve := fun _ _ _ => NRF_SUCCESS,
    gscm_init := fun _ => NRF_SUCCESS,
    gccm_init := fun _ => NRF_SUCCESS,
    im_register := fun _ => NRF_SUCCESS,
    smd_register := fun _ => NRF_SUCCESS,
    im_peer_id_get_by_conn_handle := fun _ c => peer c,
    im_conn_handle_get := fun _ _ => BLE_CONN_HANDLE_INVALID }

/-- Module variable after a successful gcm_init on a fresh registry: handler 1
    registered, flag slots 0, 1, 2 for update, apply and service changed. -/
def gcm_ready : gcm_t :=
  { evt_handler := some 1,
    flag_id_local_db_update_pending := 0,
    flag_id_local_db_apply_pending := 1,
    flag_id_service_changed_pending := 2 }

/-- Initialized state with the given active connections and flag values and an
    empty trace. -/
def world_ready (handles : List Nat) (flags : Nat → Nat → Bool) : World :=
  { m_gcm := gcm_ready,
    conn_state := { conn_handles := handles, user_flags := flags, n_acquired := 3 },
    trace := [] }

/-- Resolver under which connection 1 belongs to peer 7 and no other connection
    has a resolvable peer. -/
def peer_of_one (c : Nat) : Nat :=
  if c = 1 then 7 else PM_PEER_ID_INVALID

/-- The marking loop of gcm_local_database_has_changed, run over the connections
    cs from state w. -/
def mark_unresolvable (env : Env) (cs : List Nat) (w : World) : World :=
  cs.foldl
    (fun w c =>
      if env.im_peer_id_get_by_conn_handle w.trace c = PM_PEER_ID_INVALID then
        ble_conn_state_user_flag_set w c w.m_gcm.flag_id_service_changed_pending true
      else w) w

/-- Flag values used in the sweep instance: slot 0 (update) set on connection 1,
    slot 1 (apply) set on connection 2, and both set on handle 5. -/
def flags_demo (f c : Nat) : Bool :=
  (f == 0 && c == 1) || (f == 1 && c == 2) || ((f == 0 || f == 1) && c == 5)

/-- Flag values of the retry scenario: only slot 1 (apply) of connection 1 is set. -/
def flags_retry (f c : Nat) : Bool :=
  f == 1 && c == 1

/-- Whether a BLE event is itself a trigger of gcm_ble_evt_handler: system
    attributes missing, service changed confirmation, or a CCCD write. -/
def is_trigger (e : ble_evt_t) : Bool :=
  e.evt_id == BLE_GATTS_EVT_SYS_ATTR_MISSING
    || e.evt_id == BLE_GATTS_EVT_SC_CONFIRM
    || (e.evt_id == BLE_GATTS_EVT_WRITE && cccd_written e.write)

/-- A link connected event on connection c. -/
def evt_connected (c : Nat) : ble_evt_t :=
  { evt_id := BLE_GAP_EVT_CONNECTED, conn_handle := c, write := ⟨0, 0, 0, 0⟩ }

/-- A link disconnected event on connection c. -/
def evt_disconnected (c : Nat) : ble_evt_t :=
  { evt_id := BLE_GAP_EVT_DISCONNECTED, conn_handle := c, write := ⟨0, 0, 0, 0⟩ }

/-- Update-Pending flag of a connection. -/
def update_pending (w : World) (c : Nat) : Bool :=
  ble_conn_state_user_flag_get w c w.m_gcm.flag_id_local_db_update_pending

/-- Apply-Pending flag of a connection. -/
def apply_pending (w : World) (c : Nat) : Bool :=
  ble_conn_state_user_flag_get w c w.m_gcm.flag_id_local_db_apply_pending

/-- ServiceChanged-Pending flag of a connection. -/
def service_changed_pending (w : World) (c : Nat) : Bool :=
  ble_conn_state_user_flag_get w c w.m_gcm.flag_id_service_changed_pending

/-- The connection an observable step concerns, if any. -/
def Action.conn : Action → Option Nat
  | Action.gscm_local_db_cache_update c _ => some c
  | Action.gscm_local_db_cache_apply c _ => some c
  | Action.gscm_service_changed_ind_send c _ => some c
  | Action.gscm_service_changed_ind_needed c _ => some c
  | Action.evt_handler _ e => e.conn_handle
  | _ => none

/-- The connections on which the apply adapter was called, in call order. -/
def apply_calls (t : List Action) : List Nat :=
  t.filterMap (fun a => match a with
    | Action.gscm_local_db_cache_apply c _ => some c
    | _ => none)

/-- The connections on which the update adapter was called, in call order. -/
def update_calls (t : List Action) : List Nat :=
  t.filterMap (fun a => match a with
    | Action.gscm_local_db_cache_update c _ => some c
    | _ => none)

/-- The connections on which a service changed indication was sent, in call order. -/
def send_calls (t : List Action) : List Nat :=
  t.filterMap (fun a => match a with
    | Action.gscm_service_changed_ind_send c _ => some c
    | _ => none)

/-- The events passed to the event handler, in call order. -/
def events (t : List Action) : List gcm_evt_t :=
  t.filterMap (fun a => match a with
    | Action.evt_handler _ e => some e
    | _ => none)

/-- The steps a run from state w to state w2 appended to the trace. -/
def new_actions (w w2 : World) : List Action :=
  w2.trace.drop w.trace.length

/-- The peer ids passed to gscm_peer_was_notified_of_db_change, in call order. -/
def notified_calls (t : List Action) : List Nat :=
  t.filterMap (fun a => match a with
    | Action.gscm_peer_was_notified_of_db_change p => some p
    | _ => none)

/-- The connections, other than the handle that names no connection, on which a
    service changed send was answered MissingSystemAttributes, in call order: the
    sends after which service_changed_send_in_evt makes its Apply attempt. -/
def sys_attr_missing_sends (t : List Action) : List Nat :=
  t.filterMap (fun a => match a with
    | Action.gscm_service_changed_ind_send c r =>
      if r = BLE_ERROR_GATTS_SYS_ATTR_MISSING ∧ c ≠ BLE_CONN_HANDLE_INVALID then some c
      else none
    | _ => none)

/-- The switch of gcm_ble_evt_handler: the processing of the event itself, before
    the three sweeps. -/
def gcm_ble_evt_handler_trigger (env : Env) (w : World) (p_ble_evt : ble_evt_t) : World :=
  if p_ble_evt.evt_id = BLE_GATTS_EVT_SYS_ATTR_MISSING then
    local_db_apply_in_evt env w p_ble_evt.conn_handle
  else if p_ble_evt.evt_id = BLE_GATTS_EVT_SC_CONFIRM then
    let w' := w.record (Action.gscm_peer_was_notified_of_db_change
      (env.im_peer_id_get_by_conn_handle w.trace p_ble_evt.conn_handle))
    ble_conn_state_user_flag_set w' p_ble_evt.conn_handle
      w'.m_gcm.flag_id_service_changed_pending false
  else if p_ble_evt.evt_id = BLE_GATTS_EVT_WRITE then
    if cccd_written p_ble_evt.write then
      local_db_update_in_evt env w p_ble_evt.conn_handle
    else w
  else w

/-- The three sweeps that end gcm_ble_evt_handler, in source order: Apply, Update,
    service changed. -/
def sweep_all (env : Env) (w : World) : World :=
  service_changed_pending_flags_check env
    (update_pending_flags_check env (apply_pending_flags_check env w))

/-- Whether every handler call among the steps rest, appended after the steps pre,
    carries the connection c and the peer id the resolver gives for c on the trace
    as it stands when the handler is called. -/
def resolved_at_emission (env : Env) (c : Nat) : List Action → List Action → Bool
  | _, [] => true
  | pre, a :: rest =>
    (match a with
      | Action.evt_handler _ e =>
        e.conn_handle == some c && e.peer_id == env.im_peer_id_get_by_conn_handle pre c
      | _ => true)
    && resolved_at_emission env c (pre ++ [a]) rest

/-- State before any gcm_init: the module variable is zero (static storage), so no
    handler is registered and the three flag ids are 0; n slots of the registry are
    already taken by other users. -/
def world_uninit (handles : List Nat) (flags : Nat → Nat → Bool) (n : Nat) : World :=
  { m_gcm := internal_state_reset,
    conn_state := { conn_handles := handles, user_flags := flags, n_acquired := n },
    trace := [] }

/-- Environment whose gscm_init, gccm_init, im_register and smd_register answer the
    given codes, and which otherwise is env_const with all adapters succeeding. -/
def env_init (gscm gccm im smd : Nat) : Env :=
  { env_const NRF_SUCCESS NRF_SUCCESS NRF_SUCCESS peer_of_one with
    gscm_init := fun _ => gscm,
    gccm_init := fun _ => gccm,
    im_register := fun _ => im,
    smd_register := fun _ => smd }

/-- A system attributes missing event on connection c. -/
def evt_sys_attr_missing (c : Nat) : ble_evt_t :=
  { evt_id := BLE_GATTS_EVT_SYS_ATTR_MISSING, conn_handle := c, write := ⟨0, 0, 0, 0⟩ }

/-- A service changed confirmation on connection c. -/
def evt_sc_confirm (c : Nat) : ble_evt_t :=
  { evt_id := BLE_GATTS_EVT_SC_CONFIRM, conn_handle := c, write := ⟨0, 0, 0, 0⟩ }

/-- A write request to a CCCD on connection c. -/
def evt_cccd_write (c : Nat) : ble_evt_t :=
  { evt_id := BLE_GATTS_EVT_WRITE, conn_handle := c,
    write := ⟨BLE_GATTS_OP_WRITE_REQ, BLE_GATTS_ATTR_TYPE_DESC, BLE_UUID_TYPE_BLE,
      BLE_UUID_DESCRIPTOR_CLIENT_CHAR_CONFIG⟩ }

/-- Flag values with only slot 2 (service changed) of connection 1 set. -/
def flags_sc_one (f c : Nat) : Bool :=
  f == 2 && c == 1

/-- Invariant of the sweeps that follow a service changed confirmation on c: the
    module variable is g, ServiceChanged-Pending(c) is false, and the steps appended
    to the trace t0 so far hold no send on c and exactly one peer-notified call,
    for peer p. -/
def confirmed_inv (g : gcm_t) (c : Nat) (t0 : List Action) (p : Nat) (w : World) : Prop :=
  w.m_gcm = g
    ∧ w.conn_state.user_flags g.flag_id_service_changed_pending c = false
    ∧ ∃ added, w.trace = t0 ++ added ∧ c ∉ send_calls added ∧ notified_calls added = [p]

/-- The flag slot ids handed out by ble_conn_state_user_flag_acquire, in call
    order. -/
def acquired_ids (t : List Action) : List Nat :=
  t.filterMap (fun a => match a with
    | Action.ble_conn_state_user_flag_acquire id => some id
    | _ => none)

/-- The state gcm_init reaches when gscm_init, gccm_init, im_register and
    smd_register have all answered NRF_SUCCESS: the four calls are recorded, the
    module variable is reset and the handler h is stored. -/
def gcm_init_registered (w : World) (h : Nat) : World :=
  (({ (w.record (Action.gscm_init NRF_SUCCESS)).record (Action.gccm_init NRF_SUCCESS) with
      m_gcm := { internal_state_reset with evt_handler := some h } } : World).record
    (Action.im_register NRF_SUCCESS)).record (Action.smd_register NRF_SUCCESS)

/-- The last part of gcm_init, from the first ble_conn_state_user_flag_acquire on;
    w5 is the state reached so far and e4 the value of err_code. -/
def gcm_init_flags (w5 : World) (e4 : Nat) : Nat × World :=
  let a1 := ble_conn_state_user_flag_acquire w5
  let a2 := ble_conn_state_user_flag_acquire a1.2
  let a3 := ble_conn_state_user_flag_acquire a2.2
  let w6 : World :=
    { a3.2 with m_gcm :=
        { a3.2.m_gcm with
          flag_id_local_db_update_pending := a1.1,
          flag_id_local_db_apply_pending := a2.1,
          flag_id_service_changed_pending := a3.1 } }
  if a1.1 = BLE_CONN_STATE_USER_FLAG_INVALID
      ∨ a2.1 = BLE_CONN_STATE_USER_FLAG_INVALID
      ∨ a3.1 = BLE_CONN_STATE_USER_FLAG_INVALID then
    (NRF_ERROR_INTERNAL, w6)
  else (e4, w6)

/-- The ids of the events passed to the event handler, in call order. -/
def event_kinds (t : List Action) : List gcm_evt_id_t :=
  (events t).map (fun e => e.evt_id)

/-- The environment env with its identity resolver replaced by the function p. -/
def with_resolver (env : Env) (p : List Action → Nat → Nat) : Env :=
  { env with im_peer_id_get_by_conn_handle := p }

/-- Environment in which peer 7 is connected on connection 1 and no other peer is
    connected, the apply adapter always answers app, and everything else is as in
    env_const with the resolver peer_of_one. -/
def env_peer7 (app : Nat) : Env :=
  { env_const NRF_SUCCESS app NRF_SUCCESS peer_of_one with
    im_conn_handle_get := fun _ p => if p = 7 then 1 else BLE_CONN_HANDLE_INVALID }

end GCM

-- ---------------------------------------------------------------------------
-- The EPD BLE service (EPD/EPD_ble.c): command processing
-- ---------------------------------------------------------------------------

namespace EPD

/-- One call that epd_service_process makes outside EPD_ble.c, or through the
    command callback, with its arguments and its answer. -/
inductive epd_call where
  | epd_cmd_cb (cmd : Nat) (p_data : Option (List Nat)) (len : Nat) (ret : Bool)
  | DEV_Module_Exit
  | DEV_Module_Init
  | pins (values : List Nat)
  | fs_erase (ret : Nat)
  | fs_store (bytes : List Nat) (ret : Nat)
  | epd_driver_set (id : Nat) (ret : Bool)
  | epd_driver_get
  | driver_init
  | driver_clear
  | driver_send_command (cmd : Nat)
  | driver_send_data (data : List Nat) (len : Nat)
  | driver_refresh
  | driver_sleep
  | sd_nvic_SystemReset
  | ble_epd_sleep_prepare
  | sd_power_system_off
  | nrf_delay_ms (ms : Nat)
deriving DecidableEq, Repr

/-- What EPD_ble.c takes from headers and modules that are not among the sources:
    the size of epd_config_t and the offsets of its members, the values of the
    enum of commands (the case labels of the switch), and the answers of the flash
    storage and of the driver table. -/
structure epd_env where
  sizeof_epd_config_t : Nat
  off_mosi_pin : Nat
  off_sclk_pin : Nat
  off_cs_pin : Nat
  off_dc_pin : Nat
  off_rst_pin : Nat
  off_busy_pin : Nat
  off_bs_pin : Nat
  off_driver_id : Nat
  EPD_CMD_SET_PINS : Nat
  EPD_CMD_INIT : Nat
  EPD_CMD_CLEAR : Nat
  EPD_CMD_SEND_COMMAND : Nat
  EPD_CMD_SEND_DATA : Nat
  EPD_CMD_DISPLAY : Nat
  EPD_CMD_SLEEP : Nat
  EPD_CMD_SET_CONFIG : Nat
  EPD_CMD_SYS_RESET : Nat
  EPD_CMD_SYS_SLEEP : Nat
  EPD_CMD_CFG_ERASE : Nat
  fs_erase : List epd_call → Nat
  fs_store : List epd_call → Nat
  epd_driver_set : Nat → Bool
  epd_driver_id : Nat → Nat

/-- The part of ble_epd_t that epd_service_process reads and writes.  mem i is the
    byte at address (uint8_t *)&p_epd->config + i: the first sizeof(epd_config_t)
    bytes are the stored configuration, the later ones are whatever follows the
    configuration in memory.  epd_cmd_cb is none for a NULL callback.  calls lists
    the outside calls made so far, oldest first. -/
structure ble_epd_t where
  mem : Nat → Nat
  epd_cmd_cb : Option (Nat → Option (List Nat) → Nat → Bool)
  calls : List epd_call

/-- Append one outside call. -/
def ble_epd_t.call (p : ble_epd_t) (c : epd_call) : ble_epd_t :=
  { p with calls := p.calls ++ [c] }

/-- Assignment to a one-byte member of p_epd->config at offset off. -/
def ble_epd_t.set_byte (p : ble_epd_t) (off : Nat) (v : Nat) : ble_epd_t :=
  { p with mem := fun i => if i = off then v else p.mem i }

/-- Source definition EPD_CONFIG_SIZE: sizeof(epd_config_t) / sizeof(uint8_t). -/
def EPD_CONFIG_SIZE (env : epd_env) : Nat :=
  env.sizeof_epd_config_t / 1

/-- Library function memcpy with destination &p_epd->config: the first n bytes
    of src replace the first n bytes at the destination. -/
def memcpy (dst : Nat → Nat) (src : List Nat) (n : Nat) : Nat → Nat :=
  fun i => if i < n then src.getD i 0 else dst i

/-- Source function epd_config_clear. -/
def epd_config_clear (env : epd_env) (p : ble_epd_t) : Nat × ble_epd_t :=
  let ret := env.fs_erase p.calls
  (ret, p.call (epd_call.fs_erase ret))

/-- Source function epd_config_save, called on &p_epd->config. -/
def epd_config_save (env : epd_env) (p : ble_epd_t) : Nat × ble_epd_t :=
  let r := epd_config_clear env p
  if r.1 ≠ GCM.NRF_SUCCESS then r
  else
    let len := (env.sizeof_epd_config_t + 4 - 1) / 4
    let ret := env.fs_store r.2.calls
    (ret, r.2.call (epd_call.fs_store ((List.range (4 * len)).map r.2.mem) ret))

/-- Source function epd_service_process; p_data is none for NULL. -/
def epd_service_process (env : epd_env) (p_epd : ble_epd_t) (p_data : Option (List Nat))
    (length : Nat) : ble_epd_t :=
  match p_data with
  | none => p_epd
  | some data =>
    if length ≤ 0 then p_epd
    else
      let cmd := data.getD 0 0
      let r : ble_epd_t × Bool :=
        match p_epd.epd_cmd_cb with
        | none => (p_epd, false)
        | some cb =>
          let arg := if length > 1 then some (data.drop 1) else none
          let ret := cb cmd arg (length - 1)
          (p_epd.call (epd_call.epd_cmd_cb cmd arg (length - 1) ret), ret)
      if r.2 then r.1
      else
        let p := r.1
        if cmd = env.EPD_CMD_SET_PINS then
          if length < 8 then p
          else
            let p1 := p.call epd_call.DEV_Module_Exit
            let p2 := (((((((p1.set_byte env.off_mosi_pin (data.getD 1 0)).set_byte
              env.off_sclk_pin (data.getD 2 0)).set_byte
              env.off_cs_pin (data.getD 3 0)).set_byte
              env.off_dc_pin (data.getD 4 0)).set_byte
              env.off_rst_pin (data.getD 5 0)).set_byte
              env.off_busy_pin (data.getD 6 0)).set_byte
              env.off_bs_pin (data.getD 7 0)).call
              (epd_call.pins ((List.range 7).map (fun i => data.getD (i + 1) 0)))
            (epd_config_save env p2).2.call epd_call.DEV_Module_Init
        else if cmd = env.EPD_CMD_INIT then
          let p1 :=
            if length > 1 then
              let ok := env.epd_driver_set (data.getD 1 0)
              let q := p.call (epd_call.epd_driver_set (data.getD 1 0) ok)
              if ok then
                let q1 := q.call epd_call.epd_driver_get
                let q2 := q1.set_byte env.off_driver_id (env.epd_driver_id (data.getD 1 0))
                (epd_config_save env q2).2
              else q
            else p
          p1.call epd_call.driver_init
        else if cmd = env.EPD_CMD_CLEAR then
          p.call epd_call.driver_clear
        else if cmd = env.EPD_CMD_SEND_COMMAND then
          if length < 2 then p
          else p.call (epd_call.driver_send_command (data.getD 1 0))
        else if cmd = env.EPD_CMD_SEND_DATA then
          p.call (epd_call.driver_send_data (data.drop 1) (length - 1))
        else if cmd = env.EPD_CMD_DISPLAY then
          p.call epd_call.driver_refresh
        else if cmd = env.EPD_CMD_SLEEP then
          p.call epd_call.driver_sleep
        else if cmd = env.EPD_CMD_SET_CONFIG then
          if length < 2 then p
          else
            let n := if length - 1 > EPD_CONFIG_SIZE env then EPD_CONFIG_SIZE env
              else length - 1
            (epd_config_save env { p with mem := memcpy p.mem (data.drop 1) n }).2
        else if cmd = env.EPD_CMD_SYS_RESET then
          p.call epd_call.sd_nvic_SystemReset
        else if cmd = env.EPD_CMD_SYS_SLEEP then
          (p.call epd_call.ble_epd_sleep_prepare).call epd_call.sd_power_system_off
        else if cmd = env.EPD_CMD_CFG_ERASE then
          (((epd_config_clear env p).2.call (epd_call.nrf_delay_ms 10)).call
            epd_call.sd_nvic_SystemReset)
        else p

/-- Whether the command SET_CONFIG differs from the case labels that precede it in
    the switch (case labels of one switch are distinct). -/
def set_config_label_distinct (env : epd_env) : Prop :=
  env.EPD_CMD_SET_CONFIG ≠ env.EPD_CMD_SET_PINS
    ∧ env.EPD_CMD_SET_CONFIG ≠ env.EPD_CMD_INIT
    ∧ env.EPD_CMD_SET_CONFIG ≠ env.EPD_CMD_CLEAR
    ∧ env.EPD_CMD_SET_CONFIG ≠ env.EPD_CMD_SEND_COMMAND
    ∧ env.EPD_CMD_SET_CONFIG ≠ env.EPD_CMD_SEND_DATA
    ∧ env.EPD_CMD_SET_CONFIG ≠ env.EPD_CMD_DISPLAY
    ∧ env.EPD_CMD_SET_CONFIG ≠ env.EPD_CMD_SLEEP

/-- Whether the command callback, if there is one, does not consume the packet. -/
def not_consumed (p : ble_epd_t) (data : List Nat) (length : Nat) : Prop :=
  ∀ cb, p.epd_cmd_cb = some cb →
    cb (data.getD 0 0) (if length > 1 then some (data.drop 1) else none) (length - 1) = false

/-- An environment with a ten byte configuration whose members lie in
    declaration order, the commands numbered 0 to 6 and 0x90, 0x91, 0x92, 0x99,
    and a flash storage and driver table that always succeed. -/
def env_demo : epd_env :=
  { sizeof_epd_config_t := 10,
    off_mosi_pin := 0, off_sclk_pin := 1, off_cs_pin := 2, off_dc_pin := 3,
    off_rst_pin := 4, off_busy_pin := 5, off_bs_pin := 6, off_driver_id := 7,
    EPD_CMD_SET_PINS := 0, EPD_CMD_INIT := 1, EPD_CMD_CLEAR := 2,
    EPD_CMD_SEND_COMMAND := 3, EPD_CMD_SEND_DATA := 4, EPD_CMD_DISPLAY := 5,
    EPD_CMD_SLEEP := 6, EPD_CMD_SET_CONFIG := 0x90, EPD_CMD_SYS_RESET := 0x91,
    EPD_CMD_SYS_SLEEP := 0x92, EPD_CMD_CFG_ERASE := 0x99,
    fs_erase := fun _ => GCM.NRF_SUCCESS,
    fs_store := fun _ => GCM.NRF_SUCCESS,
    epd_driver_set := fun _ => true,
    epd_driver_id := fun id => id }

/-- A service structure whose memory holds 0xFF everywhere, with no command
    callback and no call made yet. -/
def epd_demo : ble_epd_t :=
  { mem := fun _ => 0xFF, epd_cmd_cb := none, calls := [] }

/-- A SET_CONFIG packet of 13 bytes: the command byte and twelve data bytes 1..12,
    two more than the configuration holds. -/
def packet_demo : List Nat :=
  [0x90, 1, 2, 3, 4, 5, 6, 7, 8, 9, 10, 11, 12]

end EPD

namespace GCM

-- ---------------------------------------------------------------------------
-- Theorems
-- ---------------------------------------------------------------------------

/-- C1: with a handler h registered, a trigger-driven Update attempt on c whose
    adapter call answers r calls the adapter once and then emits: one
    LocalDbCacheUpdated event for c on Success; nothing on Busy or
    InvalidConnection; one ErrorDataSize event for c on NRF_ERROR_DATA_SIZE; one
    ErrorStorageFull event for c on NRF_ERROR_NO_MEM; and on every other code one
    ErrorUnexpected event carrying c and the raw code r. -/
theorem local_db_update_in_evt_outcome_events (env : Env) (w : World) (c h : Nat)
    (hreg : w.m_gcm.evt_handler = some h) :
    let r := env.gscm_local_db_cache_update w.trace c
    let call := Action.gscm_local_db_cache_update c r
    let peer := env.im_peer_id_get_by_conn_handle (w.trace ++ [call]) c
    let t := (local_db_update_in_evt env w c).trace
    (r = NRF_SUCCESS → t = w.trace ++ [call, Action.evt_handler (some h)
        ⟨gcm_evt_id_t.GCM_EVT_LOCAL_DB_CACHE_UPDATED, peer, some c, none⟩])
    ∧ (r = NRF_ERROR_BUSY ∨ r = BLE_ERROR_INVALID_CONN_HANDLE → t = w.trace ++ [call])
    ∧ (r = NRF_ERROR_DATA_SIZE → t = w.trace ++ [call, Action.evt_handler (some h)
        ⟨gcm_evt_id_t.GCM_EVT_ERROR_DATA_SIZE, peer, some c, none⟩])
    ∧ (r = NRF_ERROR_NO_MEM → t = w.trace ++ [call, Action.evt_handler (some h)
        ⟨gcm_evt_id_t.GCM_EVT_ERROR_STORAGE_FULL, peer, some c, none⟩])
    ∧ (r ≠ NRF_SUCCESS → r ≠ NRF_ERROR_BUSY → r ≠ BLE_ERROR_INVALID_CONN_HANDLE →
        r ≠ NRF_ERROR_DATA_SIZE → r ≠ NRF_ERROR_NO_MEM →
        t = w.trace ++ [call, Action.evt_handler (some h)
          ⟨gcm_evt_id_t.GCM_EVT_ERROR_UNEXPECTED, peer, some c, some r⟩]) := by
  simp only [local_db_update_in_evt, ble_conn_state_user_flag_set, evt_handler_call,
    World.record, hreg]
  generalize env.gscm_local_db_cache_update w.trace c = r
  refine ⟨?_, ?_, ?_, ?_, ?_⟩
  · intro hr
    simp [hr]
  · intro hr
    rcases hr with hr | hr <;> simp [hr]
  · intro hr
    simp [hr]
  · intro hr
    simp [hr]
  · intro h1 h2 h3 h4 h5
    simp [h1, h2, h3, h4, h5]

/-- Instance of the Update outcome table: handler 1 registered, adapter answers
    Success on connection 1 whose peer id is 7. -/
theorem local_db_update_in_evt_outcome_events_witness :
    (world_ready [1] (fun _ _ => false)).m_gcm.evt_handler = some 1
    ∧ (local_db_update_in_evt (env_const NRF_SUCCESS 0 0 (fun _ => 7))
        (world_ready [1] (fun _ _ => false)) 1).trace
      = [Action.gscm_local_db_cache_update 1 NRF_SUCCESS,
         Action.evt_handler (some 1)
           ⟨gcm_evt_id_t.GCM_EVT_LOCAL_DB_CACHE_UPDATED, 7, some 1, none⟩] :=
  ⟨rfl, (local_db_update_in_evt_outcome_events (env_const NRF_SUCCESS 0 0 (fun _ => 7))
    (world_ready [1] (fun _ _ => false)) 1 1 rfl).1 rfl⟩

/-- C2: with a handler h registered and c other than BLE_CONN_HANDLE_INVALID, a
    trigger-driven Apply attempt on c whose adapter call answers r calls the adapter
    once and then emits: one LocalDbCacheApplied event with conn = c on Success;
    nothing on Busy or InvalidConnection; one ErrorLocalDbCacheApply event with
    conn = c on NRF_ERROR_INVALID_DATA; and on every other code one ErrorUnexpected
    event carrying c and the raw code r. -/
theorem local_db_apply_in_evt_outcome_events (env : Env) (w : World) (c h : Nat)
    (hreg : w.m_gcm.evt_handler = some h) (hc : c ≠ BLE_CONN_HANDLE_INVALID) :
    let r := env.gscm_local_db_cache_apply w.trace c
    let call := Action.gscm_local_db_cache_apply c r
    let peer := env.im_peer_id_get_by_conn_handle (w.trace ++ [call]) c
    let t := (local_db_apply_in_evt env w c).trace
    (r = NRF_SUCCESS → t = w.trace ++ [call, Action.evt_handler (some h)
        ⟨gcm_evt_id_t.GCM_EVT_LOCAL_DB_CACHE_APPLIED, peer, some c, none⟩])
    ∧ (r = NRF_ERROR_BUSY ∨ r = BLE_ERROR_INVALID_CONN_HANDLE → t = w.trace ++ [call])
    ∧ (r = NRF_ERROR_INVALID_DATA → t = w.trace ++ [call, Action.evt_handler (some h)
        ⟨gcm_evt_id_t.GCM_EVT_ERROR_LOCAL_DB_CACHE_APPLY, peer, some c, none⟩])
    ∧ (r ≠ NRF_SUCCESS → r ≠ NRF_ERROR_BUSY → r ≠ BLE_ERROR_INVALID_CONN_HANDLE →
        r ≠ NRF_ERROR_INVALID_DATA →
        t = w.trace ++ [call, Action.evt_handler (some h)
          ⟨gcm_evt_id_t.GCM_EVT_ERROR_UNEXPECTED, peer, some c, some r⟩]) := by
  simp only [local_db_apply_in_evt, ble_conn_state_user_flag_set, evt_handler_call,
    World.record, hreg, if_neg hc]
  generalize env.gscm_local_db_cache_apply w.trace c = r
  refine ⟨?_, ?_, ?_, ?_⟩
  · intro hr
    simp [hr]
  · intro hr
    rcases hr with hr | hr <;> simp [hr]
  · intro hr
    simp [hr]
  · intro h1 h2 h3 h4
    simp [h1, h2, h3, h4]

/-- Instance of the Apply outcome table: handler 1 registered, adapter answers
    NRF_ERROR_INVALID_DATA on connection 1 whose peer id is 7. -/
theorem local_db_apply_in_evt_outcome_events_witness :
    (world_ready [1] (fun _ _ => false)).m_gcm.evt_handler = some 1
    ∧ (1 : Nat) ≠ BLE_CONN_HANDLE_INVALID
    ∧ (local_db_apply_in_evt (env_const 0 NRF_ERROR_INVALID_DATA 0 (fun _ => 7))
        (world_ready [1] (fun _ _ => false)) 1).trace
      = [Action.gscm_local_db_cache_apply 1 NRF_ERROR_INVALID_DATA,
         Action.evt_handler (some 1)
           ⟨gcm_evt_id_t.GCM_EVT_ERROR_LOCAL_DB_CACHE_APPLY, 7, some 1, none⟩] :=
  ⟨rfl, by decide,
    (local_db_apply_in_evt_outcome_events (env_const 0 NRF_ERROR_INVALID_DATA 0 (fun _ => 7))
      (world_ready [1] (fun _ _ => false)) 1 1 rfl (by decide)).2.2.1 rfl⟩

/-- C3: with a handler registered, after a trigger-driven Update attempt on c the
    Update-Pending flag of c is true exactly when the adapter answered Busy, and for
    c other than BLE_CONN_HANDLE_INVALID after a trigger-driven Apply attempt on c
    the Apply-Pending flag of c is true exactly when the adapter answered Busy,
    whatever the flags were before. -/
theorem pending_flag_iff_busy (env : Env) (w : World) (c h : Nat)
    (_hreg : w.m_gcm.evt_handler = some h) (hc : c ≠ BLE_CONN_HANDLE_INVALID) :
    (update_pending (local_db_update_in_evt env w c) c = true
        ↔ env.gscm_local_db_cache_update w.trace c = NRF_ERROR_BUSY)
    ∧ (apply_pending (local_db_apply_in_evt env w c) c = true
        ↔ env.gscm_local_db_cache_apply w.trace c = NRF_ERROR_BUSY) := by
  constructor
  · simp only [update_pending, ble_conn_state_user_flag_get, local_db_update_in_evt,
      ble_conn_state_user_flag_set, evt_handler_call, World.record]
    generalize env.gscm_local_db_cache_update w.trace c = r
    split_ifs <;> simp_all
  · simp only [apply_pending, ble_conn_state_user_flag_get, local_db_apply_in_evt,
      ble_conn_state_user_flag_set, evt_handler_call, World.record, if_neg hc]
    generalize env.gscm_local_db_cache_apply w.trace c = r
    split_ifs <;> simp_all

/-- Instance of the pending-flag rule: Update-Pending and Apply-Pending of
    connection 1 are true beforehand, the update adapter answers Success and the
    apply adapter answers Busy; the flags follow the answers. -/
theorem pending_flag_iff_busy_witness :
    (world_ready [1] (fun _ _ => true)).m_gcm.evt_handler = some 1
    ∧ (1 : Nat) ≠ BLE_CONN_HANDLE_INVALID
    ∧ update_pending (local_db_update_in_evt (env_const NRF_SUCCESS NRF_ERROR_BUSY 0 (fun _ => 7))
        (world_ready [1] (fun _ _ => true)) 1) 1 = false
    ∧ apply_pending (local_db_apply_in_evt (env_const NRF_SUCCESS NRF_ERROR_BUSY 0 (fun _ => 7))
        (world_ready [1] (fun _ _ => true)) 1) 1 = true :=
  have key := pending_flag_iff_busy (env_const NRF_SUCCESS NRF_ERROR_BUSY 0 (fun _ => 7))
    (world_ready [1] (fun _ _ => true)) 1 1 rfl (by decide)
  ⟨rfl, by decide,
    Bool.eq_false_iff.mpr (fun hp => absurd (key.1.mp hp) (by decide)),
    key.2.mpr rfl⟩

/-- C4: when the module is initialized, gcm_local_db_cache_update(c) calls the
    update adapter once; if the adapter answers Busy it returns NRF_SUCCESS and
    Update-Pending(c) is true afterwards, otherwise it returns the adapter's answer
    unchanged and Update-Pending(c) is false afterwards. -/
theorem gcm_local_db_cache_update_return (env : Env) (w : World) (c : Nat)
    (hinit : w.m_gcm.evt_handler ≠ none) :
    let r := env.gscm_local_db_cache_update w.trace c
    let res := gcm_local_db_cache_update env w c
    (r = NRF_ERROR_BUSY → res.1 = NRF_SUCCESS ∧ update_pending res.2 c = true)
    ∧ (r ≠ NRF_ERROR_BUSY → res.1 = r ∧ update_pending res.2 c = false) := by
  simp only [gcm_local_db_cache_update, if_neg hinit, update_pending,
    ble_conn_state_user_flag_get, ble_conn_state_user_flag_set, World.record]
  generalize env.gscm_local_db_cache_update w.trace c = r
  constructor
  · intro hr
    simp [hr]
  · intro hr
    simp [hr]

/-- Instance of the application request: the adapter answers Busy on connection 1;
    the caller sees NRF_SUCCESS and the flag is set. -/
theorem gcm_local_db_cache_update_return_witness :
    (world_ready [1] (fun _ _ => false)).m_gcm.evt_handler ≠ none
    ∧ (gcm_local_db_cache_update (env_const NRF_ERROR_BUSY 0 0 (fun _ => 7))
        (world_ready [1] (fun _ _ => false)) 1).1 = NRF_SUCCESS
    ∧ update_pending (gcm_local_db_cache_update (env_const NRF_ERROR_BUSY 0 0 (fun _ => 7))
        (world_ready [1] (fun _ _ => false)) 1).2 1 = true :=
  ⟨by decide,
    (gcm_local_db_cache_update_return (env_const NRF_ERROR_BUSY 0 0 (fun _ => 7))
      (world_ready [1] (fun _ _ => false)) 1 (by decide)).1 rfl⟩

/-- C5, as stated, fails: with the update adapter answering Success on connection 1
    the trigger-driven attempt emits one LocalDbCacheUpdated event, while the
    application request gcm_local_db_cache_update emits none. -/
theorem gcm_local_db_cache_update_events_differ :
    events (local_db_update_in_evt (env_const NRF_SUCCESS 0 0 (fun _ => 7))
        (world_ready [1] (fun _ _ => false)) 1).trace
      = [⟨gcm_evt_id_t.GCM_EVT_LOCAL_DB_CACHE_UPDATED, 7, some 1, none⟩]
    ∧ events (gcm_local_db_cache_update (env_const NRF_SUCCESS 0 0 (fun _ => 7))
        (world_ready [1] (fun _ _ => false)) 1).2.trace = []
    ∧ events (gcm_local_db_cache_update (env_const NRF_SUCCESS 0 0 (fun _ => 7))
        (world_ready [1] (fun _ _ => false)) 1).2.trace
      ≠ events (local_db_update_in_evt (env_const NRF_SUCCESS 0 0 (fun _ => 7))
        (world_ready [1] (fun _ _ => false)) 1).trace := by
  decide

/-- C5, amended: when the module is initialized, gcm_local_db_cache_update(c) makes
    the same single call of the update adapter and leaves the same module variable,
    the same active connections and the same value of every pending flag (so the
    same Update-Pending(c)) as local_db_update_in_evt(c) does, but it emits no event
    for any adapter answer: its trace is the old trace followed by the adapter call
    only. -/
theorem gcm_local_db_cache_update_same_flags_no_event (env : Env) (w : World) (c h : Nat)
    (hreg : w.m_gcm.evt_handler = some h) :
    let api := (gcm_local_db_cache_update env w c).2
    let trig := local_db_update_in_evt env w c
    api.m_gcm = trig.m_gcm
    ∧ api.conn_state.conn_handles = trig.conn_state.conn_handles
    ∧ (∀ f c2, api.conn_state.user_flags f c2 = trig.conn_state.user_flags f c2)
    ∧ update_pending api c = update_pending trig c
    ∧ api.trace = w.trace
        ++ [Action.gscm_local_db_cache_update c (env.gscm_local_db_cache_update w.trace c)]
    ∧ events api.trace = events w.trace
    ∧ update_calls (new_actions w api) = [c]
    ∧ update_calls (new_actions w trig) = [c] := by
  have hinit : w.m_gcm.evt_handler ≠ none := by simp [hreg]
  simp only [gcm_local_db_cache_update, local_db_update_in_evt, update_pending,
    ble_conn_state_user_flag_get, ble_conn_state_user_flag_set, evt_handler_call,
    World.record, if_neg hinit, new_actions, events, update_calls]
  generalize env.gscm_local_db_cache_update w.trace c = r
  split_ifs <;> simp_all

/-- Instance of the amended C5: the adapter answers NRF_ERROR_DATA_SIZE on
    connection 1; the application request records the adapter call and no event. -/
theorem gcm_local_db_cache_update_same_flags_no_event_witness :
    (world_ready [1] (fun _ _ => false)).m_gcm.evt_handler = some 1
    ∧ (gcm_local_db_cache_update (env_const NRF_ERROR_DATA_SIZE 0 0 (fun _ => 7))
        (world_ready [1] (fun _ _ => false)) 1).2.trace
      = [Action.gscm_local_db_cache_update 1 NRF_ERROR_DATA_SIZE] :=
  ⟨rfl,
    (gcm_local_db_cache_update_same_flags_no_event
      (env_const NRF_ERROR_DATA_SIZE 0 0 (fun _ => 7))
      (world_ready [1] (fun _ _ => false)) 1 1 rfl).2.2.2.2.1⟩

-- ---------------------------------------------------------------------------
-- Effect of one attempt on the module variable, the connection set and the flags
-- ---------------------------------------------------------------------------

/-- An Apply attempt leaves the module variable unchanged. -/
theorem local_db_apply_in_evt_m_gcm (env : Env) (w : World) (c : Nat) :
    (local_db_apply_in_evt env w c).m_gcm = w.m_gcm := by
  simp only [local_db_apply_in_evt, ble_conn_state_user_flag_set, evt_handler_call, World.record]
  split_ifs <;> rfl

/-- An Apply attempt leaves the set of active connections unchanged. -/
theorem local_db_apply_in_evt_conn_handles (env : Env) (w : World) (c : Nat) :
    (local_db_apply_in_evt env w c).conn_state.conn_handles = w.conn_state.conn_handles := by
  simp only [local_db_apply_in_evt, ble_conn_state_user_flag_set, evt_handler_call, World.record]
  split_ifs <;> rfl

/-- An Apply attempt on c writes at most the apply-pending slot of c. -/
theorem local_db_apply_in_evt_flags_frame (env : Env) (w : World) (c f c2 : Nat)
    (hne : f ≠ w.m_gcm.flag_id_local_db_apply_pending ∨ c2 ≠ c) :
    (local_db_apply_in_evt env w c).conn_state.user_flags f c2 = w.conn_state.user_flags f c2 := by
  have hn : ¬ (f = w.m_gcm.flag_id_local_db_apply_pending ∧ c2 = c) := by
    rintro ⟨h1, h2⟩
    rcases hne with h | h
    · exact h h1
    · exact h h2
  simp only [local_db_apply_in_evt, ble_conn_state_user_flag_set, evt_handler_call, World.record]
  split_ifs <;> simp [hn]

/-- An Apply attempt on a valid handle leaves the apply-pending slot of that handle
    true exactly when the adapter answered Busy. -/
theorem local_db_apply_in_evt_flag_self (env : Env) (w : World) (c : Nat)
    (hc : c ≠ BLE_CONN_HANDLE_INVALID) :
    (local_db_apply_in_evt env w c).conn_state.user_flags
        w.m_gcm.flag_id_local_db_apply_pending c
      = decide (env.gscm_local_db_cache_apply w.trace c = NRF_ERROR_BUSY) := by
  simp only [local_db_apply_in_evt, ble_conn_state_user_flag_set, evt_handler_call,
    World.record, if_neg hc]
  generalize env.gscm_local_db_cache_apply w.trace c = r
  split_ifs <;> simp_all

/-- An Apply attempt on a valid handle appends the adapter call on c and then only
    steps that concern c, none of them another adapter call. -/
theorem local_db_apply_in_evt_trace (env : Env) (w : World) (c : Nat)
    (hc : c ≠ BLE_CONN_HANDLE_INVALID) :
    ∃ added, (local_db_apply_in_evt env w c).trace = w.trace ++ added
      ∧ apply_calls added = [c] ∧ update_calls added = [] ∧ send_calls added = []
      ∧ ∀ a ∈ added, a.conn = some c := by
  simp only [local_db_apply_in_evt, ble_conn_state_user_flag_set, evt_handler_call,
    World.record, if_neg hc]
  generalize env.gscm_local_db_cache_apply w.trace c = r
  split_ifs <;>
    simp [List.append_assoc, apply_calls, update_calls, send_calls, Action.conn]

/-- An Update attempt leaves the module variable unchanged. -/
theorem local_db_update_in_evt_m_gcm (env : Env) (w : World) (c : Nat) :
    (local_db_update_in_evt env w c).m_gcm = w.m_gcm := by
  simp only [local_db_update_in_evt, ble_conn_state_user_flag_set, evt_handler_call, World.record]
  split_ifs <;> rfl

/-- An Update attempt leaves the set of active connections unchanged. -/
theorem local_db_update_in_evt_conn_handles (env : Env) (w : World) (c : Nat) :
    (local_db_update_in_evt env w c).conn_state.conn_handles = w.conn_state.conn_handles := by
  simp only [local_db_update_in_evt, ble_conn_state_user_flag_set, evt_handler_call, World.record]
  split_ifs <;> rfl

/-- An Update attempt on c writes at most the update-pending slot of c. -/
theorem local_db_update_in_evt_flags_frame (env : Env) (w : World) (c f c2 : Nat)
    (hne : f ≠ w.m_gcm.flag_id_local_db_update_pending ∨ c2 ≠ c) :
    (local_db_update_in_evt env w c).conn_state.user_flags f c2
      = w.conn_state.user_flags f c2 := by
  have hn : ¬ (f = w.m_gcm.flag_id_local_db_update_pending ∧ c2 = c) := by
    rintro ⟨h1, h2⟩
    rcases hne with h | h
    · exact h h1
    · exact h h2
  simp only [local_db_update_in_evt, ble_conn_state_user_flag_set, evt_handler_call, World.record]
  split_ifs <;> simp [hn]

/-- An Update attempt appends the adapter call on c and then only steps that
    concern c, none of them another adapter call. -/
theorem local_db_update_in_evt_trace (env : Env) (w : World) (c : Nat) :
    ∃ added, (local_db_update_in_evt env w c).trace = w.trace ++ added
      ∧ update_calls added = [c] ∧ apply_calls added = [] ∧ send_calls added = []
      ∧ ∀ a ∈ added, a.conn = some c := by
  simp only [local_db_update_in_evt, ble_conn_state_user_flag_set, evt_handler_call, World.record]
  generalize env.gscm_local_db_cache_update w.trace c = r
  split_ifs <;>
    simp [List.append_assoc, apply_calls, update_calls, send_calls, Action.conn]

/-- Shape of a service changed send attempt: some state that agrees with the old
    one on the module variable, the active connections and the flags of every other
    connection, followed by setting the service-changed-pending slot of c. -/
theorem service_changed_send_in_evt_shape (env : Env) (w : World) (c : Nat) :
    ∃ w2 : World,
      service_changed_send_in_evt env w c
        = ble_conn_state_user_flag_set w2 c w.m_gcm.flag_id_service_changed_pending true
      ∧ w2.m_gcm = w.m_gcm
      ∧ w2.conn_state.conn_handles = w.conn_state.conn_handles
      ∧ ∀ f c2, c2 ≠ c → w2.conn_state.user_flags f c2 = w.conn_state.user_flags f c2 := by
  simp only [service_changed_send_in_evt]
  split_ifs
  · exact ⟨_, rfl, rfl, rfl, fun _ _ _ => rfl⟩
  · exact ⟨_, rfl, rfl, rfl, fun _ _ _ => rfl⟩
  · exact ⟨_, rfl, rfl, rfl, fun _ _ _ => rfl⟩
  · refine ⟨local_db_apply_in_evt env (w.record (Action.gscm_service_changed_ind_send c
        (env.gscm_service_changed_ind_send w.trace c))) c, ?_,
      local_db_apply_in_evt_m_gcm env _ c,
      local_db_apply_in_evt_conn_handles env _ c,
      fun f c2 h => local_db_apply_in_evt_flags_frame env _ c f c2 (Or.inr h)⟩
    rw [local_db_apply_in_evt_m_gcm]
    rfl
  · exact ⟨_, rfl, rfl, rfl, fun _ _ _ => rfl⟩

/-- A service changed send attempt leaves the module variable unchanged. -/
theorem service_changed_send_in_evt_m_gcm (env : Env) (w : World) (c : Nat) :
    (service_changed_send_in_evt env w c).m_gcm = w.m_gcm := by
  obtain ⟨w2, h, hg, _, _⟩ := service_changed_send_in_evt_shape env w c
  rw [h]
  exact hg

/-- A service changed send attempt leaves the set of active connections unchanged. -/
theorem service_changed_send_in_evt_conn_handles (env : Env) (w : World) (c : Nat) :
    (service_changed_send_in_evt env w c).conn_state.conn_handles
      = w.conn_state.conn_handles := by
  obtain ⟨w2, h, _, hh, _⟩ := service_changed_send_in_evt_shape env w c
  rw [h]
  exact hh

/-- A service changed send attempt on c leaves the service-changed-pending slot of
    c true. -/
theorem service_changed_send_in_evt_flag_self (env : Env) (w : World) (c : Nat) :
    (service_changed_send_in_evt env w c).conn_state.user_flags
      w.m_gcm.flag_id_service_changed_pending c = true := by
  obtain ⟨w2, h, _, _, _⟩ := service_changed_send_in_evt_shape env w c
  rw [h]
  simp [ble_conn_state_user_flag_set]

/-- A service changed send attempt on c does not touch the flags of another
    connection. -/
theorem service_changed_send_in_evt_flags_other (env : Env) (w : World) (c f c2 : Nat)
    (hne : c2 ≠ c) :
    (service_changed_send_in_evt env w c).conn_state.user_flags f c2
      = w.conn_state.user_flags f c2 := by
  obtain ⟨w2, h, _, _, hf⟩ := service_changed_send_in_evt_shape env w c
  rw [h]
  simp [ble_conn_state_user_flag_set, hne, hf f c2 hne]

-- ---------------------------------------------------------------------------
-- Sweeps
-- ---------------------------------------------------------------------------

/-- A sweep loop over connections none of which has its flag set changes nothing. -/
theorem foldl_sweep_skip (att : World → Nat → World) (flag : World → Nat → Bool)
    (cs : List Nat) (w : World) (h : ∀ c ∈ cs, flag w c = false) :
    cs.foldl (fun w c => if flag w c = true then att w c else w) w = w := by
  induction cs with
  | nil => rfl
  | cons c rest ih =>
    have hc : flag w c = false := h c (List.mem_cons_self c rest)
    simp only [List.foldl_cons, hc, Bool.false_eq_true, if_false]
    exact ih (fun c2 hc2 => h c2 (List.mem_cons_of_mem c hc2))

/-- The OR-reduction guard of a sweep is false exactly when no active connection
    has the flag set. -/
theorem any_set_eq_false_iff (w : World) (f : Nat) :
    sdk_mapped_flags_any_set (ble_conn_state_user_flag_collection w f) = false
      ↔ ∀ c ∈ w.conn_state.conn_handles, w.conn_state.user_flags f c = false := by
  simp [sdk_mapped_flags_any_set, ble_conn_state_user_flag_collection]

/-- The guard of apply_pending_flags_check is redundant: the sweep is its loop. -/
theorem apply_pending_flags_check_eq_foldl (env : Env) (w : World) :
    apply_pending_flags_check env w
      = w.conn_state.conn_handles.foldl
          (fun w c =>
            if ble_conn_state_user_flag_get w c w.m_gcm.flag_id_local_db_apply_pending = true then
              local_db_apply_in_evt env w c
            else w) w := by
  unfold apply_pending_flags_check
  by_cases hg : sdk_mapped_flags_any_set
      (ble_conn_state_user_flag_collection w w.m_gcm.flag_id_local_db_apply_pending) = true
  · simp only [hg, if_true, ble_conn_state_conn_handles]
  · simp only [hg, if_false]
    have hall := (any_set_eq_false_iff w _).mp (by simpa using hg)
    exact (foldl_sweep_skip (fun w c => local_db_apply_in_evt env w c)
      (fun w c => ble_conn_state_user_flag_get w c w.m_gcm.flag_id_local_db_apply_pending)
      _ w hall).symm

/-- The guard of update_pending_flags_check is redundant: the sweep is its loop. -/
theorem update_pending_flags_check_eq_foldl (env : Env) (w : World) :
    update_pending_flags_check env w
      = w.conn_state.conn_handles.foldl
          (fun w c =>
            if ble_conn_state_user_flag_get w c w.m_gcm.flag_id_local_db_update_pending = true then
              local_db_update_in_evt env w c
            else w) w := by
  unfold update_pending_flags_check
  by_cases hg : sdk_mapped_flags_any_set
      (ble_conn_state_user_flag_collection w w.m_gcm.flag_id_local_db_update_pending) = true
  · simp only [hg, if_true, ble_conn_state_conn_handles]
  · simp only [hg, if_false]
    have hall := (any_set_eq_false_iff w _).mp (by simpa using hg)
    exact (foldl_sweep_skip (fun w c => local_db_update_in_evt env w c)
      (fun w c => ble_conn_state_user_flag_get w c w.m_gcm.flag_id_local_db_update_pending)
      _ w hall).symm

/-- The guard of service_changed_pending_flags_check is redundant: the sweep is its
    loop. -/
theorem service_changed_pending_flags_check_eq_foldl (env : Env) (w : World) :
    service_changed_pending_flags_check env w
      = w.conn_state.conn_handles.foldl
          (fun w c =>
            if ble_conn_state_user_flag_get w c w.m_gcm.flag_id_service_changed_pending = true then
              service_changed_send_in_evt env w c
            else w) w := by
  unfold service_changed_pending_flags_check
  by_cases hg : sdk_mapped_flags_any_set
      (ble_conn_state_user_flag_collection w w.m_gcm.flag_id_service_changed_pending) = true
  · simp only [hg, if_true, ble_conn_state_conn_handles]
  · simp only [hg, if_false]
    have hall := (any_set_eq_false_iff w _).mp (by simpa using hg)
    exact (foldl_sweep_skip (fun w c => service_changed_send_in_evt env w c)
      (fun w c => ble_conn_state_user_flag_get w c w.m_gcm.flag_id_service_changed_pending)
      _ w hall).symm

/-- The service changed sweep loop keeps the module variable and every
    service-changed-pending flag: it only re-sets flags that are already true. -/
theorem service_changed_loop_flags (env : Env) (cs : List Nat) (w : World) :
    (cs.foldl
        (fun w c =>
          if ble_conn_state_user_flag_get w c w.m_gcm.flag_id_service_changed_pending = true then
            service_changed_send_in_evt env w c
          else w) w).m_gcm = w.m_gcm
    ∧ ∀ c2, (cs.foldl
        (fun w c =>
          if ble_conn_state_user_flag_get w c w.m_gcm.flag_id_service_changed_pending = true then
            service_changed_send_in_evt env w c
          else w) w).conn_state.user_flags w.m_gcm.flag_id_service_changed_pending c2
        = w.conn_state.user_flags w.m_gcm.flag_id_service_changed_pending c2 := by
  induction cs generalizing w with
  | nil => exact ⟨rfl, fun _ => rfl⟩
  | cons c rest ih =>
    simp only [List.foldl_cons]
    by_cases hf : ble_conn_state_user_flag_get w c w.m_gcm.flag_id_service_changed_pending = true
    · simp only [hf, if_true]
      have hg := service_changed_send_in_evt_m_gcm env w c
      obtain ⟨ih1, ih2⟩ := ih (service_changed_send_in_evt env w c)
      rw [hg] at ih1 ih2
      refine ⟨ih1, fun c2 => ?_⟩
      rw [ih2 c2]
      by_cases hc : c2 = c
      · subst hc
        rw [service_changed_send_in_evt_flag_self]
        exact hf.symm
      · exact service_changed_send_in_evt_flags_other env w c _ c2 hc
    · simp only [hf, if_false]
      exact ih w

/-- The marking loop of gcm_local_database_has_changed keeps the module variable
    and the trace, and sets the service-changed-pending flag of exactly the visited
    connections whose peer id is PM_PEER_ID_INVALID. -/
theorem mark_loop_flags (env : Env) (cs : List Nat) (w : World) :
    (cs.foldl
        (fun w c =>
          if env.im_peer_id_get_by_conn_handle w.trace c = PM_PEER_ID_INVALID then
            ble_conn_state_user_flag_set w c w.m_gcm.flag_id_service_changed_pending true
          else w) w).m_gcm = w.m_gcm
    ∧ (cs.foldl
        (fun w c =>
          if env.im_peer_id_get_by_conn_handle w.trace c = PM_PEER_ID_INVALID then
            ble_conn_state_user_flag_set w c w.m_gcm.flag_id_service_changed_pending true
          else w) w).trace = w.trace
    ∧ (cs.foldl
        (fun w c =>
          if env.im_peer_id_get_by_conn_handle w.trace c = PM_PEER_ID_INVALID then
            ble_conn_state_user_flag_set w c w.m_gcm.flag_id_service_changed_pending true
          else w) w).conn_state.conn_handles = w.conn_state.conn_handles
    ∧ ∀ c2, (cs.foldl
        (fun w c =>
          if env.im_peer_id_get_by_conn_handle w.trace c = PM_PEER_ID_INVALID then
            ble_conn_state_user_flag_set w c w.m_gcm.flag_id_service_changed_pending true
          else w) w).conn_state.user_flags w.m_gcm.flag_id_service_changed_pending c2
        = (w.conn_state.user_flags w.m_gcm.flag_id_service_changed_pending c2
            || (decide (c2 ∈ cs)
                && decide (env.im_peer_id_get_by_conn_handle w.trace c2 = PM_PEER_ID_INVALID))) := by
  induction cs generalizing w with
  | nil => exact ⟨rfl, rfl, rfl, fun _ => by simp⟩
  | cons c rest ih =>
    simp only [List.foldl_cons]
    by_cases hp : env.im_peer_id_get_by_conn_handle w.trace c = PM_PEER_ID_INVALID
    · simp only [hp, if_true]
      obtain ⟨ih1, ih2, ih3, ih4⟩ :=
        ih (ble_conn_state_user_flag_set w c w.m_gcm.flag_id_service_changed_pending true)
      refine ⟨ih1, ih2, ih3, fun c2 => ?_⟩
      have h4 := ih4 c2
      simp only [ble_conn_state_user_flag_set] at h4 ⊢
      rw [h4]
      by_cases hc : c2 = c
      · subst hc
        simp [hp]
      · simp [hc]
    · simp only [hp, if_false]
      obtain ⟨ih1, ih2, ih3, ih4⟩ := ih w
      refine ⟨ih1, ih2, ih3, fun c2 => ?_⟩
      rw [ih4 c2]
      by_cases hc : c2 = c
      · subst hc
        simp [hp]
      · simp [hc]

/-- The service changed sweep keeps the module variable and every
    service-changed-pending flag. -/
theorem service_changed_check_flags (env : Env) (w : World) :
    (service_changed_pending_flags_check env w).m_gcm = w.m_gcm
    ∧ ∀ c2, (service_changed_pending_flags_check env w).conn_state.user_flags
          w.m_gcm.flag_id_service_changed_pending c2
        = w.conn_state.user_flags w.m_gcm.flag_id_service_changed_pending c2 := by
  rw [service_changed_pending_flags_check_eq_foldl]
  exact service_changed_loop_flags env _ w

/-- C6, as stated, fails: with active connections 1 (peer id 7, resolvable) and 2
    (peer id PM_PEER_ID_INVALID, unresolvable), both ServiceChanged-Pending flags
    false beforehand, gcm_local_database_has_changed leaves the flag of connection 1
    false and sets the flag of connection 2, the opposite of the claim. -/
theorem gcm_local_database_has_changed_marks_wrong_side :
    peer_of_one 1 ≠ PM_PEER_ID_INVALID
    ∧ peer_of_one 2 = PM_PEER_ID_INVALID
    ∧ service_changed_pending (world_ready [1, 2] (fun _ _ => false)) 1 = false
    ∧ service_changed_pending (world_ready [1, 2] (fun _ _ => false)) 2 = false
    ∧ service_changed_pending
        (gcm_local_database_has_changed (env_const 0 0 NRF_SUCCESS peer_of_one)
          (world_ready [1, 2] (fun _ _ => false))) 1 = false
    ∧ service_changed_pending
        (gcm_local_database_has_changed (env_const 0 0 NRF_SUCCESS peer_of_one)
          (world_ready [1, 2] (fun _ _ => false))) 2 = true
    ∧ ¬ (service_changed_pending
          (gcm_local_database_has_changed (env_const 0 0 NRF_SUCCESS peer_of_one)
            (world_ready [1, 2] (fun _ _ => false))) 1 = true
        ∧ service_changed_pending
          (gcm_local_database_has_changed (env_const 0 0 NRF_SUCCESS peer_of_one)
            (world_ready [1, 2] (fun _ _ => false))) 2 = false) := by
  decide

/-- C6, amended: with a handler registered, after gcm_local_database_has_changed
    the ServiceChanged-Pending flag of a connection c is true exactly when it was
    true before or c is an active connection whose peer id is not resolvable
    (im_peer_id_get_by_conn_handle(c) == PM_PEER_ID_INVALID); so the flag is set on
    exactly the unresolvable active connections and a resolvable connection keeps
    its previous value. -/
theorem gcm_local_database_has_changed_marks_unresolvable (env : Env) (w : World) (h : Nat)
    (_hreg : w.m_gcm.evt_handler = some h) (c : Nat) :
    service_changed_pending (gcm_local_database_has_changed env w) c
      = (service_changed_pending w c
          || (decide (c ∈ w.conn_state.conn_handles)
              && decide (env.im_peer_id_get_by_conn_handle
                    (w.trace ++ [Action.gscm_local_database_has_changed]) c
                  = PM_PEER_ID_INVALID))) := by
  have hdef : gcm_local_database_has_changed env w
      = service_changed_pending_flags_check env
          (mark_unresolvable env w.conn_state.conn_handles
            (w.record Action.gscm_local_database_has_changed)) := rfl
  obtain ⟨m1, _, _, m4⟩ := mark_loop_flags env w.conn_state.conn_handles
    (w.record Action.gscm_local_database_has_changed)
  have m1b : (mark_unresolvable env w.conn_state.conn_handles
      (w.record Action.gscm_local_database_has_changed)).m_gcm = w.m_gcm := m1
  obtain ⟨s1, s2⟩ := service_changed_check_flags env
    (mark_unresolvable env w.conn_state.conn_handles
      (w.record Action.gscm_local_database_has_changed))
  rw [m1b] at s1 s2
  rw [hdef]
  unfold service_changed_pending ble_conn_state_user_flag_get
  rw [s1, s2 c]
  exact m4 c

/-- Instance of the amended C6: connection 2 is active and unresolvable, so its
    flag is set; connection 1 is resolvable and keeps the value false. -/
theorem gcm_local_database_has_changed_marks_unresolvable_witness :
    (world_ready [1, 2] (fun _ _ => false)).m_gcm.evt_handler = some 1
    ∧ service_changed_pending
        (gcm_local_database_has_changed (env_const 0 0 NRF_SUCCESS peer_of_one)
          (world_ready [1, 2] (fun _ _ => false))) 2
      = (service_changed_pending (world_ready [1, 2] (fun _ _ => false)) 2
          || (decide (2 ∈ (world_ready [1, 2] (fun _ _ => false)).conn_state.conn_handles)
              && decide ((env_const 0 0 NRF_SUCCESS peer_of_one).im_peer_id_get_by_conn_handle
                    ((world_ready [1, 2] (fun _ _ => false)).trace
                      ++ [Action.gscm_local_database_has_changed]) 2
                  = PM_PEER_ID_INVALID))) :=
  ⟨rfl, gcm_local_database_has_changed_marks_unresolvable
    (env_const 0 0 NRF_SUCCESS peer_of_one) (world_ready [1, 2] (fun _ _ => false)) 1 rfl 2⟩

/-- A sweep loop over distinct connections: when an attempt on c leaves the flags
    of the other connections alone and appends steps that concern c only, with one
    selected call on c, the loop makes the selected call exactly on the connections
    whose flag was set at the start, in enumeration order, and every step it appends
    concerns such a connection. -/
theorem foldl_sweep_calls (att : World → Nat → World) (flag : World → Nat → Bool)
    (sel : Action → Option Nat) (ok : Nat → Prop)
    (hflag : ∀ w c c2, c2 ≠ c → flag (att w c) c2 = flag w c2)
    (htrace : ∀ w c, ok c → ∃ added, (att w c).trace = w.trace ++ added
      ∧ added.filterMap sel = [c] ∧ ∀ a ∈ added, a.conn = some c)
    (cs : List Nat) (w : World) (hnd : cs.Nodup) (hok : ∀ c ∈ cs, ok c) :
    ∃ added, (cs.foldl (fun w c => if flag w c = true then att w c else w) w).trace
        = w.trace ++ added
      ∧ added.filterMap sel = cs.filter (fun c => flag w c)
      ∧ ∀ a ∈ added, ∃ c ∈ cs, flag w c = true ∧ a.conn = some c := by
  induction cs generalizing w with
  | nil => exact ⟨[], by simp, by simp, by simp⟩
  | cons c rest ih =>
    have hcn : c ∉ rest := (List.nodup_cons.mp hnd).1
    have hrn : rest.Nodup := (List.nodup_cons.mp hnd).2
    have hrok : ∀ c2 ∈ rest, ok c2 := fun c2 hc2 => hok c2 (List.mem_cons_of_mem c hc2)
    simp only [List.foldl_cons]
    by_cases hf : flag w c = true
    · simp only [hf, if_true]
      obtain ⟨a1, ht1, hs1, hc1⟩ := htrace w c (hok c (List.mem_cons_self c rest))
      obtain ⟨a2, ht2, hs2, hc2⟩ := ih (att w c) hrn hrok
      have hsame : ∀ c2 ∈ rest, flag (att w c) c2 = flag w c2 := fun c2 hm =>
        hflag w c c2 (fun heq => hcn (heq ▸ hm))
      refine ⟨a1 ++ a2, ?_, ?_, ?_⟩
      · rw [ht2, ht1, List.append_assoc]
      · rw [List.filterMap_append, hs1, hs2, List.filter_cons_of_pos (by simpa using hf)]
        simp only [List.singleton_append, List.cons.injEq, true_and]
        exact List.filter_congr (fun c2 hm => by rw [hsame c2 hm])
      · intro a ha
        rcases List.mem_append.mp ha with h1 | h2
        · exact ⟨c, List.mem_cons_self c rest, hf, hc1 a h1⟩
        · obtain ⟨c2, hm, hfl, hcc⟩ := hc2 a h2
          exact ⟨c2, List.mem_cons_of_mem c hm, (hsame c2 hm) ▸ hfl, hcc⟩
    · simp only [hf, if_false]
      obtain ⟨a2, ht2, hs2, hc2⟩ := ih w hrn hrok
      refine ⟨a2, ht2, ?_, ?_⟩
      · rw [hs2, List.filter_cons_of_neg (by simpa using hf)]
      · intro a ha
        obtain ⟨c2, hm, hfl, hcc⟩ := hc2 a ha
        exact ⟨c2, List.mem_cons_of_mem c hm, hfl, hcc⟩

/-- The steps a run appended, when its trace is known to extend the old one. -/
theorem new_actions_of_append (w w2 : World) (added : List Action)
    (h : w2.trace = w.trace ++ added) : new_actions w w2 = added := by
  simp [new_actions, h]

/-- The Apply sweep over distinct valid handles calls the apply adapter exactly on
    the active connections whose Apply-Pending flag is set, and every step it
    appends concerns such a connection. -/
theorem apply_pending_flags_check_calls (env : Env) (w : World)
    (hnd : w.conn_state.conn_handles.Nodup)
    (hvalid : ∀ c ∈ w.conn_state.conn_handles, c ≠ BLE_CONN_HANDLE_INVALID) :
    apply_calls (new_actions w (apply_pending_flags_check env w))
        = w.conn_state.conn_handles.filter (fun c => apply_pending w c)
    ∧ ∀ a ∈ new_actions w (apply_pending_flags_check env w),
        ∃ c ∈ w.conn_state.conn_handles, apply_pending w c = true ∧ a.conn = some c := by
  obtain ⟨added, ht, hs, hc⟩ := foldl_sweep_calls
    (fun w c => local_db_apply_in_evt env w c)
    (fun w c => ble_conn_state_user_flag_get w c w.m_gcm.flag_id_local_db_apply_pending)
    (fun a => match a with
      | Action.gscm_local_db_cache_apply c _ => some c
      | _ => none)
    (fun c => c ≠ BLE_CONN_HANDLE_INVALID)
    (fun w c c2 hne => by
      simp only [ble_conn_state_user_flag_get, local_db_apply_in_evt_m_gcm]
      exact local_db_apply_in_evt_flags_frame env w c _ c2 (Or.inr hne))
    (fun w c hc => by
      obtain ⟨added, h1, h2, _, _, h5⟩ := local_db_apply_in_evt_trace env w c hc
      exact ⟨added, h1, h2, h5⟩)
    w.conn_state.conn_handles w hnd hvalid
  rw [← apply_pending_flags_check_eq_foldl] at ht
  rw [new_actions_of_append w _ added ht]
  exact ⟨hs, hc⟩

/-- The Update sweep over distinct handles calls the update adapter exactly on the
    active connections whose Update-Pending flag is set, and every step it appends
    concerns such a connection. -/
theorem update_pending_flags_check_calls (env : Env) (w : World)
    (hnd : w.conn_state.conn_handles.Nodup) :
    update_calls (new_actions w (update_pending_flags_check env w))
        = w.conn_state.conn_handles.filter (fun c => update_pending w c)
    ∧ ∀ a ∈ new_actions w (update_pending_flags_check env w),
        ∃ c ∈ w.conn_state.conn_handles, update_pending w c = true ∧ a.conn = some c := by
  obtain ⟨added, ht, hs, hc⟩ := foldl_sweep_calls
    (fun w c => local_db_update_in_evt env w c)
    (fun w c => ble_conn_state_user_flag_get w c w.m_gcm.flag_id_local_db_update_pending)
    (fun a => match a with
      | Action.gscm_local_db_cache_update c _ => some c
      | _ => none)
    (fun _ => True)
    (fun w c c2 hne => by
      simp only [ble_conn_state_user_flag_get, local_db_update_in_evt_m_gcm]
      exact local_db_update_in_evt_flags_frame env w c _ c2 (Or.inr hne))
    (fun w c _ => by
      obtain ⟨added, h1, h2, _, _, h5⟩ := local_db_update_in_evt_trace env w c
      exact ⟨added, h1, h2, h5⟩)
    w.conn_state.conn_handles w hnd (fun _ _ => trivial)
  rw [← update_pending_flags_check_eq_foldl] at ht
  rw [new_actions_of_append w _ added ht]
  exact ⟨hs, hc⟩

/-- Number of occurrences of c in the flagged part of a duplicate-free list. -/
theorem count_filter_nodup (cs : List Nat) (p : Nat → Bool) (hnd : cs.Nodup) (c : Nat) :
    (cs.filter p).count c = if c ∈ cs ∧ p c = true then 1 else 0 := by
  rw [List.count_eq_of_nodup (hnd.filter p)]
  simp [List.mem_filter]

/-- C7: with a handler registered and an enumeration of active connections with
    distinct valid handles, the Apply sweep calls the apply adapter exactly once on
    each active connection whose Apply-Pending flag is set and never on any other,
    the Update sweep does the same with the update adapter and Update-Pending, and a
    handle that is not in the enumeration gets no attempt and no event from either
    sweep, whatever its flags. -/
theorem sweeps_attempt_each_pending_once (env : Env) (w : World) (h : Nat)
    (_hreg : w.m_gcm.evt_handler = some h)
    (hnd : w.conn_state.conn_handles.Nodup)
    (hvalid : ∀ c ∈ w.conn_state.conn_handles, c ≠ BLE_CONN_HANDLE_INVALID) :
    apply_calls (new_actions w (apply_pending_flags_check env w))
        = w.conn_state.conn_handles.filter (fun c => apply_pending w c)
    ∧ update_calls (new_actions w (update_pending_flags_check env w))
        = w.conn_state.conn_handles.filter (fun c => update_pending w c)
    ∧ (∀ c, (apply_calls (new_actions w (apply_pending_flags_check env w))).count c
        = if c ∈ w.conn_state.conn_handles ∧ apply_pending w c = true then 1 else 0)
    ∧ (∀ c, (update_calls (new_actions w (update_pending_flags_check env w))).count c
        = if c ∈ w.conn_state.conn_handles ∧ update_pending w c = true then 1 else 0)
    ∧ (∀ c, c ∉ w.conn_state.conn_handles →
        (∀ a ∈ new_actions w (apply_pending_flags_check env w), a.conn ≠ some c)
        ∧ (∀ a ∈ new_actions w (update_pending_flags_check env w), a.conn ≠ some c)) := by
  obtain ⟨ha1, ha2⟩ := apply_pending_flags_check_calls env w hnd hvalid
  obtain ⟨hu1, hu2⟩ := update_pending_flags_check_calls env w hnd
  refine ⟨ha1, hu1, ?_, ?_, ?_⟩
  · intro c
    rw [ha1]
    exact count_filter_nodup _ _ hnd c
  · intro c
    rw [hu1]
    exact count_filter_nodup _ _ hnd c
  · intro c hc
    constructor
    · intro a ha heq
      obtain ⟨c2, hm, _, hcc⟩ := ha2 a ha
      rw [hcc] at heq
      exact hc (Option.some.inj heq ▸ hm)
    · intro a ha heq
      obtain ⟨c2, hm, _, hcc⟩ := hu2 a ha
      rw [hcc] at heq
      exact hc (Option.some.inj heq ▸ hm)

/-- Instance of the sweeps: active connections 1 and 2, Update-Pending set on 1,
    Apply-Pending set on 2, both flags set on the inactive handle 5; each sweep calls
    its adapter once, on the flagged active connection only. -/
theorem sweeps_attempt_each_pending_once_witness :
    (world_ready [1, 2] flags_demo).m_gcm.evt_handler = some 1
    ∧ (world_ready [1, 2] flags_demo).conn_state.conn_handles.Nodup
    ∧ (∀ c ∈ (world_ready [1, 2] flags_demo).conn_state.conn_handles,
        c ≠ BLE_CONN_HANDLE_INVALID)
    ∧ apply_calls (new_actions (world_ready [1, 2] flags_demo)
        (apply_pending_flags_check (env_const NRF_ERROR_BUSY NRF_ERROR_BUSY 0 peer_of_one)
          (world_ready [1, 2] flags_demo))) = [2]
    ∧ update_calls (new_actions (world_ready [1, 2] flags_demo)
        (update_pending_flags_check (env_const NRF_ERROR_BUSY NRF_ERROR_BUSY 0 peer_of_one)
          (world_ready [1, 2] flags_demo))) = [1] :=
  have key := sweeps_attempt_each_pending_once
    (env_const NRF_ERROR_BUSY NRF_ERROR_BUSY 0 peer_of_one) (world_ready [1, 2] flags_demo) 1
    rfl (by decide) (by decide)
  ⟨rfl, by decide, by decide, key.1.trans (by decide), key.2.1.trans (by decide)⟩

/-- A sweep of Apply-Pending does nothing when no active connection has the flag. -/
theorem apply_pending_flags_check_idle (env : Env) (w : World)
    (h : ∀ c ∈ w.conn_state.conn_handles,
      w.conn_state.user_flags w.m_gcm.flag_id_local_db_apply_pending c = false) :
    apply_pending_flags_check env w = w := by
  unfold apply_pending_flags_check
  simp only [(any_set_eq_false_iff w _).mpr h, Bool.false_eq_true, if_false]

/-- A sweep of Update-Pending does nothing when no active connection has the flag. -/
theorem update_pending_flags_check_idle (env : Env) (w : World)
    (h : ∀ c ∈ w.conn_state.conn_handles,
      w.conn_state.user_flags w.m_gcm.flag_id_local_db_update_pending c = false) :
    update_pending_flags_check env w = w := by
  unfold update_pending_flags_check
  simp only [(any_set_eq_false_iff w _).mpr h, Bool.false_eq_true, if_false]

/-- A sweep of ServiceChanged-Pending does nothing when no active connection has the
    flag. -/
theorem service_changed_pending_flags_check_idle (env : Env) (w : World)
    (h : ∀ c ∈ w.conn_state.conn_handles,
      w.conn_state.user_flags w.m_gcm.flag_id_service_changed_pending c = false) :
    service_changed_pending_flags_check env w = w := by
  unfold service_changed_pending_flags_check
  simp only [(any_set_eq_false_iff w _).mpr h, Bool.false_eq_true, if_false]

/-- An event that is not a trigger makes gcm_ble_evt_handler run the three sweeps
    only. -/
theorem gcm_ble_evt_handler_of_not_trigger (env : Env) (w : World) (e : ble_evt_t)
    (he : is_trigger e = false) :
    gcm_ble_evt_handler env w e
      = service_changed_pending_flags_check env
          (update_pending_flags_check env (apply_pending_flags_check env w)) := by
  unfold is_trigger at he
  simp only [Bool.or_eq_false_iff, Bool.and_eq_false_iff, beq_eq_false_iff_ne, ne_eq] at he
  obtain ⟨⟨h1, h2⟩, h3⟩ := he
  unfold gcm_ble_evt_handler
  simp only [if_neg h1, if_neg h2]
  rcases h3 with h3 | h3
  · simp only [if_neg h3]
  · simp only [h3, Bool.false_eq_true, if_false, ite_self]

/-- C8: in a state where Update-Pending, Apply-Pending and ServiceChanged-Pending
    are false for all active connections, gcm_ble_evt_handler called with an event
    that is not itself a trigger returns the state unchanged: the trace gets no new
    step (no store-adapter operation, no event) and every flag keeps its value; and
    so does any sequence of such calls. -/
theorem gcm_ble_evt_handler_idle (env : Env) (w : World)
    (hflags : ∀ c ∈ w.conn_state.conn_handles,
      update_pending w c = false ∧ apply_pending w c = false
        ∧ service_changed_pending w c = false) :
    (∀ e, is_trigger e = false →
        gcm_ble_evt_handler env w e = w
        ∧ new_actions w (gcm_ble_evt_handler env w e) = [])
    ∧ (∀ evs : List ble_evt_t, (∀ e ∈ evs, is_trigger e = false) →
        evs.foldl (gcm_ble_evt_handler env) w = w) := by
  have hone : ∀ e, is_trigger e = false → gcm_ble_evt_handler env w e = w := by
    intro e he
    rw [gcm_ble_evt_handler_of_not_trigger env w e he,
      apply_pending_flags_check_idle env w (fun c hc => (hflags c hc).2.1),
      update_pending_flags_check_idle env w (fun c hc => (hflags c hc).1),
      service_changed_pending_flags_check_idle env w (fun c hc => (hflags c hc).2.2)]
  refine ⟨fun e he => ⟨hone e he, ?_⟩, ?_⟩
  · rw [hone e he]
    simp [new_actions]
  · intro evs
    induction evs with
    | nil => intro _; rfl
    | cons e rest ih =>
      intro hall
      rw [List.foldl_cons, hone e (hall e (List.mem_cons_self e rest))]
      exact ih (fun e2 he2 => hall e2 (List.mem_cons_of_mem e he2))

/-- Instance of sweep idempotence: two active connections with all flags false; a
    link connected event followed by a link disconnected event changes nothing. -/
theorem gcm_ble_evt_handler_idle_witness :
    (∀ c ∈ (world_ready [1, 2] (fun _ _ => false)).conn_state.conn_handles,
      update_pending (world_ready [1, 2] (fun _ _ => false)) c = false
        ∧ apply_pending (world_ready [1, 2] (fun _ _ => false)) c = false
        ∧ service_changed_pending (world_ready [1, 2] (fun _ _ => false)) c = false)
    ∧ is_trigger (evt_connected 2) = false
    ∧ is_trigger (evt_disconnected 1) = false
    ∧ (gcm_ble_evt_handler (env_const 0 0 0 peer_of_one)
        (gcm_ble_evt_handler (env_const 0 0 0 peer_of_one)
          (world_ready [1, 2] (fun _ _ => false)) (evt_connected 2))
        (evt_disconnected 1)).trace = [] :=
  ⟨by decide, by decide, by decide,
    congrArg World.trace
      ((gcm_ble_evt_handler_idle (env_const 0 0 0 peer_of_one)
        (world_ready [1, 2] (fun _ _ => false)) (by decide)).2
        [evt_connected 2, evt_disconnected 1] (by decide))⟩

/-- Trace of an Apply attempt on a valid handle whose adapter call answers Success. -/
theorem local_db_apply_in_evt_trace_success (env : Env) (w : World) (c : Nat)
    (hc : c ≠ BLE_CONN_HANDLE_INVALID)
    (hr : env.gscm_local_db_cache_apply w.trace c = NRF_SUCCESS) :
    (local_db_apply_in_evt env w c).trace
      = w.trace ++ [Action.gscm_local_db_cache_apply c NRF_SUCCESS,
          Action.evt_handler w.m_gcm.evt_handler
            ⟨gcm_evt_id_t.GCM_EVT_LOCAL_DB_CACHE_APPLIED,
              env.im_peer_id_get_by_conn_handle
                (w.trace ++ [Action.gscm_local_db_cache_apply c NRF_SUCCESS]) c,
              some c, none⟩] := by
  simp only [local_db_apply_in_evt, ble_conn_state_user_flag_set, evt_handler_call,
    World.record, if_neg hc, hr]
  simp

/-- The Apply sweep loop when exactly one visited connection c1 is flagged and its
    attempt does not answer Busy: the loop is the single attempt on c1. -/
theorem apply_loop_single (env : Env) (c1 : Nat) (hv : c1 ≠ BLE_CONN_HANDLE_INVALID)
    (cs : List Nat) (w : World) (hmem : c1 ∈ cs)
    (hset : w.conn_state.user_flags w.m_gcm.flag_id_local_db_apply_pending c1 = true)
    (hothers : ∀ c ∈ cs, c ≠ c1 →
      w.conn_state.user_flags w.m_gcm.flag_id_local_db_apply_pending c = false)
    (hr : env.gscm_local_db_cache_apply w.trace c1 ≠ NRF_ERROR_BUSY) :
    cs.foldl
        (fun w c =>
          if ble_conn_state_user_flag_get w c w.m_gcm.flag_id_local_db_apply_pending = true then
            local_db_apply_in_evt env w c
          else w) w
      = local_db_apply_in_evt env w c1 := by
  induction cs with
  | nil => exact absurd hmem (List.not_mem_nil c1)
  | cons c rest ih =>
    simp only [List.foldl_cons]
    by_cases hcc : c = c1
    · subst hcc
      have hf : ble_conn_state_user_flag_get w c w.m_gcm.flag_id_local_db_apply_pending = true :=
        hset
      simp only [hf, if_true]
      apply foldl_sweep_skip (fun w c => local_db_apply_in_evt env w c)
        (fun w c => ble_conn_state_user_flag_get w c w.m_gcm.flag_id_local_db_apply_pending)
      intro c2 hc2
      simp only [ble_conn_state_user_flag_get, local_db_apply_in_evt_m_gcm]
      by_cases h2 : c2 = c
      · subst h2
        rw [local_db_apply_in_evt_flag_self env w c2 hv]
        simpa using hr
      · rw [local_db_apply_in_evt_flags_frame env w c _ c2 (Or.inr h2)]
        exact hothers c2 (List.mem_cons_of_mem c hc2) h2
    · have hf : ¬ ble_conn_state_user_flag_get w c w.m_gcm.flag_id_local_db_apply_pending = true := by
        have := hothers c (List.mem_cons_self c rest) hcc
        simp [ble_conn_state_user_flag_get, this]
      simp only [hf, if_false]
      have hin : c1 ∈ rest := by
        rcases List.mem_cons.mp hmem with h | h
        · exact absurd h.symm hcc
        · exact h
      exact ih hin (fun c2 hc2 hne => hothers c2 (List.mem_cons_of_mem c hc2) hne)

/-- C9: with a handler h registered, let c1 and c2 be distinct active connections,
    c1 a valid handle with Apply-Pending(c1) true and every other pending flag of an
    active connection false.  If gcm_ble_evt_handler processes a link connected
    event for c2 and the apply adapter answers Success for c1, then the handler
    appends exactly two steps: one call of the apply adapter, on c1, and one event,
    LocalDbCacheApplied with the resolver's peer id for c1 and conn = c1; afterwards
    Apply-Pending(c1) is false. -/
theorem retry_on_next_event (env : Env) (w : World) (h c1 c2 : Nat)
    (wr : ble_gatts_evt_write_t)
    (hreg : w.m_gcm.evt_handler = some h)
    (_hne : c1 ≠ c2)
    (h1 : c1 ∈ w.conn_state.conn_handles)
    (_h2 : c2 ∈ w.conn_state.conn_handles)
    (hv : c1 ≠ BLE_CONN_HANDLE_INVALID)
    (hset : apply_pending w c1 = true)
    (hothers : ∀ c ∈ w.conn_state.conn_handles,
      update_pending w c = false ∧ service_changed_pending w c = false
        ∧ (c ≠ c1 → apply_pending w c = false))
    (hr : env.gscm_local_db_cache_apply w.trace c1 = NRF_SUCCESS) :
    new_actions w (gcm_ble_evt_handler env w ⟨BLE_GAP_EVT_CONNECTED, c2, wr⟩)
        = [Action.gscm_local_db_cache_apply c1 NRF_SUCCESS,
            Action.evt_handler (some h)
              ⟨gcm_evt_id_t.GCM_EVT_LOCAL_DB_CACHE_APPLIED,
                env.im_peer_id_get_by_conn_handle
                  (w.trace ++ [Action.gscm_local_db_cache_apply c1 NRF_SUCCESS]) c1,
                some c1, none⟩]
    ∧ apply_calls
        (new_actions w (gcm_ble_evt_handler env w ⟨BLE_GAP_EVT_CONNECTED, c2, wr⟩)) = [c1]
    ∧ events
        (new_actions w (gcm_ble_evt_handler env w ⟨BLE_GAP_EVT_CONNECTED, c2, wr⟩))
        = [⟨gcm_evt_id_t.GCM_EVT_LOCAL_DB_CACHE_APPLIED,
            env.im_peer_id_get_by_conn_handle
              (w.trace ++ [Action.gscm_local_db_cache_apply c1 NRF_SUCCESS]) c1,
            some c1, none⟩]
    ∧ apply_pending (gcm_ble_evt_handler env w ⟨BLE_GAP_EVT_CONNECTED, c2, wr⟩) c1 = false := by
  have hnb : env.gscm_local_db_cache_apply w.trace c1 ≠ NRF_ERROR_BUSY := by
    rw [hr]; decide
  have hflag1 : (local_db_apply_in_evt env w c1).conn_state.user_flags
      w.m_gcm.flag_id_local_db_apply_pending c1 = false := by
    rw [local_db_apply_in_evt_flag_self env w c1 hv]
    simpa using hnb
  -- every flag that was false stays false across the attempt on c1
  have hkeep : ∀ f c, w.conn_state.user_flags f c = false →
      (local_db_apply_in_evt env w c1).conn_state.user_flags f c = false := by
    intro f c hfc
    by_cases hx : f = w.m_gcm.flag_id_local_db_apply_pending ∧ c = c1
    · rw [hx.1, hx.2]
      exact hflag1
    · rw [local_db_apply_in_evt_flags_frame env w c1 f c (by tauto)]
      exact hfc
  have hrun : gcm_ble_evt_handler env w ⟨BLE_GAP_EVT_CONNECTED, c2, wr⟩
      = local_db_apply_in_evt env w c1 := by
    rw [gcm_ble_evt_handler_of_not_trigger env w _ (by simp [is_trigger]),
      apply_pending_flags_check_eq_foldl,
      apply_loop_single env c1 hv _ w h1 hset
        (fun c hc hne => (hothers c hc).2.2 hne) hnb,
      update_pending_flags_check_idle, service_changed_pending_flags_check_idle]
    · intro c hc
      rw [local_db_apply_in_evt_conn_handles] at hc
      rw [local_db_apply_in_evt_m_gcm]
      exact hkeep _ c (hothers c hc).2.1
    · intro c hc
      rw [local_db_apply_in_evt_conn_handles] at hc
      rw [local_db_apply_in_evt_m_gcm]
      exact hkeep _ c (hothers c hc).1
  have htr := local_db_apply_in_evt_trace_success env w c1 hv hr
  rw [hreg] at htr
  rw [hrun, new_actions_of_append w _ _ htr]
  refine ⟨rfl, rfl, rfl, ?_⟩
  simp only [apply_pending, ble_conn_state_user_flag_get, local_db_apply_in_evt_m_gcm]
  exact hflag1

/-- Instance of the retry scenario: connections 1 and 2 active, Apply-Pending set
    on 1 only, peer id of 1 is 7; a link connected event for 2 retries Apply on 1. -/
theorem retry_on_next_event_witness :
    (world_ready [1, 2] flags_retry).m_gcm.evt_handler = some 1
    ∧ (1 : Nat) ≠ 2
    ∧ 1 ∈ (world_ready [1, 2] flags_retry).conn_state.conn_handles
    ∧ 2 ∈ (world_ready [1, 2] flags_retry).conn_state.conn_handles
    ∧ (1 : Nat) ≠ BLE_CONN_HANDLE_INVALID
    ∧ apply_pending (world_ready [1, 2] flags_retry) 1 = true
    ∧ (∀ c ∈ (world_ready [1, 2] flags_retry).conn_state.conn_handles,
        update_pending (world_ready [1, 2] flags_retry) c = false
          ∧ service_changed_pending (world_ready [1, 2] flags_retry) c = false
          ∧ (c ≠ 1 → apply_pending (world_ready [1, 2] flags_retry) c = false))
    ∧ new_actions (world_ready [1, 2] flags_retry)
        (gcm_ble_evt_handler (env_const 0 NRF_SUCCESS 0 peer_of_one)
          (world_ready [1, 2] flags_retry) ⟨BLE_GAP_EVT_CONNECTED, 2, ⟨0, 0, 0, 0⟩⟩)
      = [Action.gscm_local_db_cache_apply 1 NRF_SUCCESS,
          Action.evt_handler (some 1)
            ⟨gcm_evt_id_t.GCM_EVT_LOCAL_DB_CACHE_APPLIED, 7, some 1, none⟩]
    ∧ apply_pending
        (gcm_ble_evt_handler (env_const 0 NRF_SUCCESS 0 peer_of_one)
          (world_ready [1, 2] flags_retry) ⟨BLE_GAP_EVT_CONNECTED, 2, ⟨0, 0, 0, 0⟩⟩) 1 = false :=
  have key := retry_on_next_event (env_const 0 NRF_SUCCESS 0 peer_of_one)
    (world_ready [1, 2] flags_retry) 1 1 2 ⟨0, 0, 0, 0⟩
    rfl (by decide) (by decide) (by decide) (by decide) (by decide) (by decide) rfl
  ⟨rfl, by decide, by decide, by decide, by decide, by decide, by decide,
    key.1, key.2.2.2⟩

/-- An Apply attempt appends to the trace (possibly nothing). -/
theorem local_db_apply_in_evt_trace_extends (env : Env) (w : World) (c : Nat) :
    ∃ added, (local_db_apply_in_evt env w c).trace = w.trace ++ added := by
  by_cases hc : c = BLE_CONN_HANDLE_INVALID
  · exact ⟨[], by simp [local_db_apply_in_evt, hc]⟩
  · obtain ⟨added, h, _⟩ := local_db_apply_in_evt_trace env w c hc
    exact ⟨added, h⟩

/-- The handler calls of an Apply attempt carry the error code of the apply
    adapter's own answer, if any. -/
theorem local_db_apply_in_evt_event_error (env : Env) (w : World) (c : Nat) :
    ∀ e ∈ events (new_actions w (local_db_apply_in_evt env w c)),
      e.error = none ∨ e.error = some (env.gscm_local_db_cache_apply w.trace c) := by
  by_cases hc : c = BLE_CONN_HANDLE_INVALID
  · simp [local_db_apply_in_evt, hc, new_actions, events]
  · simp only [local_db_apply_in_evt, ble_conn_state_user_flag_set, evt_handler_call,
      World.record, if_neg hc, new_actions]
    generalize env.gscm_local_db_cache_apply w.trace c = r
    split_ifs <;> simp [events]

/-- C10: with a handler registered, when the service changed send on c answers
    BLE_ERROR_GATTS_SYS_ATTR_MISSING, service_changed_send_in_evt(c) is: the send
    call, then one Apply attempt on c (local_db_apply_in_evt, so the Apply outcome
    table), then setting ServiceChanged-Pending(c).  The only events are those of
    the Apply attempt, none of them an ErrorUnexpected for the answer of the send
    unless the apply adapter itself answers that code; for a valid handle the apply
    adapter is called exactly once, on c; and ServiceChanged-Pending(c) is true
    afterwards. -/
theorem service_changed_send_in_evt_sys_attr_missing (env : Env) (w : World) (c h : Nat)
    (_hreg : w.m_gcm.evt_handler = some h)
    (hr : env.gscm_service_changed_ind_send w.trace c = BLE_ERROR_GATTS_SYS_ATTR_MISSING) :
    let w1 := w.record (Action.gscm_service_changed_ind_send c BLE_ERROR_GATTS_SYS_ATTR_MISSING)
    let w2 := service_changed_send_in_evt env w c
    w2 = ble_conn_state_user_flag_set (local_db_apply_in_evt env w1 c) c
          w.m_gcm.flag_id_service_changed_pending true
    ∧ new_actions w w2
        = Action.gscm_service_changed_ind_send c BLE_ERROR_GATTS_SYS_ATTR_MISSING
            :: new_actions w1 (local_db_apply_in_evt env w1 c)
    ∧ send_calls (new_actions w w2) = [c]
    ∧ events (new_actions w w2) = events (new_actions w1 (local_db_apply_in_evt env w1 c))
    ∧ (c ≠ BLE_CONN_HANDLE_INVALID → apply_calls (new_actions w w2) = [c])
    ∧ (env.gscm_local_db_cache_apply w1.trace c ≠ BLE_ERROR_GATTS_SYS_ATTR_MISSING →
        ∀ e ∈ events (new_actions w w2),
          e.error ≠ some BLE_ERROR_GATTS_SYS_ATTR_MISSING)
    ∧ service_changed_pending w2 c = true := by
  intro w1 w2
  have hw2 : w2 = ble_conn_state_user_flag_set (local_db_apply_in_evt env w1 c) c
      w.m_gcm.flag_id_service_changed_pending true := by
    simp only [w2, w1, service_changed_send_in_evt, hr]
    simp [local_db_apply_in_evt_m_gcm, World.record]
  obtain ⟨added, hadd⟩ := local_db_apply_in_evt_trace_extends env w1 c
  have ht : w2.trace
      = w.trace ++ (Action.gscm_service_changed_ind_send c BLE_ERROR_GATTS_SYS_ATTR_MISSING
          :: added) := by
    rw [hw2]
    show (local_db_apply_in_evt env w1 c).trace = _
    rw [hadd]
    simp [w1, World.record]
  have hn1 : new_actions w1 (local_db_apply_in_evt env w1 c) = added :=
    new_actions_of_append w1 _ added hadd
  have hn : new_actions w w2
      = Action.gscm_service_changed_ind_send c BLE_ERROR_GATTS_SYS_ATTR_MISSING :: added :=
    new_actions_of_append w w2 _ ht
  have hev : events (new_actions w w2) = events added := by
    rw [hn]
    simp [events]
  refine ⟨hw2, ?_, ?_, ?_, ?_, ?_, ?_⟩
  · rw [hn, hn1]
  · rw [hn]
    by_cases hc : c = BLE_CONN_HANDLE_INVALID
    · have : added = [] := by
        have h0 : (local_db_apply_in_evt env w1 c).trace = w1.trace := by
          simp [local_db_apply_in_evt, hc]
        rw [h0] at hadd
        exact (List.self_eq_append_right.mp hadd)
      simp [this, send_calls]
    · obtain ⟨a2, h1, _, _, h4, _⟩ := local_db_apply_in_evt_trace env w1 c hc
      have : a2 = added := List.append_cancel_left (h1.symm.trans hadd)
      subst this
      simp only [send_calls] at h4 ⊢
      simp [h4]
  · rw [hev, hn1]
  · intro hc
    obtain ⟨a2, h1, h2, _, _, _⟩ := local_db_apply_in_evt_trace env w1 c hc
    have : a2 = added := List.append_cancel_left (h1.symm.trans hadd)
    subst this
    rw [hn]
    simp only [apply_calls] at h2 ⊢
    simp [h2]
  · intro hne e he
    rw [hev, ← hn1] at he
    rcases local_db_apply_in_evt_event_error env w1 c e he with h0 | h0
    · rw [h0]
      simp
    · rw [h0]
      intro hcontra
      exact hne (Option.some.inj hcontra)
  · rw [hw2]
    simp [service_changed_pending, ble_conn_state_user_flag_get, ble_conn_state_user_flag_set,
      local_db_apply_in_evt_m_gcm, w1, World.record]

/-- Instance of the send outcome MissingSystemAttributes: the send on connection 1
    answers BLE_ERROR_GATTS_SYS_ATTR_MISSING and the apply adapter answers Success;
    the trace is the send call, the apply call and the LocalDbCacheApplied event, and
    ServiceChanged-Pending(1) is true afterwards. -/
theorem service_changed_send_in_evt_sys_attr_missing_witness :
    (world_ready [1] (fun _ _ => false)).m_gcm.evt_handler = some 1
    ∧ (env_const 0 NRF_SUCCESS BLE_ERROR_GATTS_SYS_ATTR_MISSING peer_of_one).gscm_service_changed_ind_send
        (world_ready [1] (fun _ _ => false)).trace 1 = BLE_ERROR_GATTS_SYS_ATTR_MISSING
    ∧ (service_changed_send_in_evt
        (env_const 0 NRF_SUCCESS BLE_ERROR_GATTS_SYS_ATTR_MISSING peer_of_one)
        (world_ready [1] (fun _ _ => false)) 1).trace
      = [Action.gscm_service_changed_ind_send 1 BLE_ERROR_GATTS_SYS_ATTR_MISSING,
          Action.gscm_local_db_cache_apply 1 NRF_SUCCESS,
          Action.evt_handler (some 1)
            ⟨gcm_evt_id_t.GCM_EVT_LOCAL_DB_CACHE_APPLIED, 7, some 1, none⟩]
    ∧ service_changed_pending (service_changed_send_in_evt
        (env_const 0 NRF_SUCCESS BLE_ERROR_GATTS_SYS_ATTR_MISSING peer_of_one)
        (world_ready [1] (fun _ _ => false)) 1) 1 = true :=
  have key := service_changed_send_in_evt_sys_attr_missing
    (env_const 0 NRF_SUCCESS BLE_ERROR_GATTS_SYS_ATTR_MISSING peer_of_one)
    (world_ready [1] (fun _ _ => false)) 1 1 rfl rfl
  ⟨rfl, rfl, key.2.1, key.2.2.2.2.2.2⟩

-- ---------------------------------------------------------------------------
-- The BLE event handler as trigger followed by sweeps; sweep invariants
-- ---------------------------------------------------------------------------

/-- The handler gcm_ble_evt_handler is its switch followed by the three sweeps. -/
theorem gcm_ble_evt_handler_eq (env : Env) (w : World) (e : ble_evt_t) :
    gcm_ble_evt_handler env w e = sweep_all env (gcm_ble_evt_handler_trigger env w e) :=
  rfl

/-- A property kept by every guarded attempt is kept by the whole sweep loop. -/
theorem foldl_sweep_invariant (att : World → Nat → World) (flag : World → Nat → Bool)
    (I : World → Prop) (hstep : ∀ w c, I w → flag w c = true → I (att w c))
    (cs : List Nat) (w : World) (h : I w) :
    I (cs.foldl (fun w c => if flag w c = true then att w c else w) w) := by
  induction cs generalizing w with
  | nil => exact h
  | cons c rest ih =>
    simp only [List.foldl_cons]
    by_cases hf : flag w c = true
    · simp only [hf, if_true]
      exact ih _ (hstep w c h hf)
    · simp only [hf, if_false]
      exact ih _ h

/-- The send calls of a concatenation. -/
theorem send_calls_append (a b : List Action) :
    send_calls (a ++ b) = send_calls a ++ send_calls b := by
  simp [send_calls]

/-- The apply calls of a concatenation. -/
theorem apply_calls_append (a b : List Action) :
    apply_calls (a ++ b) = apply_calls a ++ apply_calls b := by
  simp [apply_calls]

/-- The update calls of a concatenation. -/
theorem update_calls_append (a b : List Action) :
    update_calls (a ++ b) = update_calls a ++ update_calls b := by
  simp [update_calls]

/-- The peer-notified calls of a concatenation. -/
theorem notified_calls_append (a b : List Action) :
    notified_calls (a ++ b) = notified_calls a ++ notified_calls b := by
  simp [notified_calls]

/-- An Apply attempt on any handle appends steps among which there is no send, no
    update call and no peer-notified call. -/
theorem local_db_apply_in_evt_added (env : Env) (w : World) (c : Nat) :
    ∃ added, (local_db_apply_in_evt env w c).trace = w.trace ++ added
      ∧ send_calls added = [] ∧ update_calls added = [] ∧ notified_calls added = [] := by
  by_cases hc : c = BLE_CONN_HANDLE_INVALID
  · exact ⟨[], by simp [local_db_apply_in_evt, hc], rfl, rfl, rfl⟩
  · simp only [local_db_apply_in_evt, ble_conn_state_user_flag_set, evt_handler_call,
      World.record, if_neg hc]
    generalize env.gscm_local_db_cache_apply w.trace c = r
    split_ifs <;>
      simp [List.append_assoc, update_calls, send_calls, notified_calls]

/-- An Update attempt appends steps among which there is no send, no apply call and
    no peer-notified call. -/
theorem local_db_update_in_evt_added (env : Env) (w : World) (c : Nat) :
    ∃ added, (local_db_update_in_evt env w c).trace = w.trace ++ added
      ∧ send_calls added = [] ∧ apply_calls added = [] ∧ notified_calls added = [] := by
  simp only [local_db_update_in_evt, ble_conn_state_user_flag_set, evt_handler_call, World.record]
  generalize env.gscm_local_db_cache_update w.trace c = r
  split_ifs <;>
    simp [List.append_assoc, apply_calls, send_calls, notified_calls]

/-- A service changed send attempt on c appends one send call, on c, and otherwise
    steps among which there is no update call and no peer-notified call. -/
theorem service_changed_send_in_evt_added (env : Env) (w : World) (c : Nat) :
    ∃ added, (service_changed_send_in_evt env w c).trace = w.trace ++ added
      ∧ send_calls added = [c] ∧ update_calls added = [] ∧ notified_calls added = [] := by
  simp only [service_changed_send_in_evt, ble_conn_state_user_flag_set]
  split_ifs
  · exact ⟨_, rfl, rfl, rfl, rfl⟩
  · exact ⟨_, rfl, rfl, rfl, rfl⟩
  · exact ⟨_, rfl, rfl, rfl, rfl⟩
  · obtain ⟨a2, h1, h2, h3, h4⟩ := local_db_apply_in_evt_added env
      (w.record (Action.gscm_service_changed_ind_send c
        (env.gscm_service_changed_ind_send w.trace c))) c
    refine ⟨Action.gscm_service_changed_ind_send c
        (env.gscm_service_changed_ind_send w.trace c) :: a2, ?_, ?_, ?_, ?_⟩
    · show (local_db_apply_in_evt env _ c).trace = _
      rw [h1]
      simp [World.record]
    · simpa [send_calls] using h2
    · simpa [update_calls] using h3
    · simpa [notified_calls] using h4
  · simp only [evt_handler_call, World.record, List.append_assoc]
    exact ⟨_, rfl, rfl, rfl, rfl⟩

/-- An Apply attempt made by the Apply sweep keeps the confirmation invariant. -/
theorem confirmed_inv_apply_step (env : Env) (g : gcm_t) (c : Nat) (t0 : List Action)
    (p : Nat) (w : World) (c2 : Nat) (hI : confirmed_inv g c t0 p w)
    (hf : ble_conn_state_user_flag_get w c2 w.m_gcm.flag_id_local_db_apply_pending = true) :
    confirmed_inv g c t0 p (local_db_apply_in_evt env w c2) := by
  obtain ⟨hg, hfl, added, ht, hs, hn⟩ := hI
  obtain ⟨a2, h1, h2, _, h4⟩ := local_db_apply_in_evt_added env w c2
  refine ⟨by rw [local_db_apply_in_evt_m_gcm, hg], ?_, added ++ a2, ?_, ?_, ?_⟩
  · rw [local_db_apply_in_evt_flags_frame env w c2 _ c, hfl]
    by_contra hcon
    have hcon2 : g.flag_id_service_changed_pending = w.m_gcm.flag_id_local_db_apply_pending
        ∧ c = c2 := by
      constructor
      · by_contra h
        exact hcon (Or.inl h)
      · by_contra h
        exact hcon (Or.inr h)
    rw [ble_conn_state_user_flag_get, ← hcon2.1, ← hcon2.2, hfl] at hf
    exact Bool.false_ne_true hf
  · rw [h1, ht, List.append_assoc]
  · rw [send_calls_append, h2, List.append_nil]
    exact hs
  · rw [notified_calls_append, h4, List.append_nil]
    exact hn

/-- An Update attempt made by the Update sweep keeps the confirmation invariant. -/
theorem confirmed_inv_update_step (env : Env) (g : gcm_t) (c : Nat) (t0 : List Action)
    (p : Nat) (w : World) (c2 : Nat) (hI : confirmed_inv g c t0 p w)
    (hf : ble_conn_state_user_flag_get w c2 w.m_gcm.flag_id_local_db_update_pending = true) :
    confirmed_inv g c t0 p (local_db_update_in_evt env w c2) := by
  obtain ⟨hg, hfl, added, ht, hs, hn⟩ := hI
  obtain ⟨a2, h1, h2, _, h4⟩ := local_db_update_in_evt_added env w c2
  refine ⟨by rw [local_db_update_in_evt_m_gcm, hg], ?_, added ++ a2, ?_, ?_, ?_⟩
  · rw [local_db_update_in_evt_flags_frame env w c2 _ c, hfl]
    by_contra hcon
    have hcon2 : g.flag_id_service_changed_pending = w.m_gcm.flag_id_local_db_update_pending
        ∧ c = c2 := by
      constructor
      · by_contra h
        exact hcon (Or.inl h)
      · by_contra h
        exact hcon (Or.inr h)
    rw [ble_conn_state_user_flag_get, ← hcon2.1, ← hcon2.2, hfl] at hf
    exact Bool.false_ne_true hf
  · rw [h1, ht, List.append_assoc]
  · rw [send_calls_append, h2, List.append_nil]
    exact hs
  · rw [notified_calls_append, h4, List.append_nil]
    exact hn

/-- A send attempt made by the service changed sweep keeps the confirmation
    invariant: it is made on a connection whose flag is set, hence not on c. -/
theorem confirmed_inv_send_step (env : Env) (g : gcm_t) (c : Nat) (t0 : List Action)
    (p : Nat) (w : World) (c2 : Nat) (hI : confirmed_inv g c t0 p w)
    (hf : ble_conn_state_user_flag_get w c2 w.m_gcm.flag_id_service_changed_pending = true) :
    confirmed_inv g c t0 p (service_changed_send_in_evt env w c2) := by
  obtain ⟨hg, hfl, added, ht, hs, hn⟩ := hI
  obtain ⟨a2, h1, h2, _, h4⟩ := service_changed_send_in_evt_added env w c2
  have hne : c ≠ c2 := by
    intro heq
    rw [ble_conn_state_user_flag_get, hg, ← heq, hfl] at hf
    exact Bool.false_ne_true hf
  refine ⟨by rw [service_changed_send_in_evt_m_gcm, hg], ?_, added ++ a2, ?_, ?_, ?_⟩
  · rw [service_changed_send_in_evt_flags_other env w c2 _ c hne, hfl]
  · rw [h1, ht, List.append_assoc]
  · rw [send_calls_append, h2]
    intro hm
    rcases List.mem_append.mp hm with h | h
    · exact hs h
    · exact hne (List.mem_singleton.mp h)
  · rw [notified_calls_append, h4, List.append_nil]
    exact hn

/-- The three sweeps keep the confirmation invariant. -/
theorem confirmed_inv_sweep_all (env : Env) (g : gcm_t) (c : Nat) (t0 : List Action)
    (p : Nat) (w : World) (hI : confirmed_inv g c t0 p w) :
    confirmed_inv g c t0 p (sweep_all env w) := by
  unfold sweep_all
  rw [apply_pending_flags_check_eq_foldl, update_pending_flags_check_eq_foldl,
    service_changed_pending_flags_check_eq_foldl]
  apply foldl_sweep_invariant (fun w c => service_changed_send_in_evt env w c)
    (fun w c => ble_conn_state_user_flag_get w c w.m_gcm.flag_id_service_changed_pending)
    (confirmed_inv g c t0 p) (fun w c2 h hf => confirmed_inv_send_step env g c t0 p w c2 h hf)
  apply foldl_sweep_invariant (fun w c => local_db_update_in_evt env w c)
    (fun w c => ble_conn_state_user_flag_get w c w.m_gcm.flag_id_local_db_update_pending)
    (confirmed_inv g c t0 p) (fun w c2 h hf => confirmed_inv_update_step env g c t0 p w c2 h hf)
  exact foldl_sweep_invariant (fun w c => local_db_apply_in_evt env w c)
    (fun w c => ble_conn_state_user_flag_get w c w.m_gcm.flag_id_local_db_apply_pending)
    (confirmed_inv g c t0 p) (fun w c2 h hf => confirmed_inv_apply_step env g c t0 p w c2 h hf)
    _ w hI

/-- C11: with a handler registered, when gcm_ble_evt_handler processes a service
    changed confirmation (BLE_GATTS_EVT_SC_CONFIRM) for c, whatever the flags were
    before, it calls gscm_peer_was_notified_of_db_change exactly once, with the peer
    id the resolver gives for c; no service changed indication is sent on c during
    the call; and ServiceChanged-Pending(c) is false when it returns. -/
theorem sc_confirm_clears_and_notifies (env : Env) (w : World) (e : ble_evt_t) (h : Nat)
    (_hreg : w.m_gcm.evt_handler = some h)
    (he : e.evt_id = BLE_GATTS_EVT_SC_CONFIRM) :
    notified_calls (new_actions w (gcm_ble_evt_handler env w e))
        = [env.im_peer_id_get_by_conn_handle w.trace e.conn_handle]
    ∧ e.conn_handle ∉ send_calls (new_actions w (gcm_ble_evt_handler env w e))
    ∧ service_changed_pending (gcm_ble_evt_handler env w e) e.conn_handle = false := by
  have htrig : gcm_ble_evt_handler_trigger env w e
      = ble_conn_state_user_flag_set
          (w.record (Action.gscm_peer_was_notified_of_db_change
            (env.im_peer_id_get_by_conn_handle w.trace e.conn_handle)))
          e.conn_handle w.m_gcm.flag_id_service_changed_pending false := by
    unfold gcm_ble_evt_handler_trigger
    rw [he]
    simp [World.record]
  have hI0 : confirmed_inv w.m_gcm e.conn_handle w.trace
      (env.im_peer_id_get_by_conn_handle w.trace e.conn_handle)
      (gcm_ble_evt_handler_trigger env w e) := by
    rw [htrig]
    refine ⟨rfl, by simp [ble_conn_state_user_flag_set],
      [Action.gscm_peer_was_notified_of_db_change
        (env.im_peer_id_get_by_conn_handle w.trace e.conn_handle)], rfl, ?_, rfl⟩
    simp [send_calls]
  obtain ⟨hg, hfl, added, ht, hs, hn⟩ := confirmed_inv_sweep_all env _ _ _ _ _ hI0
  rw [gcm_ble_evt_handler_eq, new_actions_of_append w _ added ht]
  refine ⟨hn, hs, ?_⟩
  rw [service_changed_pending, ble_conn_state_user_flag_get, hg]
  exact hfl

/-- Instance of the confirmation: ServiceChanged-Pending is set on connection 1
    (peer 7) beforehand; the confirmation notifies the store for peer 7, sends no
    indication and clears the flag. -/
theorem sc_confirm_clears_and_notifies_witness :
    (world_ready [1, 2] flags_sc_one).m_gcm.evt_handler = some 1
    ∧ (evt_sc_confirm 1).evt_id = BLE_GATTS_EVT_SC_CONFIRM
    ∧ service_changed_pending (world_ready [1, 2] flags_sc_one) 1 = true
    ∧ notified_calls (new_actions (world_ready [1, 2] flags_sc_one)
        (gcm_ble_evt_handler (env_const 0 0 0 peer_of_one)
          (world_ready [1, 2] flags_sc_one) (evt_sc_confirm 1))) = [7]
    ∧ service_changed_pending (gcm_ble_evt_handler (env_const 0 0 0 peer_of_one)
        (world_ready [1, 2] flags_sc_one) (evt_sc_confirm 1)) 1 = false :=
  have key := sc_confirm_clears_and_notifies (env_const 0 0 0 peer_of_one)
    (world_ready [1, 2] flags_sc_one) (evt_sc_confirm 1) 1 rfl rfl
  ⟨rfl, rfl, by decide, key.1, key.2.2⟩

/-- C12, as stated, fails: the send on connection 1 answers Success, not Busy, and
    ServiceChanged-Pending(1), false beforehand, is true after the attempt. -/
theorem service_changed_pending_not_iff_busy :
    (env_const 0 0 NRF_SUCCESS peer_of_one).gscm_service_changed_ind_send
        (world_ready [1] (fun _ _ => false)).trace 1 ≠ NRF_ERROR_BUSY
    ∧ service_changed_pending (world_ready [1] (fun _ _ => false)) 1 = false
    ∧ service_changed_pending (service_changed_send_in_evt
        (env_const 0 0 NRF_SUCCESS peer_of_one) (world_ready [1] (fun _ _ => false)) 1) 1 = true
    ∧ ¬ (service_changed_pending (service_changed_send_in_evt
          (env_const 0 0 NRF_SUCCESS peer_of_one) (world_ready [1] (fun _ _ => false)) 1) 1 = true
        ↔ (env_const 0 0 NRF_SUCCESS peer_of_one).gscm_service_changed_ind_send
            (world_ready [1] (fun _ _ => false)).trace 1 = NRF_ERROR_BUSY) := by
  decide

/-- C12, amended: with a handler registered, after a service changed send attempt
    on c the flag ServiceChanged-Pending(c) is true for every answer of the adapter
    (Success, Busy, InvalidConnection, MissingSystemAttributes or any other code)
    and every previous value of the flag. -/
theorem service_changed_pending_after_send (env : Env) (w : World) (c h : Nat)
    (_hreg : w.m_gcm.evt_handler = some h) :
    service_changed_pending (service_changed_send_in_evt env w c) c = true := by
  rw [service_changed_pending, ble_conn_state_user_flag_get, service_changed_send_in_evt_m_gcm]
  exact service_changed_send_in_evt_flag_self env w c

/-- Instance of the amended C12: the send on connection 1 answers Busy; the flag is
    true afterwards, as it is for Success. -/
theorem service_changed_pending_after_send_witness :
    (world_ready [1] (fun _ _ => false)).m_gcm.evt_handler = some 1
    ∧ service_changed_pending (service_changed_send_in_evt
        (env_const 0 0 NRF_ERROR_BUSY peer_of_one) (world_ready [1] (fun _ _ => false)) 1) 1
      = true :=
  ⟨rfl, service_changed_pending_after_send (env_const 0 0 NRF_ERROR_BUSY peer_of_one)
    (world_ready [1] (fun _ _ => false)) 1 1 rfl⟩

/-- C13: while no handler is registered, gcm_remote_db_store, gcm_remote_db_retrieve,
    gcm_local_db_cache_update, gcm_local_db_cache_set and gcm_local_db_cache_get
    return NRF_ERROR_INVALID_STATE for every argument, a NULL record pointer
    included, and return the state as it was: no step is appended to the trace (no
    adapter is called) and no flag changes. -/
theorem api_uninitialized_invalid_state (env : Env) (w : World)
    (hnull : w.m_gcm.evt_handler = none) (peer_id conn_handle : Nat) (p : Option Nat) :
    gcm_remote_db_store env w peer_id p = (NRF_ERROR_INVALID_STATE, w)
    ∧ gcm_remote_db_retrieve env w peer_id p = (NRF_ERROR_INVALID_STATE, w)
    ∧ gcm_local_db_cache_update env w conn_handle = (NRF_ERROR_INVALID_STATE, w)
    ∧ gcm_local_db_cache_set env w peer_id p = (NRF_ERROR_INVALID_STATE, w)
    ∧ gcm_local_db_cache_get env w peer_id p = (NRF_ERROR_INVALID_STATE, w) := by
  refine ⟨?_, ?_, ?_, ?_, ?_⟩
  · simp only [gcm_remote_db_store, if_pos hnull]
  · simp only [gcm_remote_db_retrieve, if_pos hnull]
  · simp only [gcm_local_db_cache_update, if_pos hnull]
  · simp only [gcm_local_db_cache_set, if_pos hnull]
  · simp only [gcm_local_db_cache_get, if_pos hnull]

/-- Instance of C13: module never initialized, NULL record pointer; retrieve answers
    NRF_ERROR_INVALID_STATE (not NRF_ERROR_NULL) and the trace stays empty. -/
theorem api_uninitialized_invalid_state_witness :
    (world_uninit [1] (fun _ _ => true) 0).m_gcm.evt_handler = none
    ∧ (gcm_remote_db_retrieve (env_const 0 0 0 peer_of_one)
        (world_uninit [1] (fun _ _ => true) 0) 7 none).1 = NRF_ERROR_INVALID_STATE
    ∧ (gcm_remote_db_retrieve (env_const 0 0 0 peer_of_one)
        (world_uninit [1] (fun _ _ => true) 0) 7 none).2.trace = [] :=
  have key := (api_uninitialized_invalid_state (env_const 0 0 0 peer_of_one)
    (world_uninit [1] (fun _ _ => true) 0) rfl 7 1 none).2.1
  ⟨rfl, congrArg Prod.fst key, congrArg (fun r => r.2.trace) key⟩

/-- C14 fails on the code: with no handler registered (module variable zero), a
    system attributes missing event on connection 1 makes gcm_ble_evt_handler call
    the apply adapter and then call through the NULL m_gcm.evt_handler; and
    gcm_local_database_has_changed calls gscm_local_database_has_changed, sets the
    flag of slot 0 on the unresolvable connection 2 and sends a service changed
    indication on it. -/
theorem uninitialized_entry_points_act :
    (world_uninit [1, 2] (fun _ _ => false) 0).m_gcm.evt_handler = none
    ∧ (gcm_ble_evt_handler (env_const 0 NRF_SUCCESS NRF_SUCCESS peer_of_one)
        (world_uninit [1, 2] (fun _ _ => false) 0) (evt_sys_attr_missing 1)).trace
      = [Action.gscm_local_db_cache_apply 1 NRF_SUCCESS,
          Action.evt_handler none
            ⟨gcm_evt_id_t.GCM_EVT_LOCAL_DB_CACHE_APPLIED, 7, some 1, none⟩]
    ∧ (gcm_local_database_has_changed (env_const 0 NRF_SUCCESS NRF_SUCCESS peer_of_one)
        (world_uninit [1, 2] (fun _ _ => false) 0)).trace
      = [Action.gscm_local_database_has_changed,
          Action.gscm_service_changed_ind_send 2 NRF_SUCCESS]
    ∧ (world_uninit [1, 2] (fun _ _ => false) 0).conn_state.user_flags 0 2 = false
    ∧ (gcm_local_database_has_changed (env_const 0 NRF_SUCCESS NRF_SUCCESS peer_of_one)
        (world_uninit [1, 2] (fun _ _ => false) 0)).conn_state.user_flags 0 2 = true := by
  decide

/-- C15: gcm_init called with a null handler returns NRF_ERROR_NULL and returns the
    state as it was: no collaborator is initialised or registered and no flag slot
    is acquired (no step is appended to the trace), and the module variable and the
    registry are unchanged. -/
theorem gcm_init_null_handler (env : Env) (w : World) :
    gcm_init env w none = (NRF_ERROR_NULL, w)
    ∧ new_actions w (gcm_init env w none).2 = []
    ∧ (gcm_init env w none).2.m_gcm = w.m_gcm
    ∧ (gcm_init env w none).2.conn_state.n_acquired = w.conn_state.n_acquired := by
  have h : gcm_init env w none = (NRF_ERROR_NULL, w) := by
    simp [gcm_init]
  rw [h]
  simp [new_actions]

/-- Acquiring a flag slot appends one step, which records the id handed out, and
    keeps the module variable. -/
theorem ble_conn_state_user_flag_acquire_spec (w : World) :
    (ble_conn_state_user_flag_acquire w).2.trace
        = w.trace ++ [Action.ble_conn_state_user_flag_acquire
            (ble_conn_state_user_flag_acquire w).1]
    ∧ (ble_conn_state_user_flag_acquire w).2.m_gcm = w.m_gcm := by
  unfold ble_conn_state_user_flag_acquire
  split_ifs <;> exact ⟨rfl, rfl⟩

/-- With the four collaborator calls answering success, gcm_init is the flag part
    run from the registered state. -/
theorem gcm_init_eq_flags (env : Env) (w : World) (h : Nat)
    (h1 : ∀ t, env.gscm_init t = NRF_SUCCESS)
    (h2 : ∀ t, env.gccm_init t = NRF_SUCCESS)
    (h3 : ∀ t, env.im_register t = NRF_SUCCESS)
    (h4 : ∀ t, env.smd_register t = NRF_SUCCESS) :
    gcm_init env w (some h) = gcm_init_flags (gcm_init_registered w h) NRF_SUCCESS := by
  simp only [gcm_init, h1, h2, h3, h4, ne_eq, not_true_eq_false, if_false,
    Option.some_ne_none, reduceCtorEq]
  rfl

/-- The flag part of gcm_init: three slots are acquired, their ids are stored in
    the module variable in the order update, apply, service changed, the handler is
    kept, and the result is NRF_ERROR_INTERNAL exactly when one id is invalid. -/
theorem gcm_init_flags_spec (w5 : World) (e4 : Nat) :
    (gcm_init_flags w5 e4).2.trace
        = w5.trace ++
          [Action.ble_conn_state_user_flag_acquire
              (gcm_init_flags w5 e4).2.m_gcm.flag_id_local_db_update_pending,
            Action.ble_conn_state_user_flag_acquire
              (gcm_init_flags w5 e4).2.m_gcm.flag_id_local_db_apply_pending,
            Action.ble_conn_state_user_flag_acquire
              (gcm_init_flags w5 e4).2.m_gcm.flag_id_service_changed_pending]
    ∧ (gcm_init_flags w5 e4).2.m_gcm.evt_handler = w5.m_gcm.evt_handler
    ∧ (gcm_init_flags w5 e4).1
        = if (gcm_init_flags w5 e4).2.m_gcm.flag_id_local_db_update_pending
              = BLE_CONN_STATE_USER_FLAG_INVALID
            ∨ (gcm_init_flags w5 e4).2.m_gcm.flag_id_local_db_apply_pending
              = BLE_CONN_STATE_USER_FLAG_INVALID
            ∨ (gcm_init_flags w5 e4).2.m_gcm.flag_id_service_changed_pending
              = BLE_CONN_STATE_USER_FLAG_INVALID
          then NRF_ERROR_INTERNAL else e4 := by
  obtain ⟨t1, g1⟩ := ble_conn_state_user_flag_acquire_spec w5
  obtain ⟨t2, g2⟩ := ble_conn_state_user_flag_acquire_spec (ble_conn_state_user_flag_acquire w5).2
  obtain ⟨t3, g3⟩ := ble_conn_state_user_flag_acquire_spec
    (ble_conn_state_user_flag_acquire (ble_conn_state_user_flag_acquire w5).2).2
  simp only [gcm_init_flags]
  split_ifs with hc
  · simp [t3, t2, t1, g3, g2, g1, hc]
  · simp [t3, t2, t1, g3, g2, g1, hc]

/-- C16: for a non-null handler and with gscm_init, gccm_init, im_register and
    smd_register all answering success, gcm_init acquires three flag slots, stores
    their ids as the update-pending, apply-pending and service-changed-pending ids,
    and returns NRF_ERROR_INTERNAL if at least one of the three ids is
    BLE_CONN_STATE_USER_FLAG_INVALID and NRF_SUCCESS otherwise. -/
theorem gcm_init_slot_result (env : Env) (w : World) (h : Nat)
    (h1 : ∀ t, env.gscm_init t = NRF_SUCCESS)
    (h2 : ∀ t, env.gccm_init t = NRF_SUCCESS)
    (h3 : ∀ t, env.im_register t = NRF_SUCCESS)
    (h4 : ∀ t, env.smd_register t = NRF_SUCCESS) :
    acquired_ids (new_actions w (gcm_init env w (some h)).2)
        = [(gcm_init env w (some h)).2.m_gcm.flag_id_local_db_update_pending,
            (gcm_init env w (some h)).2.m_gcm.flag_id_local_db_apply_pending,
            (gcm_init env w (some h)).2.m_gcm.flag_id_service_changed_pending]
    ∧ ((gcm_init env w (some h)).2.m_gcm.flag_id_local_db_update_pending
            = BLE_CONN_STATE_USER_FLAG_INVALID
          ∨ (gcm_init env w (some h)).2.m_gcm.flag_id_local_db_apply_pending
            = BLE_CONN_STATE_USER_FLAG_INVALID
          ∨ (gcm_init env w (some h)).2.m_gcm.flag_id_service_changed_pending
            = BLE_CONN_STATE_USER_FLAG_INVALID
        → (gcm_init env w (some h)).1 = NRF_ERROR_INTERNAL)
    ∧ (¬ ((gcm_init env w (some h)).2.m_gcm.flag_id_local_db_update_pending
            = BLE_CONN_STATE_USER_FLAG_INVALID
          ∨ (gcm_init env w (some h)).2.m_gcm.flag_id_local_db_apply_pending
            = BLE_CONN_STATE_USER_FLAG_INVALID
          ∨ (gcm_init env w (some h)).2.m_gcm.flag_id_service_changed_pending
            = BLE_CONN_STATE_USER_FLAG_INVALID)
        → (gcm_init env w (some h)).1 = NRF_SUCCESS) := by
  rw [gcm_init_eq_flags env w h h1 h2 h3 h4]
  obtain ⟨ht, _, hr⟩ := gcm_init_flags_spec (gcm_init_registered w h) NRF_SUCCESS
  have hreg : (gcm_init_registered w h).trace
      = w.trace ++ [Action.gscm_init NRF_SUCCESS, Action.gccm_init NRF_SUCCESS,
          Action.im_register NRF_SUCCESS, Action.smd_register NRF_SUCCESS] := by
    simp [gcm_init_registered, World.record]
  rw [hreg, List.append_assoc] at ht
  refine ⟨?_, ?_, ?_⟩
  · rw [new_actions_of_append w _ _ ht]
    simp [acquired_ids]
  · intro hc
    rw [hr, if_pos hc]
  · intro hc
    rw [hr, if_neg hc]

/-- Instance of C16: on a registry with 22 of its 24 slots taken the third acquire
    fails and gcm_init returns NRF_ERROR_INTERNAL; on a fresh registry it returns
    NRF_SUCCESS. -/
theorem gcm_init_slot_result_witness :
    (∀ t, (env_init 0 0 0 0).gscm_init t = NRF_SUCCESS)
    ∧ (∀ t, (env_init 0 0 0 0).gccm_init t = NRF_SUCCESS)
    ∧ (∀ t, (env_init 0 0 0 0).im_register t = NRF_SUCCESS)
    ∧ (∀ t, (env_init 0 0 0 0).smd_register t = NRF_SUCCESS)
    ∧ (gcm_init (env_init 0 0 0 0) (world_uninit [] (fun _ _ => false) 22)
        (some 1)).2.m_gcm.flag_id_service_changed_pending = BLE_CONN_STATE_USER_FLAG_INVALID
    ∧ (gcm_init (env_init 0 0 0 0) (world_uninit [] (fun _ _ => false) 22) (some 1)).1
        = NRF_ERROR_INTERNAL
    ∧ (gcm_init (env_init 0 0 0 0) (world_uninit [] (fun _ _ => false) 0) (some 1)).1
        = NRF_SUCCESS :=
  ⟨fun _ => rfl, fun _ => rfl, fun _ => rfl, fun _ => rfl, by decide,
    (gcm_init_slot_result (env_init 0 0 0 0) (world_uninit [] (fun _ _ => false) 22) 1
      (fun _ => rfl) (fun _ => rfl) (fun _ => rfl) (fun _ => rfl)).2.1
      (Or.inr (Or.inr (by decide))),
    (gcm_init_slot_result (env_init 0 0 0 0) (world_uninit [] (fun _ _ => false) 0) 1
      (fun _ => rfl) (fun _ => rfl) (fun _ => rfl) (fun _ => rfl)).2.2 (by decide)⟩

/-- C17 fails on the code: starting uninitialized, gcm_init returns an error when
    the flag slots are exhausted (NRF_ERROR_INTERNAL) or when im_register fails, but
    it has already stored the handler, so afterwards the module passes its
    initialized check: gcm_remote_db_store and gcm_local_db_cache_update call their
    adapters and return the adapters' answers, not NRF_ERROR_INVALID_STATE. -/
theorem gcm_init_error_leaves_module_ready :
    (world_uninit [1] (fun _ _ => false) 24).m_gcm.evt_handler = none
    ∧ (gcm_init (env_init 0 0 0 0) (world_uninit [1] (fun _ _ => false) 24) (some 1)).1
        = NRF_ERROR_INTERNAL
    ∧ (gcm_init (env_init 0 0 0 0) (world_uninit [1] (fun _ _ => false) 24)
        (some 1)).2.m_gcm.evt_handler = some 1
    ∧ (gcm_remote_db_store (env_init 0 0 0 0)
        (gcm_init (env_init 0 0 0 0) (world_uninit [1] (fun _ _ => false) 24) (some 1)).2
        7 (some 1)).1 = NRF_SUCCESS
    ∧ (gcm_local_db_cache_update (env_init 0 0 0 0)
        (gcm_init (env_init 0 0 0 0) (world_uninit [1] (fun _ _ => false) 24) (some 1)).2
        1).1 = NRF_SUCCESS
    ∧ (gcm_init (env_init 0 0 NRF_ERROR_NO_MEM 0) (world_uninit [1] (fun _ _ => false) 0)
        (some 1)).1 = NRF_ERROR_NO_MEM
    ∧ (gcm_remote_db_retrieve (env_init 0 0 NRF_ERROR_NO_MEM 0)
        (gcm_init (env_init 0 0 NRF_ERROR_NO_MEM 0) (world_uninit [1] (fun _ _ => false) 0)
          (some 1)).2 7 (some 1)).1 = NRF_SUCCESS := by
  decide

-- ---------------------------------------------------------------------------
-- Event translation
-- ---------------------------------------------------------------------------

/-- Every handler call of an Update attempt on c carries c and the peer id the
    resolver gives for c when the handler is called. -/
theorem local_db_update_in_evt_resolved (env : Env) (w : World) (c : Nat) :
    resolved_at_emission env c w.trace (new_actions w (local_db_update_in_evt env w c))
      = true := by
  simp only [local_db_update_in_evt, ble_conn_state_user_flag_set, evt_handler_call,
    World.record, new_actions]
  generalize env.gscm_local_db_cache_update w.trace c = r
  split_ifs <;> simp [resolved_at_emission]

/-- Every handler call of an Apply attempt on c carries c and the peer id the
    resolver gives for c when the handler is called. -/
theorem local_db_apply_in_evt_resolved (env : Env) (w : World) (c : Nat) :
    resolved_at_emission env c w.trace (new_actions w (local_db_apply_in_evt env w c))
      = true := by
  by_cases hc : c = BLE_CONN_HANDLE_INVALID
  · simp [local_db_apply_in_evt, hc, new_actions, resolved_at_emission]
  · simp only [local_db_apply_in_evt, ble_conn_state_user_flag_set, evt_handler_call,
      World.record, new_actions, if_neg hc]
    generalize env.gscm_local_db_cache_apply w.trace c = r
    split_ifs <;> simp [resolved_at_emission]

/-- Setting a flag appends nothing to the trace. -/
theorem new_actions_flag_set (w w2 : World) (c f : Nat) (v : Bool) :
    new_actions w (ble_conn_state_user_flag_set w2 c f v) = new_actions w w2 :=
  rfl

/-- The steps appended by a run that starts by recording the step a. -/
theorem new_actions_after_record (w w2 : World) (a : Action) (added : List Action)
    (h : w2.trace = (w.record a).trace ++ added) : new_actions w w2 = a :: added := by
  apply new_actions_of_append
  rw [h]
  simp [World.record]

/-- The steps a send attempt on c appends: the send call, then on the answer
    MissingSystemAttributes the steps of the Apply attempt, on an unexpected answer
    one handler call, and nothing more on Success, InvalidConnection and Busy. -/
theorem service_changed_send_in_evt_new_actions (env : Env) (w : World) (c : Nat) :
    new_actions w (service_changed_send_in_evt env w c)
      = Action.gscm_service_changed_ind_send c (env.gscm_service_changed_ind_send w.trace c)
        :: (if env.gscm_service_changed_ind_send w.trace c = NRF_SUCCESS
              ∨ env.gscm_service_changed_ind_send w.trace c = BLE_ERROR_INVALID_CONN_HANDLE
              ∨ env.gscm_service_changed_ind_send w.trace c = NRF_ERROR_BUSY then []
            else if env.gscm_service_changed_ind_send w.trace c
                = BLE_ERROR_GATTS_SYS_ATTR_MISSING then
              new_actions
                (w.record (Action.gscm_service_changed_ind_send c
                  (env.gscm_service_changed_ind_send w.trace c)))
                (local_db_apply_in_evt env
                  (w.record (Action.gscm_service_changed_ind_send c
                    (env.gscm_service_changed_ind_send w.trace c))) c)
            else
              [Action.evt_handler w.m_gcm.evt_handler
                ⟨gcm_evt_id_t.GCM_EVT_ERROR_UNEXPECTED,
                  env.im_peer_id_get_by_conn_handle
                    (w.trace ++ [Action.gscm_service_changed_ind_send c
                      (env.gscm_service_changed_ind_send w.trace c)]) c,
                  some c, some (env.gscm_service_changed_ind_send w.trace c)⟩]) := by
  simp only [service_changed_send_in_evt, new_actions_flag_set]
  by_cases h1 : env.gscm_service_changed_ind_send w.trace c = NRF_SUCCESS
  · simp only [h1, if_true, true_or]
    exact new_actions_after_record w _ _ [] (by simp)
  by_cases h2 : env.gscm_service_changed_ind_send w.trace c = BLE_ERROR_INVALID_CONN_HANDLE
  · simp only [h2, if_true, true_or, or_true, if_neg h1]
    exact new_actions_after_record w _ _ [] (by simp)
  by_cases h3 : env.gscm_service_changed_ind_send w.trace c = NRF_ERROR_BUSY
  · simp only [h3, if_true, or_true, if_neg h1, if_neg h2]
    exact new_actions_after_record w _ _ [] (by simp)
  have h123 : ¬ (env.gscm_service_changed_ind_send w.trace c = NRF_SUCCESS
      ∨ env.gscm_service_changed_ind_send w.trace c = BLE_ERROR_INVALID_CONN_HANDLE
      ∨ env.gscm_service_changed_ind_send w.trace c = NRF_ERROR_BUSY) := by
    rintro (h | h | h)
    · exact h1 h
    · exact h2 h
    · exact h3 h
  simp only [if_neg h1, if_neg h2, if_neg h3, if_neg h123]
  by_cases h4 : env.gscm_service_changed_ind_send w.trace c = BLE_ERROR_GATTS_SYS_ATTR_MISSING
  · simp only [if_pos h4]
    obtain ⟨a2, ha2⟩ := local_db_apply_in_evt_trace_extends env
      (w.record (Action.gscm_service_changed_ind_send c
        (env.gscm_service_changed_ind_send w.trace c))) c
    rw [new_actions_of_append _ _ a2 ha2]
    exact new_actions_after_record w _ _ a2 ha2
  · simp only [if_neg h4]
    exact new_actions_after_record w _ _ _ (by simp [evt_handler_call, World.record])

/-- Every handler call of a service changed send attempt on c carries c and the
    peer id the resolver gives for c when the handler is called. -/
theorem service_changed_send_in_evt_resolved (env : Env) (w : World) (c : Nat) :
    resolved_at_emission env c w.trace (new_actions w (service_changed_send_in_evt env w c))
      = true := by
  rw [service_changed_send_in_evt_new_actions]
  have hap := local_db_apply_in_evt_resolved env
    (w.record (Action.gscm_service_changed_ind_send c
      (env.gscm_service_changed_ind_send w.trace c))) c
  split_ifs
  · simp [resolved_at_emission]
  · simpa [resolved_at_emission, World.record] using hap
  · simp [resolved_at_emission]

/-- The flags after a send attempt on c: the service-changed-pending slot of c is
    true, and the others are those left by the Apply attempt when the adapter
    answered MissingSystemAttributes, and the old ones otherwise. -/
theorem service_changed_send_in_evt_flags (env : Env) (w : World) (c f c2 : Nat) :
    (service_changed_send_in_evt env w c).conn_state.user_flags f c2
      = if f = w.m_gcm.flag_id_service_changed_pending ∧ c2 = c then true
        else if env.gscm_service_changed_ind_send w.trace c
            = BLE_ERROR_GATTS_SYS_ATTR_MISSING then
          (local_db_apply_in_evt env
            (w.record (Action.gscm_service_changed_ind_send c
              (env.gscm_service_changed_ind_send w.trace c))) c).conn_state.user_flags f c2
        else w.conn_state.user_flags f c2 := by
  simp only [service_changed_send_in_evt]
  by_cases h1 : env.gscm_service_changed_ind_send w.trace c = NRF_SUCCESS
  · have h4 : env.gscm_service_changed_ind_send w.trace c
        ≠ BLE_ERROR_GATTS_SYS_ATTR_MISSING := by rw [h1]; decide
    simp only [if_pos h1, if_neg h4]
    rfl
  by_cases h2 : env.gscm_service_changed_ind_send w.trace c = BLE_ERROR_INVALID_CONN_HANDLE
  · have h4 : env.gscm_service_changed_ind_send w.trace c
        ≠ BLE_ERROR_GATTS_SYS_ATTR_MISSING := by rw [h2]; decide
    simp only [if_neg h1, if_pos h2, if_neg h4]
    rfl
  by_cases h3 : env.gscm_service_changed_ind_send w.trace c = NRF_ERROR_BUSY
  · have h4 : env.gscm_service_changed_ind_send w.trace c
        ≠ BLE_ERROR_GATTS_SYS_ATTR_MISSING := by rw [h3]; decide
    simp only [if_neg h1, if_neg h2, if_pos h3, if_neg h4]
    rfl
  by_cases h4 : env.gscm_service_changed_ind_send w.trace c = BLE_ERROR_GATTS_SYS_ATTR_MISSING
  · simp only [if_neg h1, if_neg h2, if_neg h3, if_pos h4]
    simp only [ble_conn_state_user_flag_set, local_db_apply_in_evt_m_gcm]
    rfl
  · simp only [if_neg h1, if_neg h2, if_neg h3, if_neg h4]
    rfl

/-- The flags left by an Update attempt and the kinds of the events it emits do not
    depend on the identity resolver. -/
theorem local_db_update_in_evt_resolver_indep (env : Env) (p : List Action → Nat → Nat)
    (w : World) (c : Nat) :
    (∀ f c2, (local_db_update_in_evt (with_resolver env p) w c).conn_state.user_flags f c2
        = (local_db_update_in_evt env w c).conn_state.user_flags f c2)
    ∧ event_kinds (new_actions w (local_db_update_in_evt (with_resolver env p) w c))
        = event_kinds (new_actions w (local_db_update_in_evt env w c)) := by
  simp only [local_db_update_in_evt, with_resolver, ble_conn_state_user_flag_set,
    evt_handler_call, World.record, new_actions, event_kinds, events]
  generalize env.gscm_local_db_cache_update w.trace c = r
  split_ifs <;> simp

/-- The flags left by an Apply attempt and the kinds of the events it emits do not
    depend on the identity resolver. -/
theorem local_db_apply_in_evt_resolver_indep (env : Env) (p : List Action → Nat → Nat)
    (w : World) (c : Nat) :
    (∀ f c2, (local_db_apply_in_evt (with_resolver env p) w c).conn_state.user_flags f c2
        = (local_db_apply_in_evt env w c).conn_state.user_flags f c2)
    ∧ event_kinds (new_actions w (local_db_apply_in_evt (with_resolver env p) w c))
        = event_kinds (new_actions w (local_db_apply_in_evt env w c)) := by
  by_cases hc : c = BLE_CONN_HANDLE_INVALID
  · simp [local_db_apply_in_evt, hc]
  · simp only [local_db_apply_in_evt, with_resolver, ble_conn_state_user_flag_set,
      evt_handler_call, World.record, new_actions, event_kinds, events, if_neg hc]
    generalize env.gscm_local_db_cache_apply w.trace c = r
    split_ifs <;> simp

/-- The flags left by a service changed send attempt and the kinds of the events it
    emits do not depend on the identity resolver. -/
theorem service_changed_send_in_evt_resolver_indep (env : Env)
    (p : List Action → Nat → Nat) (w : World) (c : Nat) :
    (∀ f c2, (service_changed_send_in_evt (with_resolver env p) w c).conn_state.user_flags f c2
        = (service_changed_send_in_evt env w c).conn_state.user_flags f c2)
    ∧ event_kinds (new_actions w (service_changed_send_in_evt (with_resolver env p) w c))
        = event_kinds (new_actions w (service_changed_send_in_evt env w c)) := by
  have hs : (with_resolver env p).gscm_service_changed_ind_send
      = env.gscm_service_changed_ind_send := rfl
  obtain ⟨hf, he⟩ := local_db_apply_in_evt_resolver_indep env p
    (w.record (Action.gscm_service_changed_ind_send c
      (env.gscm_service_changed_ind_send w.trace c))) c
  constructor
  · intro f c2
    rw [service_changed_send_in_evt_flags, service_changed_send_in_evt_flags, hs, hf]
  · rw [service_changed_send_in_evt_new_actions, service_changed_send_in_evt_new_actions, hs]
    split_ifs
    · rfl
    · simp only [event_kinds, events, List.filterMap_cons] at he ⊢
      exact he
    · rfl

/-- Events among steps that pass resolved_at_emission carry the connection c and a
    peer id that the resolver gave for c. -/
theorem resolved_at_emission_events (env : Env) (c : Nat) (l pre : List Action)
    (h : resolved_at_emission env c pre l = true) :
    ∀ e ∈ events l, e.conn_handle = some c
      ∧ ∃ t, e.peer_id = env.im_peer_id_get_by_conn_handle t c := by
  induction l generalizing pre with
  | nil => intro e he; simp [events] at he
  | cons a rest ih =>
    simp only [resolved_at_emission, Bool.and_eq_true] at h
    obtain ⟨ha, hrest⟩ := h
    intro e he
    cases a with
    | evt_handler fn e2 =>
      simp only [events, List.filterMap_cons, List.mem_cons] at he
      rcases he with he | he
      · subst he
        simp only [Bool.and_eq_true, beq_iff_eq] at ha
        exact ⟨ha.1, pre, ha.2⟩
      · exact ih _ hrest e he
    | _ =>
      simp only [events, List.filterMap_cons] at he
      exact ih _ hrest e he

/-- C18: with a handler registered, every event emitted by an Update, Apply or
    service changed send attempt on c carries the connection handle c and the peer
    id the resolver returns for c on the trace as it stands when the handler is
    called.  When the resolver answers PM_PEER_ID_INVALID for c the events carry
    that value, and replacing the resolver by any other one changes neither which
    events are emitted nor any flag left by the attempt. -/
theorem attempt_events_carry_resolved_peer (env : Env) (w : World) (c h : Nat)
    (_hreg : w.m_gcm.evt_handler = some h) :
    (resolved_at_emission env c w.trace (new_actions w (local_db_update_in_evt env w c)) = true
      ∧ resolved_at_emission env c w.trace (new_actions w (local_db_apply_in_evt env w c)) = true
      ∧ resolved_at_emission env c w.trace
          (new_actions w (service_changed_send_in_evt env w c)) = true)
    ∧ ((∀ t, env.im_peer_id_get_by_conn_handle t c = PM_PEER_ID_INVALID) →
        (∀ e ∈ events (new_actions w (local_db_update_in_evt env w c)),
          e.conn_handle = some c ∧ e.peer_id = PM_PEER_ID_INVALID)
        ∧ (∀ e ∈ events (new_actions w (local_db_apply_in_evt env w c)),
          e.conn_handle = some c ∧ e.peer_id = PM_PEER_ID_INVALID)
        ∧ (∀ e ∈ events (new_actions w (service_changed_send_in_evt env w c)),
          e.conn_handle = some c ∧ e.peer_id = PM_PEER_ID_INVALID))
    ∧ (∀ p : List Action → Nat → Nat,
        ((∀ f c2, (local_db_update_in_evt (with_resolver env p) w c).conn_state.user_flags f c2
            = (local_db_update_in_evt env w c).conn_state.user_flags f c2)
          ∧ event_kinds (new_actions w (local_db_update_in_evt (with_resolver env p) w c))
            = event_kinds (new_actions w (local_db_update_in_evt env w c)))
        ∧ ((∀ f c2, (local_db_apply_in_evt (with_resolver env p) w c).conn_state.user_flags f c2
            = (local_db_apply_in_evt env w c).conn_state.user_flags f c2)
          ∧ event_kinds (new_actions w (local_db_apply_in_evt (with_resolver env p) w c))
            = event_kinds (new_actions w (local_db_apply_in_evt env w c)))
        ∧ ((∀ f c2,
            (service_changed_send_in_evt (with_resolver env p) w c).conn_state.user_flags f c2
              = (service_changed_send_in_evt env w c).conn_state.user_flags f c2)
          ∧ event_kinds (new_actions w (service_changed_send_in_evt (with_resolver env p) w c))
            = event_kinds (new_actions w (service_changed_send_in_evt env w c)))) := by
  have hu := local_db_update_in_evt_resolved env w c
  have ha := local_db_apply_in_evt_resolved env w c
  have hs := service_changed_send_in_evt_resolved env w c
  refine ⟨⟨hu, ha, hs⟩, ?_, ?_⟩
  · intro hinv
    refine ⟨?_, ?_, ?_⟩
    · intro e he
      obtain ⟨h1, t, h2⟩ := resolved_at_emission_events env c _ _ hu e he
      exact ⟨h1, h2.trans (hinv t)⟩
    · intro e he
      obtain ⟨h1, t, h2⟩ := resolved_at_emission_events env c _ _ ha e he
      exact ⟨h1, h2.trans (hinv t)⟩
    · intro e he
      obtain ⟨h1, t, h2⟩ := resolved_at_emission_events env c _ _ hs e he
      exact ⟨h1, h2.trans (hinv t)⟩
  · intro p
    exact ⟨local_db_update_in_evt_resolver_indep env p w c,
      local_db_apply_in_evt_resolver_indep env p w c,
      service_changed_send_in_evt_resolver_indep env p w c⟩

/-- Instance of C18: connection 2 has no resolvable peer and the update adapter
    answers NRF_ERROR_DATA_SIZE; the ErrorDataSize event is emitted all the same,
    with conn = 2 and the unknown-peer value as peer id. -/
theorem attempt_events_carry_resolved_peer_witness :
    (world_ready [1, 2] (fun _ _ => false)).m_gcm.evt_handler = some 1
    ∧ (∀ t, (env_const NRF_ERROR_DATA_SIZE 0 0 peer_of_one).im_peer_id_get_by_conn_handle t 2
        = PM_PEER_ID_INVALID)
    ∧ events (new_actions (world_ready [1, 2] (fun _ _ => false))
        (local_db_update_in_evt (env_const NRF_ERROR_DATA_SIZE 0 0 peer_of_one)
          (world_ready [1, 2] (fun _ _ => false)) 2))
      = [⟨gcm_evt_id_t.GCM_EVT_ERROR_DATA_SIZE, PM_PEER_ID_INVALID, some 2, none⟩]
    ∧ (∀ e ∈ events (new_actions (world_ready [1, 2] (fun _ _ => false))
        (local_db_update_in_evt (env_const NRF_ERROR_DATA_SIZE 0 0 peer_of_one)
          (world_ready [1, 2] (fun _ _ => false)) 2)),
        e.conn_handle = some 2 ∧ e.peer_id = PM_PEER_ID_INVALID) :=
  ⟨rfl, fun _ => rfl, by decide,
    ((attempt_events_carry_resolved_peer (env_const NRF_ERROR_DATA_SIZE 0 0 peer_of_one)
      (world_ready [1, 2] (fun _ _ => false)) 2 1 rfl).2.1 (fun _ => rfl)).1⟩

/-- C19: gcm_ble_evt_handler is its switch followed by the three sweeps, and the
    switch makes exactly one Apply attempt on the connection of the event when the event
    is BLE_GATTS_EVT_SYS_ATTR_MISSING (whatever Apply-Pending is); exactly one Update
    attempt on the connection of the event when the event is BLE_GATTS_EVT_WRITE and the
    write is a CCCD write, which holds if and only if op = WRITE_REQ, the attribute
    type is descriptor, the descriptor UUID type is BLE and the UUID is
    CLIENT_CHAR_CONFIG; no call of the update or apply adapter on a service changed
    confirmation; and nothing at all for any other event or any other write. -/
theorem gcm_ble_evt_handler_dispatch (env : Env) (w : World) (e : ble_evt_t) :
    gcm_ble_evt_handler env w e = sweep_all env (gcm_ble_evt_handler_trigger env w e)
    ∧ (e.evt_id = BLE_GATTS_EVT_SYS_ATTR_MISSING →
        gcm_ble_evt_handler_trigger env w e = local_db_apply_in_evt env w e.conn_handle)
    ∧ (e.evt_id = BLE_GATTS_EVT_WRITE → cccd_written e.write = true →
        gcm_ble_evt_handler_trigger env w e = local_db_update_in_evt env w e.conn_handle)
    ∧ (cccd_written e.write = true ↔
        e.write.op = BLE_GATTS_OP_WRITE_REQ
        ∧ e.write.context_type = BLE_GATTS_ATTR_TYPE_DESC
        ∧ e.write.context_desc_uuid_type = BLE_UUID_TYPE_BLE
        ∧ e.write.context_desc_uuid_uuid = BLE_UUID_DESCRIPTOR_CLIENT_CHAR_CONFIG)
    ∧ (e.evt_id = BLE_GATTS_EVT_SC_CONFIRM →
        apply_calls (new_actions w (gcm_ble_evt_handler_trigger env w e)) = []
        ∧ update_calls (new_actions w (gcm_ble_evt_handler_trigger env w e)) = [])
    ∧ (e.evt_id ≠ BLE_GATTS_EVT_SYS_ATTR_MISSING → e.evt_id ≠ BLE_GATTS_EVT_SC_CONFIRM →
        ¬ (e.evt_id = BLE_GATTS_EVT_WRITE ∧ cccd_written e.write = true) →
        gcm_ble_evt_handler_trigger env w e = w) := by
  refine ⟨rfl, ?_, ?_, ?_, ?_, ?_⟩
  · intro he
    simp [gcm_ble_evt_handler_trigger, he]
  · intro he hw
    simp [gcm_ble_evt_handler_trigger, he, hw]
  · simp [cccd_written, and_assoc]
  · intro he
    simp [gcm_ble_evt_handler_trigger, he, new_actions, World.record,
      ble_conn_state_user_flag_set, apply_calls, update_calls]
  · intro h1 h2 h3
    unfold gcm_ble_evt_handler_trigger
    simp only [if_neg h1, if_neg h2]
    by_cases hw : e.evt_id = BLE_GATTS_EVT_WRITE
    · have hc : ¬ cccd_written e.write = true := fun hc => h3 ⟨hw, hc⟩
      simp only [if_pos hw, if_neg hc]
    · simp only [if_neg hw]

/-- Instance of C19: a CCCD write on connection 1 makes the switch one Update
    attempt on 1, and a write request to another descriptor makes it do nothing. -/
theorem gcm_ble_evt_handler_dispatch_witness :
    (evt_cccd_write 1).evt_id = BLE_GATTS_EVT_WRITE
    ∧ cccd_written (evt_cccd_write 1).write = true
    ∧ gcm_ble_evt_handler_trigger (env_const NRF_ERROR_BUSY 0 0 peer_of_one)
        (world_ready [1] (fun _ _ => false)) (evt_cccd_write 1)
      = local_db_update_in_evt (env_const NRF_ERROR_BUSY 0 0 peer_of_one)
        (world_ready [1] (fun _ _ => false)) 1
    ∧ (gcm_ble_evt_handler_trigger (env_const NRF_ERROR_BUSY 0 0 peer_of_one)
        (world_ready [1] (fun _ _ => false)) (evt_cccd_write 1)).trace
      = [Action.gscm_local_db_cache_update 1 NRF_ERROR_BUSY] :=
  have key := (gcm_ble_evt_handler_dispatch (env_const NRF_ERROR_BUSY 0 0 peer_of_one)
    (world_ready [1] (fun _ _ => false)) (evt_cccd_write 1)).2.2.1 rfl (by decide)
  ⟨rfl, by decide, key, by decide⟩

-- ---------------------------------------------------------------------------
-- Which entry points sweep
-- ---------------------------------------------------------------------------

/-- The switch of gcm_ble_evt_handler keeps the module variable and the set of
    active connections. -/
theorem gcm_ble_evt_handler_trigger_frame (env : Env) (w : World) (e : ble_evt_t) :
    (gcm_ble_evt_handler_trigger env w e).m_gcm = w.m_gcm
    ∧ (gcm_ble_evt_handler_trigger env w e).conn_state.conn_handles
        = w.conn_state.conn_handles := by
  unfold gcm_ble_evt_handler_trigger
  split_ifs
  · exact ⟨local_db_apply_in_evt_m_gcm env w _, local_db_apply_in_evt_conn_handles env w _⟩
  · exact ⟨rfl, rfl⟩
  · exact ⟨local_db_update_in_evt_m_gcm env w _, local_db_update_in_evt_conn_handles env w _⟩
  · exact ⟨rfl, rfl⟩
  · exact ⟨rfl, rfl⟩

/-- The Apply sweep keeps the module variable and the active connections, writes
    only apply-pending slots, and appends to the trace. -/
theorem apply_pending_flags_check_frame (env : Env) (w : World) :
    (apply_pending_flags_check env w).m_gcm = w.m_gcm
    ∧ (apply_pending_flags_check env w).conn_state.conn_handles = w.conn_state.conn_handles
    ∧ (∀ f c, f ≠ w.m_gcm.flag_id_local_db_apply_pending →
        (apply_pending_flags_check env w).conn_state.user_flags f c
          = w.conn_state.user_flags f c)
    ∧ ∃ added, (apply_pending_flags_check env w).trace = w.trace ++ added := by
  rw [apply_pending_flags_check_eq_foldl]
  apply foldl_sweep_invariant (fun w c => local_db_apply_in_evt env w c)
    (fun w c => ble_conn_state_user_flag_get w c w.m_gcm.flag_id_local_db_apply_pending)
    (fun w2 => w2.m_gcm = w.m_gcm
      ∧ w2.conn_state.conn_handles = w.conn_state.conn_handles
      ∧ (∀ f c, f ≠ w.m_gcm.flag_id_local_db_apply_pending →
          w2.conn_state.user_flags f c = w.conn_state.user_flags f c)
      ∧ ∃ added, w2.trace = w.trace ++ added)
  · intro w2 c2 ⟨hg, hh, hf, added, ht⟩ _
    obtain ⟨a2, h1, _⟩ := local_db_apply_in_evt_added env w2 c2
    refine ⟨by rw [local_db_apply_in_evt_m_gcm, hg],
      by rw [local_db_apply_in_evt_conn_handles, hh], ?_, added ++ a2, ?_⟩
    · intro f c hne
      rw [local_db_apply_in_evt_flags_frame env w2 c2 f c (Or.inl (by rw [hg]; exact hne))]
      exact hf f c hne
    · rw [h1, ht, List.append_assoc]
  · exact ⟨rfl, rfl, fun _ _ _ => rfl, [], by simp⟩

/-- The Update sweep keeps the module variable and the active connections and
    appends to the trace. -/
theorem update_pending_flags_check_frame (env : Env) (w : World) :
    (update_pending_flags_check env w).m_gcm = w.m_gcm
    ∧ (update_pending_flags_check env w).conn_state.conn_handles = w.conn_state.conn_handles
    ∧ ∃ added, (update_pending_flags_check env w).trace = w.trace ++ added := by
  rw [update_pending_flags_check_eq_foldl]
  apply foldl_sweep_invariant (fun w c => local_db_update_in_evt env w c)
    (fun w c => ble_conn_state_user_flag_get w c w.m_gcm.flag_id_local_db_update_pending)
    (fun w2 => w2.m_gcm = w.m_gcm
      ∧ w2.conn_state.conn_handles = w.conn_state.conn_handles
      ∧ ∃ added, w2.trace = w.trace ++ added)
  · intro w2 c2 ⟨hg, hh, added, ht⟩ _
    obtain ⟨a2, h1, _⟩ := local_db_update_in_evt_added env w2 c2
    refine ⟨by rw [local_db_update_in_evt_m_gcm, hg],
      by rw [local_db_update_in_evt_conn_handles, hh], added ++ a2, ?_⟩
    rw [h1, ht, List.append_assoc]
  · exact ⟨rfl, rfl, [], by simp⟩

/-- The service changed sweep appends to the trace steps among which there is no
    call of the update adapter. -/
theorem service_changed_pending_flags_check_added (env : Env) (w : World) :
    ∃ added, (service_changed_pending_flags_check env w).trace = w.trace ++ added
      ∧ update_calls added = [] := by
  rw [service_changed_pending_flags_check_eq_foldl]
  apply foldl_sweep_invariant (fun w c => service_changed_send_in_evt env w c)
    (fun w c => ble_conn_state_user_flag_get w c w.m_gcm.flag_id_service_changed_pending)
    (fun w2 => ∃ added, w2.trace = w.trace ++ added ∧ update_calls added = [])
  · intro w2 c2 ⟨added, ht, hu⟩ _
    obtain ⟨a2, h1, _, h3, _⟩ := service_changed_send_in_evt_added env w2 c2
    refine ⟨added ++ a2, ?_, ?_⟩
    · rw [h1, ht, List.append_assoc]
    · rw [update_calls_append, hu, h3]
      rfl
  · exact ⟨[], by simp, rfl⟩

/-- The sends answered MissingSystemAttributes of a concatenation. -/
theorem sys_attr_missing_sends_append (a b : List Action) :
    sys_attr_missing_sends (a ++ b) = sys_attr_missing_sends a ++ sys_attr_missing_sends b := by
  simp [sys_attr_missing_sends]

/-- Steps without a send contain no send answered MissingSystemAttributes. -/
theorem sys_attr_missing_sends_of_no_send (t : List Action) (h : send_calls t = []) :
    sys_attr_missing_sends t = [] := by
  unfold send_calls at h
  unfold sys_attr_missing_sends
  rw [List.filterMap_eq_nil_iff] at h ⊢
  intro a ha
  have h2 := h a ha
  cases a <;> first | rfl | simp at h2

/-- An Apply attempt calls the apply adapter once, on its own connection, and not
    at all for the handle that names no connection; it never sends and never calls
    the update adapter. -/
theorem local_db_apply_in_evt_apply_calls (env : Env) (w : World) (c : Nat) :
    apply_calls (new_actions w (local_db_apply_in_evt env w c))
        = (if c = BLE_CONN_HANDLE_INVALID then [] else [c])
      ∧ sys_attr_missing_sends (new_actions w (local_db_apply_in_evt env w c)) = []
      ∧ send_calls (new_actions w (local_db_apply_in_evt env w c)) = []
      ∧ update_calls (new_actions w (local_db_apply_in_evt env w c)) = [] := by
  by_cases hc : c = BLE_CONN_HANDLE_INVALID
  · have ht : (local_db_apply_in_evt env w c).trace = w.trace ++ [] := by
      simp [local_db_apply_in_evt, hc]
    rw [new_actions_of_append _ _ _ ht, if_pos hc]
    exact ⟨rfl, rfl, rfl, rfl⟩
  · obtain ⟨added, ht, ha, hu, hs, _⟩ := local_db_apply_in_evt_trace env w c hc
    rw [new_actions_of_append _ _ _ ht, if_neg hc]
    exact ⟨ha, sys_attr_missing_sends_of_no_send added hs, hs, hu⟩

/-- An Update attempt calls the update adapter once, on its own connection, and
    never the apply adapter or the send. -/
theorem local_db_update_in_evt_update_calls (env : Env) (w : World) (c : Nat) :
    update_calls (new_actions w (local_db_update_in_evt env w c)) = [c]
      ∧ apply_calls (new_actions w (local_db_update_in_evt env w c)) = []
      ∧ send_calls (new_actions w (local_db_update_in_evt env w c)) = [] := by
  simp only [local_db_update_in_evt, new_actions_flag_set]
  simp only [new_actions, evt_handler_call, World.record]
  generalize env.gscm_local_db_cache_update w.trace c = r
  split_ifs <;> simp [update_calls, apply_calls, send_calls]

/-- A service changed send attempt calls the apply adapter exactly when its send,
    on a handle that names a connection, is answered MissingSystemAttributes, and
    then once, on the connection of the send; it never calls the update adapter. -/
theorem service_changed_send_in_evt_apply_calls (env : Env) (w : World) (c : Nat) :
    apply_calls (new_actions w (service_changed_send_in_evt env w c))
        = sys_attr_missing_sends (new_actions w (service_changed_send_in_evt env w c))
      ∧ update_calls (new_actions w (service_changed_send_in_evt env w c)) = [] := by
  rw [service_changed_send_in_evt_new_actions]
  obtain ⟨ha, hm, _, hu⟩ := local_db_apply_in_evt_apply_calls env
    (w.record (Action.gscm_service_changed_ind_send c
      (env.gscm_service_changed_ind_send w.trace c))) c
  by_cases h4 : env.gscm_service_changed_ind_send w.trace c = BLE_ERROR_GATTS_SYS_ATTR_MISSING
  · have h123 : ¬ (env.gscm_service_changed_ind_send w.trace c = NRF_SUCCESS
        ∨ env.gscm_service_changed_ind_send w.trace c = BLE_ERROR_INVALID_CONN_HANDLE
        ∨ env.gscm_service_changed_ind_send w.trace c = NRF_ERROR_BUSY) := by
      rw [h4]
      decide
    rw [if_neg h123, if_pos h4]
    have e1 : ∀ (x : Action) (l : List Action),
        apply_calls (x :: l) = apply_calls [x] ++ apply_calls l :=
      fun x l => apply_calls_append [x] l
    have e2 : ∀ (x : Action) (l : List Action),
        sys_attr_missing_sends (x :: l)
          = sys_attr_missing_sends [x] ++ sys_attr_missing_sends l :=
      fun x l => sys_attr_missing_sends_append [x] l
    have e3 : ∀ (x : Action) (l : List Action),
        update_calls (x :: l) = update_calls [x] ++ update_calls l :=
      fun x l => update_calls_append [x] l
    constructor
    · rw [e1, e2, ha, hm, h4]
      by_cases hc : c = BLE_CONN_HANDLE_INVALID
      · simp [apply_calls, sys_attr_missing_sends, hc]
      · simp [apply_calls, sys_attr_missing_sends, hc]
    · rw [e3, hu]
      rfl
  · by_cases h123 : env.gscm_service_changed_ind_send w.trace c = NRF_SUCCESS
        ∨ env.gscm_service_changed_ind_send w.trace c = BLE_ERROR_INVALID_CONN_HANDLE
        ∨ env.gscm_service_changed_ind_send w.trace c = NRF_ERROR_BUSY
    · rw [if_pos h123]
      simp [apply_calls, sys_attr_missing_sends, update_calls, h4]
    · rw [if_neg h123, if_neg h4]
      simp [apply_calls, sys_attr_missing_sends, update_calls, h4]

/-- The service changed sweep calls the apply adapter exactly once for each of its
    sends answered MissingSystemAttributes, on the connection of that send, and
    never calls the update adapter. -/
theorem service_changed_pending_flags_check_apply_calls (env : Env) (w : World) :
    ∃ added, (service_changed_pending_flags_check env w).trace = w.trace ++ added
      ∧ apply_calls added = sys_attr_missing_sends added ∧ update_calls added = [] := by
  rw [service_changed_pending_flags_check_eq_foldl]
  apply foldl_sweep_invariant (fun w c => service_changed_send_in_evt env w c)
    (fun w c => ble_conn_state_user_flag_get w c w.m_gcm.flag_id_service_changed_pending)
    (fun w2 => ∃ added, w2.trace = w.trace ++ added
      ∧ apply_calls added = sys_attr_missing_sends added ∧ update_calls added = [])
  · intro w2 c2 ⟨added, ht, ha, hu⟩ _
    obtain ⟨a2, h1, _⟩ := service_changed_send_in_evt_added env w2 c2
    obtain ⟨h2, h3⟩ := service_changed_send_in_evt_apply_calls env w2 c2
    rw [new_actions_of_append _ _ _ h1] at h2 h3
    refine ⟨added ++ a2, ?_, ?_, ?_⟩
    · rw [h1, ht, List.append_assoc]
    · rw [apply_calls_append, sys_attr_missing_sends_append, ha, h2]
    · rw [update_calls_append, hu, h3]
      rfl
  · exact ⟨[], by simp, rfl, rfl⟩

/-- The steps of gcm_local_database_has_changed: the database-changed call of the
    store adapter, then the steps of the service changed sweep, among which the
    apply adapter is called exactly once for each send answered
    MissingSystemAttributes and the update adapter never. -/
theorem gcm_local_database_has_changed_steps (env : Env) (w : World) :
    ∃ added, new_actions w (gcm_local_database_has_changed env w)
        = Action.gscm_local_database_has_changed :: added
      ∧ apply_calls added = sys_attr_missing_sends added ∧ update_calls added = [] := by
  obtain ⟨_, mt, _, _⟩ := mark_loop_flags env w.conn_state.conn_handles
    (w.record Action.gscm_local_database_has_changed)
  obtain ⟨a2, h1, h2, h3⟩ := service_changed_pending_flags_check_apply_calls env
    (mark_unresolvable env w.conn_state.conn_handles
      (w.record Action.gscm_local_database_has_changed))
  have ht : (gcm_local_database_has_changed env w).trace
      = w.trace ++ (Action.gscm_local_database_has_changed :: a2) := by
    show (service_changed_pending_flags_check env
      (mark_unresolvable env w.conn_state.conn_handles
        (w.record Action.gscm_local_database_has_changed))).trace = _
    rw [h1]
    show (mark_unresolvable env w.conn_state.conn_handles
        (w.record Action.gscm_local_database_has_changed)).trace ++ a2 = _
    unfold mark_unresolvable
    rw [mt]
    simp [World.record]
  exact ⟨a2, new_actions_of_append _ _ _ ht, h2, h3⟩

/-- The steps of im_evt_handler on a bonded-peer-connected event for c: those of
    one Apply attempt on c, then the service-changed-needed query on c. -/
theorem im_evt_handler_steps (env : Env) (w : World) (c : Nat) :
    new_actions w (im_evt_handler env w ⟨im_evt_id_t.IM_EVT_BONDED_PEER_CONNECTED, c⟩)
      = new_actions w (local_db_apply_in_evt env w c)
        ++ [Action.gscm_service_changed_ind_needed c
            (env.gscm_service_changed_ind_needed (local_db_apply_in_evt env w c).trace c)] := by
  obtain ⟨a2, h1⟩ := local_db_apply_in_evt_trace_extends env w c
  have ht : (im_evt_handler env w ⟨im_evt_id_t.IM_EVT_BONDED_PEER_CONNECTED, c⟩).trace
      = w.trace ++ (a2 ++ [Action.gscm_service_changed_ind_needed c
          (env.gscm_service_changed_ind_needed (local_db_apply_in_evt env w c).trace c)]) := by
    simp only [im_evt_handler]
    split_ifs <;> simp [World.record, ble_conn_state_user_flag_set, h1]
  rw [new_actions_of_append _ _ _ ht, new_actions_of_append _ _ _ h1]

/-- The steps of gscm_evt_handler on a cache-stored notice for peer p: the
    forwarded event, then those of one Apply attempt on the connection the
    resolver gives for p. -/
theorem gscm_evt_handler_stored_steps (env : Env) (w : World) (p c : Nat) (st : Bool) :
    new_actions w (gscm_evt_handler env w
        ⟨gscm_evt_id_t.GSCM_EVT_LOCAL_DB_CACHE_STORED, p, c, st⟩)
      = Action.evt_handler w.m_gcm.evt_handler
          ⟨gcm_evt_id_t.GCM_EVT_LOCAL_DB_CACHE_STORED, p, none, none⟩
        :: new_actions
            (evt_handler_call w ⟨gcm_evt_id_t.GCM_EVT_LOCAL_DB_CACHE_STORED, p, none, none⟩)
            (local_db_apply_in_evt env
              (evt_handler_call w ⟨gcm_evt_id_t.GCM_EVT_LOCAL_DB_CACHE_STORED, p, none, none⟩)
              (env.im_conn_handle_get
                (evt_handler_call w
                  ⟨gcm_evt_id_t.GCM_EVT_LOCAL_DB_CACHE_STORED, p, none, none⟩).trace p)) := by
  obtain ⟨a2, h1⟩ := local_db_apply_in_evt_trace_extends env
    (evt_handler_call w ⟨gcm_evt_id_t.GCM_EVT_LOCAL_DB_CACHE_STORED, p, none, none⟩)
    (env.im_conn_handle_get
      (evt_handler_call w
        ⟨gcm_evt_id_t.GCM_EVT_LOCAL_DB_CACHE_STORED, p, none, none⟩).trace p)
  have ht : (gscm_evt_handler env w
      ⟨gscm_evt_id_t.GSCM_EVT_LOCAL_DB_CACHE_STORED, p, c, st⟩).trace
      = w.trace ++ (Action.evt_handler w.m_gcm.evt_handler
          ⟨gcm_evt_id_t.GCM_EVT_LOCAL_DB_CACHE_STORED, p, none, none⟩ :: a2) := by
    simp only [gscm_evt_handler]
    rw [h1]
    simp [evt_handler_call, World.record]
  rw [new_actions_of_append _ _ _ ht, new_actions_of_append _ _ _ h1]

/-- C20, as stated, fails: connection 1 has Update-Pending set and connection 2
    has Apply-Pending set, both active.  The application call
    gcm_local_database_has_changed, a bonded-peer-reconnected event for 1, a
    bonding-info-stored event for 2 and a cache-updated notice of the store adapter
    all return without an Update attempt on 1 and without an Apply attempt on 2. -/
theorem only_ble_events_sweep :
    update_pending (world_ready [1, 2] flags_demo) 1 = true
    ∧ apply_pending (world_ready [1, 2] flags_demo) 2 = true
    ∧ 1 ∉ update_calls (new_actions (world_ready [1, 2] flags_demo)
        (gcm_local_database_has_changed (env_const 0 0 0 peer_of_one)
          (world_ready [1, 2] flags_demo)))
    ∧ 2 ∉ apply_calls (new_actions (world_ready [1, 2] flags_demo)
        (gcm_local_database_has_changed (env_const 0 0 0 peer_of_one)
          (world_ready [1, 2] flags_demo)))
    ∧ 1 ∉ update_calls (new_actions (world_ready [1, 2] flags_demo)
        (im_evt_handler (env_const 0 0 0 peer_of_one) (world_ready [1, 2] flags_demo)
          ⟨im_evt_id_t.IM_EVT_BONDED_PEER_CONNECTED, 1⟩))
    ∧ 2 ∉ apply_calls (new_actions (world_ready [1, 2] flags_demo)
        (im_evt_handler (env_const 0 0 0 peer_of_one) (world_ready [1, 2] flags_demo)
          ⟨im_evt_id_t.IM_EVT_BONDED_PEER_CONNECTED, 1⟩))
    ∧ 1 ∉ update_calls (new_actions (world_ready [1, 2] flags_demo)
        (smd_evt_handler (env_const 0 0 0 peer_of_one) (world_ready [1, 2] flags_demo)
          ⟨smd_evt_id_t.SMD_EVT_BONDING_INFO_STORED, 2⟩))
    ∧ 2 ∉ apply_calls (new_actions (world_ready [1, 2] flags_demo)
        (smd_evt_handler (env_const 0 0 0 peer_of_one) (world_ready [1, 2] flags_demo)
          ⟨smd_evt_id_t.SMD_EVT_BONDING_INFO_STORED, 2⟩))
    ∧ new_actions (world_ready [1, 2] flags_demo)
        (gscm_evt_handler (env_const 0 0 0 peer_of_one) (world_ready [1, 2] flags_demo)
          ⟨gscm_evt_id_t.GSCM_EVT_LOCAL_DB_CACHE_UPDATED, 7, 1, false⟩)
      = [Action.evt_handler (some 1)
          ⟨gcm_evt_id_t.GCM_EVT_LOCAL_DB_CACHE_UPDATED, 7, some 1, none⟩] := by
  decide

/-- C20, amended: with a handler registered, distinct valid active handles and
    distinct apply and update flag slots, gcm_ble_evt_handler sweeps after its
    switch: every active connection whose Apply-Pending or Update-Pending flag is
    true after the switch has the matching adapter called before the handler
    returns.  The other entry points do not sweep Update- or Apply-Pending:
    smd_evt_handler is the single Update attempt on the connection of the event (and
    nothing for another event id), im_evt_handler does nothing for another event id
    and never calls the update adapter, gscm_evt_handler never calls the update
    adapter, and gcm_local_database_has_changed never calls the update adapter.
    Nor is the apply adapter called by a sweep there.  smd_evt_handler never calls
    it and never sends.  On a bonded-peer-connected event for c the steps of
    im_evt_handler are those of one Apply attempt on c followed by the
    service-changed-needed query on c: the apply adapter is called once, on c (not
    at all if c names no connection), and nothing is sent.  On a cache-stored
    notice the steps of gscm_evt_handler are the forwarded event followed by those
    of one Apply attempt on the connection the resolver gives for the peer: the
    apply adapter is called once, on that connection (not at all if there is none);
    on a cache-updated notice the only step is the forwarded event, on a
    service-changed-state notice there is no step, another notice changes nothing,
    and gscm_evt_handler never sends.  In gcm_local_database_has_changed the apply
    adapter is called only as the fallback of a send of the ServiceChanged sweep:
    its calls are, in order, the connections of the sends answered
    MissingSystemAttributes. -/
theorem sweep_only_in_ble_evt_handler (env : Env) (w : World) (e : ble_evt_t) (h : Nat)
    (_hreg : w.m_gcm.evt_handler = some h)
    (hnd : w.conn_state.conn_handles.Nodup)
    (hvalid : ∀ c ∈ w.conn_state.conn_handles, c ≠ BLE_CONN_HANDLE_INVALID)
    (hids : w.m_gcm.flag_id_local_db_update_pending ≠ w.m_gcm.flag_id_local_db_apply_pending) :
    (∀ c ∈ w.conn_state.conn_handles,
        apply_pending (gcm_ble_evt_handler_trigger env w e) c = true →
        c ∈ apply_calls (new_actions (gcm_ble_evt_handler_trigger env w e)
          (gcm_ble_evt_handler env w e)))
    ∧ (∀ c ∈ w.conn_state.conn_handles,
        update_pending (gcm_ble_evt_handler_trigger env w e) c = true →
        c ∈ update_calls (new_actions (gcm_ble_evt_handler_trigger env w e)
          (gcm_ble_evt_handler env w e)))
    ∧ (∀ c, smd_evt_handler env w ⟨smd_evt_id_t.SMD_EVT_BONDING_INFO_STORED, c⟩
        = local_db_update_in_evt env w c)
    ∧ (∀ id c, smd_evt_handler env w ⟨smd_evt_id_t.other id, c⟩ = w)
    ∧ (∀ id c, im_evt_handler env w ⟨im_evt_id_t.other id, c⟩ = w)
    ∧ (∀ ev, update_calls (new_actions w (im_evt_handler env w ev)) = [])
    ∧ (∀ ev, update_calls (new_actions w (gscm_evt_handler env w ev)) = [])
    ∧ update_calls (new_actions w (gcm_local_database_has_changed env w)) = []
    ∧ (∀ ev, apply_calls (new_actions w (smd_evt_handler env w ev)) = []
        ∧ send_calls (new_actions w (smd_evt_handler env w ev)) = [])
    ∧ (∀ c, new_actions w
          (im_evt_handler env w ⟨im_evt_id_t.IM_EVT_BONDED_PEER_CONNECTED, c⟩)
        = new_actions w (local_db_apply_in_evt env w c)
          ++ [Action.gscm_service_changed_ind_needed c
              (env.gscm_service_changed_ind_needed (local_db_apply_in_evt env w c).trace c)])
    ∧ (∀ c, apply_calls (new_actions w
          (im_evt_handler env w ⟨im_evt_id_t.IM_EVT_BONDED_PEER_CONNECTED, c⟩))
        = if c = BLE_CONN_HANDLE_INVALID then [] else [c])
    ∧ (∀ ev, send_calls (new_actions w (im_evt_handler env w ev)) = [])
    ∧ (∀ p c st, new_actions w (gscm_evt_handler env w
          ⟨gscm_evt_id_t.GSCM_EVT_LOCAL_DB_CACHE_STORED, p, c, st⟩)
        = Action.evt_handler w.m_gcm.evt_handler
            ⟨gcm_evt_id_t.GCM_EVT_LOCAL_DB_CACHE_STORED, p, none, none⟩
          :: new_actions
              (evt_handler_call w ⟨gcm_evt_id_t.GCM_EVT_LOCAL_DB_CACHE_STORED, p, none, none⟩)
              (local_db_apply_in_evt env
                (evt_handler_call w
                  ⟨gcm_evt_id_t.GCM_EVT_LOCAL_DB_CACHE_STORED, p, none, none⟩)
                (env.im_conn_handle_get
                  (evt_handler_call w
                    ⟨gcm_evt_id_t.GCM_EVT_LOCAL_DB_CACHE_STORED, p, none, none⟩).trace p)))
    ∧ (∀ p c st, apply_calls (new_actions w (gscm_evt_handler env w
          ⟨gscm_evt_id_t.GSCM_EVT_LOCAL_DB_CACHE_STORED, p, c, st⟩))
        = if env.im_conn_handle_get
              (evt_handler_call w
                ⟨gcm_evt_id_t.GCM_EVT_LOCAL_DB_CACHE_STORED, p, none, none⟩).trace p
            = BLE_CONN_HANDLE_INVALID then []
          else [env.im_conn_handle_get
              (evt_handler_call w
                ⟨gcm_evt_id_t.GCM_EVT_LOCAL_DB_CACHE_STORED, p, none, none⟩).trace p])
    ∧ (∀ p c st, new_actions w (gscm_evt_handler env w
          ⟨gscm_evt_id_t.GSCM_EVT_LOCAL_DB_CACHE_UPDATED, p, c, st⟩)
        = [Action.evt_handler w.m_gcm.evt_handler
            ⟨gcm_evt_id_t.GCM_EVT_LOCAL_DB_CACHE_UPDATED, p, some c, none⟩])
    ∧ (∀ p c st, new_actions w (gscm_evt_handler env w
          ⟨gscm_evt_id_t.GSCM_EVT_SC_STATE_STORED, p, c, st⟩) = [])
    ∧ (∀ id p c st, gscm_evt_handler env w ⟨gscm_evt_id_t.other id, p, c, st⟩ = w)
    ∧ (∀ ev, send_calls (new_actions w (gscm_evt_handler env w ev)) = [])
    ∧ apply_calls (new_actions w (gcm_local_database_has_changed env w))
        = sys_attr_missing_sends (new_actions w (gcm_local_database_has_changed env w)) := by
  have e1 : ∀ (x : Action) (l : List Action),
      apply_calls (x :: l) = apply_calls [x] ++ apply_calls l :=
    fun x l => apply_calls_append [x] l
  have e2 : ∀ (x : Action) (l : List Action),
      sys_attr_missing_sends (x :: l)
        = sys_attr_missing_sends [x] ++ sys_attr_missing_sends l :=
    fun x l => sys_attr_missing_sends_append [x] l
  have e3 : ∀ (x : Action) (l : List Action),
      send_calls (x :: l) = send_calls [x] ++ send_calls l :=
    fun x l => send_calls_append [x] l
  obtain ⟨tg, th⟩ := gcm_ble_evt_handler_trigger_frame env w e
  obtain ⟨ag, ah, af, a12, at12⟩ :=
    apply_pending_flags_check_frame env (gcm_ble_evt_handler_trigger env w e)
  obtain ⟨_, _, a23, at23⟩ := update_pending_flags_check_frame env
    (apply_pending_flags_check env (gcm_ble_evt_handler_trigger env w e))
  obtain ⟨a34, at34, _⟩ := service_changed_pending_flags_check_added env
    (update_pending_flags_check env
      (apply_pending_flags_check env (gcm_ble_evt_handler_trigger env w e)))
  have htot : (gcm_ble_evt_handler env w e).trace
      = (gcm_ble_evt_handler_trigger env w e).trace ++ (a12 ++ (a23 ++ a34)) := by
    rw [gcm_ble_evt_handler_eq]
    unfold sweep_all
    rw [at34, at23, at12, List.append_assoc, List.append_assoc]
  have hnew := new_actions_of_append _ _ _ htot
  have hn12 := new_actions_of_append _ _ _ at12
  have hn23 := new_actions_of_append _ _ _ at23
  refine ⟨?_, ?_, ?_, ?_, ?_, ?_, ?_, ?_, ?_, ?_, ?_, ?_, ?_, ?_, ?_, ?_, ?_, ?_, ?_⟩
  · intro c hc hp
    obtain ⟨hcalls, _⟩ := apply_pending_flags_check_calls env
      (gcm_ble_evt_handler_trigger env w e) (by rw [th]; exact hnd)
      (by rw [th]; exact hvalid)
    rw [hn12] at hcalls
    rw [hnew, apply_calls_append, hcalls]
    apply List.mem_append_left
    rw [List.mem_filter]
    exact ⟨by rw [th]; exact hc, hp⟩
  · intro c hc hp
    obtain ⟨hcalls, _⟩ := update_pending_flags_check_calls env
      (apply_pending_flags_check env (gcm_ble_evt_handler_trigger env w e))
      (by rw [ah, th]; exact hnd)
    rw [hn23] at hcalls
    rw [hnew, update_calls_append, update_calls_append, hcalls]
    apply List.mem_append_right
    apply List.mem_append_left
    rw [List.mem_filter]
    refine ⟨by rw [ah, th]; exact hc, ?_⟩
    simp only [update_pending, ble_conn_state_user_flag_get] at hp ⊢
    rw [ag, af _ c (by rw [tg]; exact hids)]
    exact hp
  · intro c
    rfl
  · intro id c
    rfl
  · intro id c
    rfl
  · intro ev
    rcases ev with ⟨id, c⟩
    cases id with
    | IM_EVT_BONDED_PEER_CONNECTED =>
      obtain ⟨a2, h1, _, h3, _⟩ := local_db_apply_in_evt_added env w c
      have ht : (im_evt_handler env w ⟨im_evt_id_t.IM_EVT_BONDED_PEER_CONNECTED, c⟩).trace
          = w.trace ++ (a2 ++ [Action.gscm_service_changed_ind_needed c
              (env.gscm_service_changed_ind_needed (local_db_apply_in_evt env w c).trace c)]) := by
        simp only [im_evt_handler]
        split_ifs <;> simp [World.record, ble_conn_state_user_flag_set, h1]
      rw [new_actions_of_append _ _ _ ht, update_calls_append, h3]
      rfl
    | other id => simp [im_evt_handler, new_actions, update_calls]
  · intro ev
    rcases ev with ⟨id, pid, c, st⟩
    cases id with
    | GSCM_EVT_LOCAL_DB_CACHE_STORED =>
      obtain ⟨a2, h1, _, h3, _⟩ := local_db_apply_in_evt_added env
        (evt_handler_call w ⟨gcm_evt_id_t.GCM_EVT_LOCAL_DB_CACHE_STORED, pid, none, none⟩)
        (env.im_conn_handle_get
          (evt_handler_call w
            ⟨gcm_evt_id_t.GCM_EVT_LOCAL_DB_CACHE_STORED, pid, none, none⟩).trace pid)
      have ht : (gscm_evt_handler env w
          ⟨gscm_evt_id_t.GSCM_EVT_LOCAL_DB_CACHE_STORED, pid, c, st⟩).trace
          = w.trace ++ (Action.evt_handler w.m_gcm.evt_handler
              ⟨gcm_evt_id_t.GCM_EVT_LOCAL_DB_CACHE_STORED, pid, none, none⟩ :: a2) := by
        simp only [gscm_evt_handler]
        rw [h1]
        simp [evt_handler_call, World.record]
      rw [new_actions_of_append _ _ _ ht]
      simpa [update_calls] using h3
    | GSCM_EVT_LOCAL_DB_CACHE_UPDATED =>
      simp [gscm_evt_handler, evt_handler_call, World.record, new_actions, update_calls]
    | GSCM_EVT_SC_STATE_STORED =>
      simp only [gscm_evt_handler]
      split_ifs <;> simp [new_actions, ble_conn_state_user_flag_set, update_calls]
    | other id => simp [gscm_evt_handler, new_actions, update_calls]
  · obtain ⟨_, mt, _, _⟩ := mark_loop_flags env w.conn_state.conn_handles
      (w.record Action.gscm_local_database_has_changed)
    obtain ⟨a2, h1, h2⟩ := service_changed_pending_flags_check_added env
      (mark_unresolvable env w.conn_state.conn_handles
        (w.record Action.gscm_local_database_has_changed))
    have ht : (gcm_local_database_has_changed env w).trace
        = w.trace ++ (Action.gscm_local_database_has_changed :: a2) := by
      show (service_changed_pending_flags_check env
        (mark_unresolvable env w.conn_state.conn_handles
          (w.record Action.gscm_local_database_has_changed))).trace = _
      rw [h1]
      show (mark_unresolvable env w.conn_state.conn_handles
          (w.record Action.gscm_local_database_has_changed)).trace ++ a2 = _
      unfold mark_unresolvable
      rw [mt]
      simp [World.record]
    rw [new_actions_of_append _ _ _ ht]
    simpa [update_calls] using h2
  · intro ev
    rcases ev with ⟨id, c⟩
    cases id with
    | SMD_EVT_BONDING_INFO_STORED =>
      exact ⟨(local_db_update_in_evt_update_calls env w c).2.1,
        (local_db_update_in_evt_update_calls env w c).2.2⟩
    | other id => simp [smd_evt_handler, new_actions, apply_calls, send_calls]
  · intro c
    exact im_evt_handler_steps env w c
  · intro c
    rw [im_evt_handler_steps, apply_calls_append, (local_db_apply_in_evt_apply_calls env w c).1]
    simp [apply_calls]
  · intro ev
    rcases ev with ⟨id, c⟩
    cases id with
    | IM_EVT_BONDED_PEER_CONNECTED =>
      rw [im_evt_handler_steps, send_calls_append,
        (local_db_apply_in_evt_apply_calls env w c).2.2.1]
      rfl
    | other id => simp [im_evt_handler, new_actions, send_calls]
  · intro p c st
    exact gscm_evt_handler_stored_steps env w p c st
  · intro p c st
    rw [gscm_evt_handler_stored_steps, e1, (local_db_apply_in_evt_apply_calls env _ _).1]
    rfl
  · intro p c st
    simp [gscm_evt_handler, evt_handler_call, World.record, new_actions]
  · intro p c st
    simp only [gscm_evt_handler]
    split_ifs <;> simp [new_actions, ble_conn_state_user_flag_set]
  · intro id p c st
    rfl
  · intro ev
    rcases ev with ⟨id, p, c, st⟩
    cases id with
    | GSCM_EVT_LOCAL_DB_CACHE_STORED =>
      rw [gscm_evt_handler_stored_steps, e3,
        (local_db_apply_in_evt_apply_calls env _ _).2.2.1]
      rfl
    | GSCM_EVT_LOCAL_DB_CACHE_UPDATED =>
      simp [gscm_evt_handler, evt_handler_call, World.record, new_actions, send_calls]
    | GSCM_EVT_SC_STATE_STORED =>
      simp only [gscm_evt_handler]
      split_ifs <;> simp [new_actions, ble_conn_state_user_flag_set, send_calls]
    | other id => simp [gscm_evt_handler, new_actions, send_calls]
  · obtain ⟨added, h1, h2, _⟩ := gcm_local_database_has_changed_steps env w
    rw [h1, e1, e2, h2]
    rfl

/-- Instance of the amended C20: connections 1 and 2 active, Update-Pending set on
    1 and Apply-Pending set on 2; a link connected event makes gcm_ble_evt_handler
    retry Apply on 2 and Update on 1, whereas a bonded-peer-connected event for 1
    calls the apply adapter on 1 only and gcm_local_database_has_changed, whose
    sends all succeed, does not call it at all. -/
theorem sweep_only_in_ble_evt_handler_witness :
    (world_ready [1, 2] flags_demo).m_gcm.evt_handler = some 1
    ∧ (world_ready [1, 2] flags_demo).conn_state.conn_handles.Nodup
    ∧ (∀ c ∈ (world_ready [1, 2] flags_demo).conn_state.conn_handles,
        c ≠ BLE_CONN_HANDLE_INVALID)
    ∧ (world_ready [1, 2] flags_demo).m_gcm.flag_id_local_db_update_pending
        ≠ (world_ready [1, 2] flags_demo).m_gcm.flag_id_local_db_apply_pending
    ∧ apply_pending (gcm_ble_evt_handler_trigger (env_const 0 0 0 peer_of_one)
        (world_ready [1, 2] flags_demo) (evt_connected 1)) 2 = true
    ∧ 2 ∈ apply_calls (new_actions
        (gcm_ble_evt_handler_trigger (env_const 0 0 0 peer_of_one)
          (world_ready [1, 2] flags_demo) (evt_connected 1))
        (gcm_ble_evt_handler (env_const 0 0 0 peer_of_one)
          (world_ready [1, 2] flags_demo) (evt_connected 1)))
    ∧ 1 ∈ update_calls (new_actions
        (gcm_ble_evt_handler_trigger (env_const 0 0 0 peer_of_one)
          (world_ready [1, 2] flags_demo) (evt_connected 1))
        (gcm_ble_evt_handler (env_const 0 0 0 peer_of_one)
          (world_ready [1, 2] flags_demo) (evt_connected 1)))
    ∧ apply_calls (new_actions (world_ready [1, 2] flags_demo)
        (im_evt_handler (env_const 0 0 0 peer_of_one) (world_ready [1, 2] flags_demo)
          ⟨im_evt_id_t.IM_EVT_BONDED_PEER_CONNECTED, 1⟩)) = [1]
    ∧ apply_calls (new_actions (world_ready [1, 2] flags_demo)
        (gcm_local_database_has_changed (env_const 0 0 0 peer_of_one)
          (world_ready [1, 2] flags_demo))) = [] :=
  have key := sweep_only_in_ble_evt_handler (env_const 0 0 0 peer_of_one)
    (world_ready [1, 2] flags_demo) (evt_connected 1) 1 rfl (by decide) (by decide) (by decide)
  ⟨rfl, by decide, by decide, by decide, by decide,
    key.1 2 (by decide) (by decide), key.2.1 1 (by decide) (by decide),
    key.2.2.2.2.2.2.2.2.2.2.1 1,
    key.2.2.2.2.2.2.2.2.2.2.2.2.2.2.2.2.2.2.trans (by decide)⟩

-- ---------------------------------------------------------------------------
-- Triggers from the identity manager, the security dispatcher and the store
-- ---------------------------------------------------------------------------

/-- C21: with a handler registered and distinct slots for Apply-Pending and
    ServiceChanged-Pending, on IM_EVT_BONDED_PEER_CONNECTED for c the handler
    im_evt_handler makes one Apply attempt on c, whatever Apply-Pending(c) is (for a
    valid handle the apply adapter is called exactly once, on c), then asks
    gscm_service_changed_ind_needed(c) once; ServiceChanged-Pending(c) is true
    afterwards if the answer is true and keeps its previous value if the answer is
    false.  Every other identity manager event returns the state unchanged: no
    adapter call, no event, no flag change. -/
theorem im_evt_handler_bonded_peer_connected (env : Env) (w : World) (c h : Nat)
    (_hreg : w.m_gcm.evt_handler = some h)
    (hids : w.m_gcm.flag_id_service_changed_pending ≠ w.m_gcm.flag_id_local_db_apply_pending) :
    new_actions w (im_evt_handler env w ⟨im_evt_id_t.IM_EVT_BONDED_PEER_CONNECTED, c⟩)
        = new_actions w (local_db_apply_in_evt env w c)
          ++ [Action.gscm_service_changed_ind_needed c
              (env.gscm_service_changed_ind_needed (local_db_apply_in_evt env w c).trace c)]
    ∧ (c ≠ BLE_CONN_HANDLE_INVALID →
        apply_calls
          (new_actions w (im_evt_handler env w ⟨im_evt_id_t.IM_EVT_BONDED_PEER_CONNECTED, c⟩))
          = [c])
    ∧ (env.gscm_service_changed_ind_needed (local_db_apply_in_evt env w c).trace c = true →
        service_changed_pending
          (im_evt_handler env w ⟨im_evt_id_t.IM_EVT_BONDED_PEER_CONNECTED, c⟩) c = true)
    ∧ (env.gscm_service_changed_ind_needed (local_db_apply_in_evt env w c).trace c = false →
        service_changed_pending
          (im_evt_handler env w ⟨im_evt_id_t.IM_EVT_BONDED_PEER_CONNECTED, c⟩) c
          = service_changed_pending w c)
    ∧ (∀ id c2, im_evt_handler env w ⟨im_evt_id_t.other id, c2⟩ = w) := by
  obtain ⟨a1, ht1⟩ := local_db_apply_in_evt_trace_extends env w c
  have ht : (im_evt_handler env w ⟨im_evt_id_t.IM_EVT_BONDED_PEER_CONNECTED, c⟩).trace
      = w.trace ++ (a1 ++ [Action.gscm_service_changed_ind_needed c
          (env.gscm_service_changed_ind_needed (local_db_apply_in_evt env w c).trace c)]) := by
    simp only [im_evt_handler]
    split_ifs <;> simp [World.record, ble_conn_state_user_flag_set, ht1]
  have hn1 := new_actions_of_append w _ a1 ht1
  have hn := new_actions_of_append w _ _ ht
  refine ⟨by rw [hn, hn1], ?_, ?_, ?_, fun _ _ => rfl⟩
  · intro hc
    obtain ⟨a2, h1, h2, _⟩ := local_db_apply_in_evt_trace env w c hc
    have : a2 = a1 := List.append_cancel_left (h1.symm.trans ht1)
    subst this
    rw [hn, apply_calls_append, h2]
    rfl
  · intro hneed
    simp only [im_evt_handler, hneed, if_true, service_changed_pending,
      ble_conn_state_user_flag_get, ble_conn_state_user_flag_set, World.record]
    simp
  · intro hneed
    simp only [im_evt_handler, hneed, Bool.false_eq_true, if_false, service_changed_pending,
      ble_conn_state_user_flag_get, World.record, local_db_apply_in_evt_m_gcm]
    exact local_db_apply_in_evt_flags_frame env w c _ c (Or.inl hids)

/-- Instance of C21: connection 1 reconnects with Apply-Pending(1) false; the apply
    adapter is called once on 1 and, the store answering that no indication is
    needed, ServiceChanged-Pending(1) keeps its value. -/
theorem im_evt_handler_bonded_peer_connected_witness :
    (world_ready [1] (fun _ _ => false)).m_gcm.evt_handler = some 1
    ∧ (world_ready [1] (fun _ _ => false)).m_gcm.flag_id_service_changed_pending
        ≠ (world_ready [1] (fun _ _ => false)).m_gcm.flag_id_local_db_apply_pending
    ∧ (1 : Nat) ≠ BLE_CONN_HANDLE_INVALID
    ∧ apply_calls (new_actions (world_ready [1] (fun _ _ => false))
        (im_evt_handler (env_const 0 NRF_ERROR_BUSY 0 peer_of_one)
          (world_ready [1] (fun _ _ => false))
          ⟨im_evt_id_t.IM_EVT_BONDED_PEER_CONNECTED, 1⟩)) = [1] :=
  ⟨rfl, by decide, by decide,
    (im_evt_handler_bonded_peer_connected (env_const 0 NRF_ERROR_BUSY 0 peer_of_one)
      (world_ready [1] (fun _ _ => false)) 1 1 rfl (by decide)).2.1 (by decide)⟩

/-- C22: with a handler registered and the Update-Pending slot distinct from the
    other two, on SMD_EVT_BONDING_INFO_STORED for c the handler smd_evt_handler is
    one Update attempt on c (the update adapter is called exactly once, on c; no
    apply call, no send) and every Apply-Pending and ServiceChanged-Pending flag
    keeps its value.  Every other security dispatcher event returns the state
    unchanged. -/
theorem smd_evt_handler_bonding_info_stored (env : Env) (w : World) (c h : Nat)
    (_hreg : w.m_gcm.evt_handler = some h)
    (hua : w.m_gcm.flag_id_local_db_apply_pending ≠ w.m_gcm.flag_id_local_db_update_pending)
    (hus : w.m_gcm.flag_id_service_changed_pending ≠ w.m_gcm.flag_id_local_db_update_pending) :
    smd_evt_handler env w ⟨smd_evt_id_t.SMD_EVT_BONDING_INFO_STORED, c⟩
        = local_db_update_in_evt env w c
    ∧ update_calls
        (new_actions w (smd_evt_handler env w ⟨smd_evt_id_t.SMD_EVT_BONDING_INFO_STORED, c⟩))
        = [c]
    ∧ apply_calls
        (new_actions w (smd_evt_handler env w ⟨smd_evt_id_t.SMD_EVT_BONDING_INFO_STORED, c⟩))
        = []
    ∧ send_calls
        (new_actions w (smd_evt_handler env w ⟨smd_evt_id_t.SMD_EVT_BONDING_INFO_STORED, c⟩))
        = []
    ∧ (∀ c2, apply_pending
          (smd_evt_handler env w ⟨smd_evt_id_t.SMD_EVT_BONDING_INFO_STORED, c⟩) c2
          = apply_pending w c2
        ∧ service_changed_pending
          (smd_evt_handler env w ⟨smd_evt_id_t.SMD_EVT_BONDING_INFO_STORED, c⟩) c2
          = service_changed_pending w c2)
    ∧ (∀ id c2, smd_evt_handler env w ⟨smd_evt_id_t.other id, c2⟩ = w) := by
  have heq : smd_evt_handler env w ⟨smd_evt_id_t.SMD_EVT_BONDING_INFO_STORED, c⟩
      = local_db_update_in_evt env w c := rfl
  obtain ⟨added, h1, h2, h3, h4, _⟩ := local_db_update_in_evt_trace env w c
  rw [heq, new_actions_of_append w _ added h1]
  refine ⟨rfl, h2, h3, h4, ?_, fun _ _ => rfl⟩
  intro c2
  simp only [apply_pending, service_changed_pending, ble_conn_state_user_flag_get,
    local_db_update_in_evt_m_gcm]
  exact ⟨local_db_update_in_evt_flags_frame env w c _ c2 (Or.inl hua),
    local_db_update_in_evt_flags_frame env w c _ c2 (Or.inl hus)⟩

/-- Instance of C22: bonding info stored on connection 1 while Apply-Pending is set
    on connection 2; the update adapter is called once on 1 and the flag of 2 stays. -/
theorem smd_evt_handler_bonding_info_stored_witness :
    (world_ready [1, 2] flags_demo).m_gcm.evt_handler = some 1
    ∧ (world_ready [1, 2] flags_demo).m_gcm.flag_id_local_db_apply_pending
        ≠ (world_ready [1, 2] flags_demo).m_gcm.flag_id_local_db_update_pending
    ∧ (world_ready [1, 2] flags_demo).m_gcm.flag_id_service_changed_pending
        ≠ (world_ready [1, 2] flags_demo).m_gcm.flag_id_local_db_update_pending
    ∧ update_calls (new_actions (world_ready [1, 2] flags_demo)
        (smd_evt_handler (env_const 0 0 0 peer_of_one) (world_ready [1, 2] flags_demo)
          ⟨smd_evt_id_t.SMD_EVT_BONDING_INFO_STORED, 1⟩)) = [1] :=
  ⟨rfl, by decide, by decide,
    (smd_evt_handler_bonding_info_stored (env_const 0 0 0 peer_of_one)
      (world_ready [1, 2] flags_demo) 1 1 rfl (by decide) (by decide)).2.1⟩

/-- An Apply attempt never emits a LocalDbCacheStored event. -/
theorem local_db_apply_in_evt_no_stored (env : Env) (w : World) (c : Nat) :
    gcm_evt_id_t.GCM_EVT_LOCAL_DB_CACHE_STORED
      ∉ event_kinds (new_actions w (local_db_apply_in_evt env w c)) := by
  by_cases hc : c = BLE_CONN_HANDLE_INVALID
  · simp [local_db_apply_in_evt, hc, new_actions, event_kinds, events]
  · simp only [local_db_apply_in_evt, ble_conn_state_user_flag_set, evt_handler_call,
      World.record, new_actions, if_neg hc]
    generalize env.gscm_local_db_cache_apply w.trace c = r
    split_ifs <;> simp [event_kinds, events]

/-- C23: with a handler h registered, on a cache-stored notice for peer p the
    handler gscm_evt_handler first calls the event handler once with a
    LocalDbCacheStored event whose peer id is p, and then makes one Apply attempt on
    the connection im_conn_handle_get gives for p; no other LocalDbCacheStored event
    is emitted.  If that connection is BLE_CONN_HANDLE_INVALID the apply adapter is
    not called, no flag is written and no further event is emitted; otherwise the
    apply adapter is called exactly once, on that connection. -/
theorem gscm_evt_handler_cache_stored (env : Env) (w : World) (p c0 h : Nat) (st : Bool)
    (hreg : w.m_gcm.evt_handler = some h) :
    gscm_evt_handler env w ⟨gscm_evt_id_t.GSCM_EVT_LOCAL_DB_CACHE_STORED, p, c0, st⟩
        = local_db_apply_in_evt env
            (evt_handler_call w ⟨gcm_evt_id_t.GCM_EVT_LOCAL_DB_CACHE_STORED, p, none, none⟩)
            (env.im_conn_handle_get
              (w.trace ++ [Action.evt_handler (some h)
                ⟨gcm_evt_id_t.GCM_EVT_LOCAL_DB_CACHE_STORED, p, none, none⟩]) p)
    ∧ new_actions w
        (gscm_evt_handler env w ⟨gscm_evt_id_t.GSCM_EVT_LOCAL_DB_CACHE_STORED, p, c0, st⟩)
        = Action.evt_handler (some h)
            ⟨gcm_evt_id_t.GCM_EVT_LOCAL_DB_CACHE_STORED, p, none, none⟩
          :: new_actions
              (evt_handler_call w ⟨gcm_evt_id_t.GCM_EVT_LOCAL_DB_CACHE_STORED, p, none, none⟩)
              (local_db_apply_in_evt env
                (evt_handler_call w
                  ⟨gcm_evt_id_t.GCM_EVT_LOCAL_DB_CACHE_STORED, p, none, none⟩)
                (env.im_conn_handle_get
                  (w.trace ++ [Action.evt_handler (some h)
                    ⟨gcm_evt_id_t.GCM_EVT_LOCAL_DB_CACHE_STORED, p, none, none⟩]) p))
    ∧ (event_kinds (new_actions w
        (gscm_evt_handler env w
          ⟨gscm_evt_id_t.GSCM_EVT_LOCAL_DB_CACHE_STORED, p, c0, st⟩))).count
          gcm_evt_id_t.GCM_EVT_LOCAL_DB_CACHE_STORED = 1
    ∧ (env.im_conn_handle_get
          (w.trace ++ [Action.evt_handler (some h)
            ⟨gcm_evt_id_t.GCM_EVT_LOCAL_DB_CACHE_STORED, p, none, none⟩]) p
          = BLE_CONN_HANDLE_INVALID →
        new_actions w
          (gscm_evt_handler env w ⟨gscm_evt_id_t.GSCM_EVT_LOCAL_DB_CACHE_STORED, p, c0, st⟩)
          = [Action.evt_handler (some h)
              ⟨gcm_evt_id_t.GCM_EVT_LOCAL_DB_CACHE_STORED, p, none, none⟩]
        ∧ (gscm_evt_handler env w
            ⟨gscm_evt_id_t.GSCM_EVT_LOCAL_DB_CACHE_STORED, p, c0, st⟩).conn_state
          = w.conn_state)
    ∧ (env.im_conn_handle_get
          (w.trace ++ [Action.evt_handler (some h)
            ⟨gcm_evt_id_t.GCM_EVT_LOCAL_DB_CACHE_STORED, p, none, none⟩]) p
          ≠ BLE_CONN_HANDLE_INVALID →
        apply_calls (new_actions w
          (gscm_evt_handler env w ⟨gscm_evt_id_t.GSCM_EVT_LOCAL_DB_CACHE_STORED, p, c0, st⟩))
          = [env.im_conn_handle_get
              (w.trace ++ [Action.evt_handler (some h)
                ⟨gcm_evt_id_t.GCM_EVT_LOCAL_DB_CACHE_STORED, p, none, none⟩]) p]) := by
  have hw1 : (evt_handler_call w
      ⟨gcm_evt_id_t.GCM_EVT_LOCAL_DB_CACHE_STORED, p, none, none⟩).trace
      = w.trace ++ [Action.evt_handler (some h)
          ⟨gcm_evt_id_t.GCM_EVT_LOCAL_DB_CACHE_STORED, p, none, none⟩] := by
    simp [evt_handler_call, World.record, hreg]
  have heq : gscm_evt_handler env w ⟨gscm_evt_id_t.GSCM_EVT_LOCAL_DB_CACHE_STORED, p, c0, st⟩
      = local_db_apply_in_evt env
          (evt_handler_call w ⟨gcm_evt_id_t.GCM_EVT_LOCAL_DB_CACHE_STORED, p, none, none⟩)
          (env.im_conn_handle_get
            (w.trace ++ [Action.evt_handler (some h)
              ⟨gcm_evt_id_t.GCM_EVT_LOCAL_DB_CACHE_STORED, p, none, none⟩]) p) := by
    simp only [gscm_evt_handler]
    rw [hw1]
  generalize hconn : env.im_conn_handle_get
      (w.trace ++ [Action.evt_handler (some h)
        ⟨gcm_evt_id_t.GCM_EVT_LOCAL_DB_CACHE_STORED, p, none, none⟩]) p = conn at heq ⊢
  obtain ⟨a2, ha2⟩ := local_db_apply_in_evt_trace_extends env
    (evt_handler_call w ⟨gcm_evt_id_t.GCM_EVT_LOCAL_DB_CACHE_STORED, p, none, none⟩) conn
  have hn1 := new_actions_of_append _ _ a2 ha2
  have ht : (local_db_apply_in_evt env
      (evt_handler_call w ⟨gcm_evt_id_t.GCM_EVT_LOCAL_DB_CACHE_STORED, p, none, none⟩)
      conn).trace
      = w.trace ++ (Action.evt_handler (some h)
          ⟨gcm_evt_id_t.GCM_EVT_LOCAL_DB_CACHE_STORED, p, none, none⟩ :: a2) := by
    rw [ha2, hw1]
    simp
  have hn := new_actions_of_append w _ _ ht
  have hns := local_db_apply_in_evt_no_stored env
    (evt_handler_call w ⟨gcm_evt_id_t.GCM_EVT_LOCAL_DB_CACHE_STORED, p, none, none⟩) conn
  rw [hn1] at hns
  rw [heq, hn, hn1]
  refine ⟨rfl, rfl, ?_, ?_, ?_⟩
  · have h0 : (event_kinds a2).count gcm_evt_id_t.GCM_EVT_LOCAL_DB_CACHE_STORED = 0 :=
      List.count_eq_zero_of_not_mem hns
    simp only [event_kinds, events, List.filterMap_cons, List.map_cons, List.count_cons_self]
    simp only [event_kinds, events] at h0
    rw [h0]
  · intro hinv
    have hsame : local_db_apply_in_evt env
        (evt_handler_call w ⟨gcm_evt_id_t.GCM_EVT_LOCAL_DB_CACHE_STORED, p, none, none⟩) conn
        = evt_handler_call w ⟨gcm_evt_id_t.GCM_EVT_LOCAL_DB_CACHE_STORED, p, none, none⟩ := by
      simp [local_db_apply_in_evt, hinv]
    have ha2nil : a2 = [] := by
      rw [hsame] at ha2
      exact List.self_eq_append_right.mp ha2
    rw [ha2nil, hsame]
    exact ⟨rfl, rfl⟩
  · intro hval
    obtain ⟨a3, h1, h2, _⟩ := local_db_apply_in_evt_trace env
      (evt_handler_call w ⟨gcm_evt_id_t.GCM_EVT_LOCAL_DB_CACHE_STORED, p, none, none⟩) conn hval
    have : a3 = a2 := List.append_cancel_left (h1.symm.trans ha2)
    subst this
    simpa [apply_calls] using h2

/-- Instance of C23: a cache-stored notice for peer 9, which has no connection:
    the only step is the LocalDbCacheStored event for peer 9.  For peer 7, connected
    on connection 1, the event is followed by one apply call on 1. -/
theorem gscm_evt_handler_cache_stored_witness :
    (world_ready [1] (fun _ _ => false)).m_gcm.evt_handler = some 1
    ∧ new_actions (world_ready [1] (fun _ _ => false))
        (gscm_evt_handler (env_peer7 NRF_ERROR_BUSY) (world_ready [1] (fun _ _ => false))
          ⟨gscm_evt_id_t.GSCM_EVT_LOCAL_DB_CACHE_STORED, 9, 0, false⟩)
      = [Action.evt_handler (some 1)
          ⟨gcm_evt_id_t.GCM_EVT_LOCAL_DB_CACHE_STORED, 9, none, none⟩]
    ∧ apply_calls (new_actions (world_ready [1] (fun _ _ => false))
        (gscm_evt_handler (env_peer7 NRF_ERROR_BUSY) (world_ready [1] (fun _ _ => false))
          ⟨gscm_evt_id_t.GSCM_EVT_LOCAL_DB_CACHE_STORED, 7, 0, false⟩)) = [1] :=
  ⟨rfl,
    ((gscm_evt_handler_cache_stored (env_peer7 NRF_ERROR_BUSY)
      (world_ready [1] (fun _ _ => false)) 9 0 1 false rfl).2.2.2.1 (by decide)).1,
    (gscm_evt_handler_cache_stored (env_peer7 NRF_ERROR_BUSY)
      (world_ready [1] (fun _ _ => false)) 7 0 1 false rfl).2.2.2.2 (by decide)⟩

-- ---------------------------------------------------------------------------
-- Retry of the service changed indication; independence of the flags
-- ---------------------------------------------------------------------------

/-- A service changed send attempt on c appends steps that all concern c, exactly
    one of them a send call. -/
theorem service_changed_send_in_evt_trace (env : Env) (w : World) (c : Nat) :
    ∃ added, (service_changed_send_in_evt env w c).trace = w.trace ++ added
      ∧ added.filterMap (fun a => match a with
          | Action.gscm_service_changed_ind_send c2 _ => some c2
          | _ => none) = [c]
      ∧ ∀ a ∈ added, a.conn = some c := by
  obtain ⟨added, ht, hs, _, _⟩ := service_changed_send_in_evt_added env w c
  refine ⟨added, ht, hs, ?_⟩
  have hn := new_actions_of_append w _ added ht
  rw [service_changed_send_in_evt_new_actions] at hn
  rw [← hn]
  intro a ha
  rcases List.mem_cons.mp ha with h0 | h0
  · rw [h0]
    rfl
  · split_ifs at h0 with h1 h2
    · exact absurd h0 (List.not_mem_nil a)
    · by_cases hc : c = BLE_CONN_HANDLE_INVALID
      · have hnil : new_actions
            (w.record (Action.gscm_service_changed_ind_send c
              (env.gscm_service_changed_ind_send w.trace c)))
            (local_db_apply_in_evt env
              (w.record (Action.gscm_service_changed_ind_send c
                (env.gscm_service_changed_ind_send w.trace c))) c) = [] := by
          simp [local_db_apply_in_evt, hc, new_actions]
        rw [hnil] at h0
        exact absurd h0 (List.not_mem_nil a)
      · obtain ⟨a2, h3, _, _, _, h7⟩ := local_db_apply_in_evt_trace env
          (w.record (Action.gscm_service_changed_ind_send c
            (env.gscm_service_changed_ind_send w.trace c))) c hc
        rw [new_actions_of_append _ _ a2 h3] at h0
        exact h7 a h0
    · rw [List.mem_singleton.mp h0]
      rfl

/-- The Apply sweep sends no service changed indication. -/
theorem apply_pending_flags_check_no_send (env : Env) (w : World) :
    ∃ added, (apply_pending_flags_check env w).trace = w.trace ++ added
      ∧ send_calls added = [] := by
  rw [apply_pending_flags_check_eq_foldl]
  apply foldl_sweep_invariant (fun w c => local_db_apply_in_evt env w c)
    (fun w c => ble_conn_state_user_flag_get w c w.m_gcm.flag_id_local_db_apply_pending)
    (fun w2 => ∃ added, w2.trace = w.trace ++ added ∧ send_calls added = [])
  · intro w2 c2 ⟨added, ht, hs⟩ _
    obtain ⟨a2, h1, h2, _⟩ := local_db_apply_in_evt_added env w2 c2
    refine ⟨added ++ a2, by rw [h1, ht, List.append_assoc], ?_⟩
    rw [send_calls_append, hs, h2]
    rfl
  · exact ⟨[], by simp, rfl⟩

/-- The Update sweep sends no service changed indication and writes only
    update-pending slots. -/
theorem update_pending_flags_check_no_send (env : Env) (w : World) :
    (update_pending_flags_check env w).m_gcm = w.m_gcm
    ∧ (∀ f c, f ≠ w.m_gcm.flag_id_local_db_update_pending →
        (update_pending_flags_check env w).conn_state.user_flags f c
          = w.conn_state.user_flags f c)
    ∧ ∃ added, (update_pending_flags_check env w).trace = w.trace ++ added
      ∧ send_calls added = [] := by
  rw [update_pending_flags_check_eq_foldl]
  apply foldl_sweep_invariant (fun w c => local_db_update_in_evt env w c)
    (fun w c => ble_conn_state_user_flag_get w c w.m_gcm.flag_id_local_db_update_pending)
    (fun w2 => w2.m_gcm = w.m_gcm
      ∧ (∀ f c, f ≠ w.m_gcm.flag_id_local_db_update_pending →
          w2.conn_state.user_flags f c = w.conn_state.user_flags f c)
      ∧ ∃ added, w2.trace = w.trace ++ added ∧ send_calls added = [])
  · intro w2 c2 ⟨hg, hf, added, ht, hs⟩ _
    obtain ⟨a2, h1, h2, _⟩ := local_db_update_in_evt_added env w2 c2
    refine ⟨by rw [local_db_update_in_evt_m_gcm, hg], ?_, added ++ a2,
      by rw [h1, ht, List.append_assoc], ?_⟩
    · intro f c hne
      rw [local_db_update_in_evt_flags_frame env w2 c2 f c (Or.inl (by rw [hg]; exact hne))]
      exact hf f c hne
    · rw [send_calls_append, hs, h2]
      rfl
  · exact ⟨rfl, fun _ _ _ => rfl, [], by simp, rfl⟩

/-- The switch of gcm_ble_evt_handler sends no service changed indication. -/
theorem gcm_ble_evt_handler_trigger_no_send (env : Env) (w : World) (e : ble_evt_t) :
    ∃ added, (gcm_ble_evt_handler_trigger env w e).trace = w.trace ++ added
      ∧ send_calls added = [] := by
  unfold gcm_ble_evt_handler_trigger
  split_ifs
  · obtain ⟨a, h1, h2, _⟩ := local_db_apply_in_evt_added env w e.conn_handle
    exact ⟨a, h1, h2⟩
  · exact ⟨_, rfl, rfl⟩
  · obtain ⟨a, h1, h2, _⟩ := local_db_update_in_evt_added env w e.conn_handle
    exact ⟨a, h1, h2⟩
  · exact ⟨[], by simp, rfl⟩
  · exact ⟨[], by simp, rfl⟩

/-- The switch of gcm_ble_evt_handler keeps ServiceChanged-Pending(c) when the
    slots are distinct and the event is not a service changed confirmation for c. -/
theorem gcm_ble_evt_handler_trigger_keeps_sc (env : Env) (w : World) (e : ble_evt_t)
    (c : Nat)
    (hsa : w.m_gcm.flag_id_service_changed_pending ≠ w.m_gcm.flag_id_local_db_apply_pending)
    (hsu : w.m_gcm.flag_id_service_changed_pending ≠ w.m_gcm.flag_id_local_db_update_pending)
    (he : ¬ (e.evt_id = BLE_GATTS_EVT_SC_CONFIRM ∧ e.conn_handle = c)) :
    (gcm_ble_evt_handler_trigger env w e).conn_state.user_flags
        w.m_gcm.flag_id_service_changed_pending c
      = w.conn_state.user_flags w.m_gcm.flag_id_service_changed_pending c := by
  unfold gcm_ble_evt_handler_trigger
  split_ifs with h1 h2 h3 h4
  · exact local_db_apply_in_evt_flags_frame env w _ _ c (Or.inl hsa)
  · have hne : c ≠ e.conn_handle := fun hc => he ⟨h2, hc.symm⟩
    simp [ble_conn_state_user_flag_set, World.record, hne]
  · exact local_db_update_in_evt_flags_frame env w _ _ c (Or.inl hsu)
  · rfl
  · rfl

/-- C24: with a handler registered, distinct active handles and a
    ServiceChanged-Pending slot distinct from the other two, if
    ServiceChanged-Pending(c) is true for an active connection c then every call of
    gcm_ble_evt_handler whose event is not a service changed confirmation for c
    sends the service changed indication on c exactly once and leaves
    ServiceChanged-Pending(c) true, whatever the adapters answer. -/
theorem service_changed_retried_until_confirmed (env : Env) (w : World) (e : ble_evt_t)
    (c h : Nat)
    (_hreg : w.m_gcm.evt_handler = some h)
    (hc : c ∈ w.conn_state.conn_handles)
    (hnd : w.conn_state.conn_handles.Nodup)
    (hsa : w.m_gcm.flag_id_service_changed_pending ≠ w.m_gcm.flag_id_local_db_apply_pending)
    (hsu : w.m_gcm.flag_id_service_changed_pending ≠ w.m_gcm.flag_id_local_db_update_pending)
    (hset : service_changed_pending w c = true)
    (he : ¬ (e.evt_id = BLE_GATTS_EVT_SC_CONFIRM ∧ e.conn_handle = c)) :
    (send_calls (new_actions w (gcm_ble_evt_handler env w e))).count c = 1
    ∧ service_changed_pending (gcm_ble_evt_handler env w e) c = true := by
  -- the four stages: switch, Apply sweep, Update sweep, service changed sweep
  obtain ⟨tg, th⟩ := gcm_ble_evt_handler_trigger_frame env w e
  obtain ⟨a01, t01, s01⟩ := gcm_ble_evt_handler_trigger_no_send env w e
  have f01 := gcm_ble_evt_handler_trigger_keeps_sc env w e c hsa hsu he
  obtain ⟨ag, ah, af, _⟩ :=
    apply_pending_flags_check_frame env (gcm_ble_evt_handler_trigger env w e)
  obtain ⟨a12, t12, s12⟩ :=
    apply_pending_flags_check_no_send env (gcm_ble_evt_handler_trigger env w e)
  obtain ⟨ug, uf, a23, t23, s23⟩ := update_pending_flags_check_no_send env
    (apply_pending_flags_check env (gcm_ble_evt_handler_trigger env w e))
  obtain ⟨_, uh, _⟩ := update_pending_flags_check_frame env
    (apply_pending_flags_check env (gcm_ble_evt_handler_trigger env w e))
  -- state before the service changed sweep
  have hg3 : (update_pending_flags_check env
      (apply_pending_flags_check env (gcm_ble_evt_handler_trigger env w e))).m_gcm = w.m_gcm := by
    rw [ug, ag, tg]
  have hh3 : (update_pending_flags_check env
      (apply_pending_flags_check env
        (gcm_ble_evt_handler_trigger env w e))).conn_state.conn_handles
      = w.conn_state.conn_handles := by
    rw [uh, ah, th]
  have hf3 : (update_pending_flags_check env
      (apply_pending_flags_check env
        (gcm_ble_evt_handler_trigger env w e))).conn_state.user_flags
        w.m_gcm.flag_id_service_changed_pending c = true := by
    rw [uf _ c (by rw [ag, tg]; exact hsu), af _ c (by rw [tg]; exact hsa), f01]
    exact hset
  -- the service changed sweep sends exactly on the flagged connections
  obtain ⟨a34, t34, s34, _⟩ := foldl_sweep_calls
    (fun w c => service_changed_send_in_evt env w c)
    (fun w c => ble_conn_state_user_flag_get w c w.m_gcm.flag_id_service_changed_pending)
    (fun a => match a with
      | Action.gscm_service_changed_ind_send c2 _ => some c2
      | _ => none)
    (fun _ => True)
    (fun w c c2 hne => by
      simp only [ble_conn_state_user_flag_get, service_changed_send_in_evt_m_gcm]
      exact service_changed_send_in_evt_flags_other env w c _ c2 hne)
    (fun w c _ => service_changed_send_in_evt_trace env w c)
    (update_pending_flags_check env
      (apply_pending_flags_check env
        (gcm_ble_evt_handler_trigger env w e))).conn_state.conn_handles
    (update_pending_flags_check env
      (apply_pending_flags_check env (gcm_ble_evt_handler_trigger env w e)))
    (by rw [hh3]; exact hnd) (fun _ _ => trivial)
  rw [← service_changed_pending_flags_check_eq_foldl] at t34
  have htot : (gcm_ble_evt_handler env w e).trace
      = w.trace ++ (a01 ++ (a12 ++ (a23 ++ a34))) := by
    rw [gcm_ble_evt_handler_eq]
    unfold sweep_all
    rw [t34, t23, t12, t01]
    simp only [List.append_assoc]
  obtain ⟨sg, sf⟩ := service_changed_check_flags env
    (update_pending_flags_check env
      (apply_pending_flags_check env (gcm_ble_evt_handler_trigger env w e)))
  constructor
  · rw [new_actions_of_append w _ _ htot, send_calls_append, send_calls_append,
      send_calls_append, s01, s12, s23]
    simp only [List.nil_append]
    have hs34 : send_calls a34
        = (update_pending_flags_check env
            (apply_pending_flags_check env
              (gcm_ble_evt_handler_trigger env w e))).conn_state.conn_handles.filter
            (fun c => ble_conn_state_user_flag_get
              (update_pending_flags_check env
                (apply_pending_flags_check env (gcm_ble_evt_handler_trigger env w e))) c
              (update_pending_flags_check env
                (apply_pending_flags_check env
                  (gcm_ble_evt_handler_trigger env w e))).m_gcm.flag_id_service_changed_pending) :=
      s34
    rw [hs34, count_filter_nodup _ _ (by rw [hh3]; exact hnd) c, hh3]
    have hflag : ble_conn_state_user_flag_get
        (update_pending_flags_check env
          (apply_pending_flags_check env (gcm_ble_evt_handler_trigger env w e))) c
        (update_pending_flags_check env
          (apply_pending_flags_check env
            (gcm_ble_evt_handler_trigger env w e))).m_gcm.flag_id_service_changed_pending
        = true := by
      rw [ble_conn_state_user_flag_get, hg3]
      exact hf3
    rw [if_pos ⟨hc, hflag⟩]
  · rw [gcm_ble_evt_handler_eq]
    unfold sweep_all
    rw [service_changed_pending, ble_conn_state_user_flag_get, sg, hg3]
    rw [hg3] at sf
    rw [sf c]
    exact hf3

/-- Instance of C24: ServiceChanged-Pending is set on connection 1; a link connected
    event for connection 2 makes the handler send the indication on 1 once, and the
    flag is still true although the send answered Success. -/
theorem service_changed_retried_until_confirmed_witness :
    (world_ready [1, 2] flags_sc_one).m_gcm.evt_handler = some 1
    ∧ 1 ∈ (world_ready [1, 2] flags_sc_one).conn_state.conn_handles
    ∧ (world_ready [1, 2] flags_sc_one).conn_state.conn_handles.Nodup
    ∧ service_changed_pending (world_ready [1, 2] flags_sc_one) 1 = true
    ∧ ¬ ((evt_connected 2).evt_id = BLE_GATTS_EVT_SC_CONFIRM ∧ (evt_connected 2).conn_handle = 1)
    ∧ (send_calls (new_actions (world_ready [1, 2] flags_sc_one)
        (gcm_ble_evt_handler (env_const 0 0 NRF_SUCCESS peer_of_one)
          (world_ready [1, 2] flags_sc_one) (evt_connected 2)))).count 1 = 1
    ∧ service_changed_pending (gcm_ble_evt_handler (env_const 0 0 NRF_SUCCESS peer_of_one)
        (world_ready [1, 2] flags_sc_one) (evt_connected 2)) 1 = true :=
  have key := service_changed_retried_until_confirmed (env_const 0 0 NRF_SUCCESS peer_of_one)
    (world_ready [1, 2] flags_sc_one) (evt_connected 2) 1 1 rfl (by decide) (by decide)
    (by decide) (by decide) (by decide) (by decide)
  ⟨rfl, by decide, by decide, by decide, by decide, key.1, key.2⟩

/-- C25: with a handler registered and three distinct flag slots, a trigger-driven
    Update attempt on c changes no flag other than Update-Pending(c) and a
    trigger-driven Apply attempt on c changes no flag other than Apply-Pending(c),
    for every adapter answer: every other slot of the registry keeps its value, so
    the other two flags of c and all three flags of every other handle are
    unchanged. -/
theorem attempts_change_only_own_flag (env : Env) (w : World) (c h : Nat)
    (_hreg : w.m_gcm.evt_handler = some h)
    (hua : w.m_gcm.flag_id_local_db_update_pending ≠ w.m_gcm.flag_id_local_db_apply_pending)
    (hus : w.m_gcm.flag_id_local_db_update_pending ≠ w.m_gcm.flag_id_service_changed_pending)
    (has : w.m_gcm.flag_id_local_db_apply_pending ≠ w.m_gcm.flag_id_service_changed_pending) :
    (∀ f c2, (f ≠ w.m_gcm.flag_id_local_db_update_pending ∨ c2 ≠ c) →
        (local_db_update_in_evt env w c).conn_state.user_flags f c2
          = w.conn_state.user_flags f c2)
    ∧ (∀ f c2, (f ≠ w.m_gcm.flag_id_local_db_apply_pending ∨ c2 ≠ c) →
        (local_db_apply_in_evt env w c).conn_state.user_flags f c2
          = w.conn_state.user_flags f c2)
    ∧ (∀ c2, apply_pending (local_db_update_in_evt env w c) c2 = apply_pending w c2
        ∧ service_changed_pending (local_db_update_in_evt env w c) c2
            = service_changed_pending w c2
        ∧ (c2 ≠ c → update_pending (local_db_update_in_evt env w c) c2 = update_pending w c2))
    ∧ (∀ c2, update_pending (local_db_apply_in_evt env w c) c2 = update_pending w c2
        ∧ service_changed_pending (local_db_apply_in_evt env w c) c2
            = service_changed_pending w c2
        ∧ (c2 ≠ c → apply_pending (local_db_apply_in_evt env w c) c2 = apply_pending w c2)) := by
  refine ⟨fun f c2 hne => local_db_update_in_evt_flags_frame env w c f c2 hne,
    fun f c2 hne => local_db_apply_in_evt_flags_frame env w c f c2 hne, ?_, ?_⟩
  · intro c2
    simp only [apply_pending, service_changed_pending, update_pending,
      ble_conn_state_user_flag_get, local_db_update_in_evt_m_gcm]
    exact ⟨local_db_update_in_evt_flags_frame env w c _ c2 (Or.inl hua.symm),
      local_db_update_in_evt_flags_frame env w c _ c2 (Or.inl hus.symm),
      fun hne => local_db_update_in_evt_flags_frame env w c _ c2 (Or.inr hne)⟩
  · intro c2
    simp only [apply_pending, service_changed_pending, update_pending,
      ble_conn_state_user_flag_get, local_db_apply_in_evt_m_gcm]
    exact ⟨local_db_apply_in_evt_flags_frame env w c _ c2 (Or.inl hua),
      local_db_apply_in_evt_flags_frame env w c _ c2 (Or.inl has.symm),
      fun hne => local_db_apply_in_evt_flags_frame env w c _ c2 (Or.inr hne)⟩

/-- Instance of C25: all flags are set beforehand and the update adapter answers
    Success on connection 1; Update-Pending(1) is cleared while Apply-Pending(1) and
    Update-Pending(2) stay set. -/
theorem attempts_change_only_own_flag_witness :
    (world_ready [1, 2] (fun _ _ => true)).m_gcm.evt_handler = some 1
    ∧ (world_ready [1, 2] (fun _ _ => true)).m_gcm.flag_id_local_db_update_pending
        ≠ (world_ready [1, 2] (fun _ _ => true)).m_gcm.flag_id_local_db_apply_pending
    ∧ (world_ready [1, 2] (fun _ _ => true)).m_gcm.flag_id_local_db_update_pending
        ≠ (world_ready [1, 2] (fun _ _ => true)).m_gcm.flag_id_service_changed_pending
    ∧ (world_ready [1, 2] (fun _ _ => true)).m_gcm.flag_id_local_db_apply_pending
        ≠ (world_ready [1, 2] (fun _ _ => true)).m_gcm.flag_id_service_changed_pending
    ∧ update_pending (local_db_update_in_evt (env_const NRF_SUCCESS 0 0 peer_of_one)
        (world_ready [1, 2] (fun _ _ => true)) 1) 1 = false
    ∧ apply_pending (local_db_update_in_evt (env_const NRF_SUCCESS 0 0 peer_of_one)
        (world_ready [1, 2] (fun _ _ => true)) 1) 1
      = apply_pending (world_ready [1, 2] (fun _ _ => true)) 1
    ∧ update_pending (local_db_update_in_evt (env_const NRF_SUCCESS 0 0 peer_of_one)
        (world_ready [1, 2] (fun _ _ => true)) 1) 2
      = update_pending (world_ready [1, 2] (fun _ _ => true)) 2 :=
  have key := (attempts_change_only_own_flag (env_const NRF_SUCCESS 0 0 peer_of_one)
    (world_ready [1, 2] (fun _ _ => true)) 1 1 rfl (by decide) (by decide) (by decide)).2.2.1
  ⟨rfl, by decide, by decide, by decide, by decide, (key 1).1, (key 2).2.2 (by decide)⟩

end GCM

namespace EPD

/-- Byte i of a packet without its first byte is byte i + 1 of the packet. -/
theorem getD_drop_one (data : List Nat) (i : Nat) :
    (data.drop 1).getD i 0 = data.getD (i + 1) 0 := by
  simp [List.getD_eq_getElem?_getD, List.getElem?_drop, Nat.add_comm]

/-- Saving the configuration to flash does not change the memory of the service
    structure. -/
theorem epd_config_save_mem (env : epd_env) (p : ble_epd_t) :
    (epd_config_save env p).2.mem = p.mem := by
  simp only [epd_config_save, epd_config_clear]
  split_ifs <;> rfl

/-- The command SET_CONFIG on a packet the callback does not consume: nothing for
    a packet shorter than two bytes, and otherwise the copy of the packet bytes
    followed by the save to flash. -/
theorem epd_service_process_set_config (env : epd_env) (p : ble_epd_t) (data : List Nat)
    (length : Nat) (hcmd : data.getD 0 0 = env.EPD_CMD_SET_CONFIG)
    (hdist : set_config_label_distinct env) (hcb : not_consumed p data length) :
    (epd_service_process env p (some data) length).mem
      = if length < 2 then p.mem
        else memcpy p.mem (data.drop 1)
          (if length - 1 > EPD_CONFIG_SIZE env then EPD_CONFIG_SIZE env else length - 1) := by
  obtain ⟨d1, d2, d3, d4, d5, d6, d7⟩ := hdist
  unfold epd_service_process
  by_cases h0 : length ≤ 0
  · have h2 : length < 2 := by omega
    simp [h0, h2]
  · simp only [if_neg h0, hcmd]
    cases hcbv : p.epd_cmd_cb with
    | none =>
      simp only [Bool.false_eq_true, if_false, if_neg d1, if_neg d2, if_neg d3, if_neg d4,
        if_neg d5, if_neg d6, if_neg d7, if_true]
      by_cases h2 : length < 2
      · simp only [if_pos h2]
      · simp only [if_neg h2]
        rw [epd_config_save_mem]
    | some cb =>
      have hret := hcb cb hcbv
      rw [hcmd] at hret
      simp only [hret, Bool.false_eq_true, if_false, if_neg d1, if_neg d2, if_neg d3, if_neg d4,
        if_neg d5, if_neg d6, if_neg d7, if_true]
      by_cases h2 : length < 2
      · simp only [if_pos h2]
        rfl
      · simp only [if_neg h2]
        rw [epd_config_save_mem]
        rfl

/-- C26: for a received packet of length L whose first byte is EPD_CMD_SET_CONFIG
    and that the command callback, if any, does not consume: if L < 2 the memory of
    the service structure, hence the stored configuration, is unchanged; otherwise
    exactly the first min(L - 1, EPD_CONFIG_SIZE) bytes of the configuration are
    overwritten with packet bytes 1 .. min(L - 1, EPD_CONFIG_SIZE) and every later
    byte is unchanged; EPD_CONFIG_SIZE is sizeof(epd_config_t), so no byte outside
    the configuration structure is written, however long the packet is. -/
theorem set_config_overwrites_leading_bytes (env : epd_env) (p : ble_epd_t) (data : List Nat)
    (length : Nat) (_hlen : length ≤ data.length)
    (hcmd : data.getD 0 0 = env.EPD_CMD_SET_CONFIG)
    (hdist : set_config_label_distinct env) (hcb : not_consumed p data length) :
    (length < 2 → (epd_service_process env p (some data) length).mem = p.mem)
    ∧ (2 ≤ length → ∀ i,
        (epd_service_process env p (some data) length).mem i
          = if i < min (length - 1) (EPD_CONFIG_SIZE env) then data.getD (i + 1) 0
            else p.mem i)
    ∧ EPD_CONFIG_SIZE env = env.sizeof_epd_config_t
    ∧ (∀ i, env.sizeof_epd_config_t ≤ i →
        (epd_service_process env p (some data) length).mem i = p.mem i) := by
  have hmem := epd_service_process_set_config env p data length hcmd hdist hcb
  have hsize : EPD_CONFIG_SIZE env = env.sizeof_epd_config_t := by
    simp [EPD_CONFIG_SIZE]
  have hn : (if length - 1 > EPD_CONFIG_SIZE env then EPD_CONFIG_SIZE env else length - 1)
      = min (length - 1) (EPD_CONFIG_SIZE env) := by
    split_ifs with h
    · exact (Nat.min_eq_right (Nat.le_of_lt h)).symm
    · exact (Nat.min_eq_left (Nat.le_of_not_lt h)).symm
  refine ⟨?_, ?_, hsize, ?_⟩
  · intro h2
    rw [hmem, if_pos h2]
  · intro h2 i
    rw [hmem, if_neg (by omega), hn]
    simp only [memcpy, getD_drop_one]
  · intro i hi
    rw [hmem]
    by_cases h2 : length < 2
    · rw [if_pos h2]
    · rw [if_neg h2, hn]
      have hge : ¬ i < min (length - 1) (EPD_CONFIG_SIZE env) := by
        rw [hsize]
        have := Nat.min_le_right (length - 1) env.sizeof_epd_config_t
        omega
      simp only [memcpy, if_neg hge]

/-- Instance of C26: a 13 byte SET_CONFIG packet on a ten byte configuration that
    held 0xFF: bytes 0 to 9 of the configuration become the packet bytes 1 to 10
    and the byte that follows the configuration keeps 0xFF. -/
theorem set_config_overwrites_leading_bytes_witness :
    (13 : Nat) ≤ packet_demo.length
    ∧ packet_demo.getD 0 0 = env_demo.EPD_CMD_SET_CONFIG
    ∧ set_config_label_distinct env_demo
    ∧ not_consumed epd_demo packet_demo 13
    ∧ (List.range 12).map (epd_service_process env_demo epd_demo (some packet_demo) 13).mem
      = [1, 2, 3, 4, 5, 6, 7, 8, 9, 10, 0xFF, 0xFF] :=
  have hd : set_config_label_distinct env_demo := by
    unfold set_config_label_distinct
    decide
  have hc : not_consumed epd_demo packet_demo 13 := by
    intro cb hcb
    exact absurd hcb (by simp [epd_demo])
  have key := (set_config_overwrites_leading_bytes env_demo epd_demo packet_demo 13
    (by decide) rfl hd hc).2.1 (by decide)
  ⟨by decide, rfl, hd, hc, by
    simp only [List.range, List.range.loop, List.map]
    simp only [key]
    decide⟩

end EPD
